import Mathlib

/-!
Verification of the topology generator in `scripts/testdata.py`.

The Python source is shallowly embedded: the global id counter and the
`random` module are modelled by an explicit `GenState` (a counter plus a
stream of oracle naturals consumed sequentially), Python dicts for devices
and connections become structures, loops become structural recursions that
append in the same order as the source, and Python's `int()` applied to a
float product is modelled by exact rational arithmetic truncated toward
zero (`pyInt`).  For every concrete input appearing in a theorem below the
exact-rational value of `total * 0.01`, `total * 0.03`, `base * scale`
agrees with the IEEE-double value computed by CPython, so the truncation
results coincide.
-/

/-- One decimal digit `d < 10` rendered as a character, as Python string
formatting does. -/
def digitChar (d : ℕ) : Char := Char.ofNat (48 + d)

/-- Fuel-driven most-significant-first decimal digits of `n` (empty for 0). -/
def digitsAux : ℕ → ℕ → List Char
  | 0, _ => []
  | fuel + 1, n => if n = 0 then [] else digitsAux fuel (n / 10) ++ [digitChar (n % 10)]

/-- Decimal representation of a natural number, as produced by Python's
`str`/format: `0 ↦ "0"`, otherwise no leading zeros. -/
def decRepr (n : ℕ) : List Char := if n = 0 then ['0'] else digitsAux n n

/-- Python's `f"{n:04d}"`: the decimal representation left-padded with `'0'`
to width 4 (modelled on the character-list level). -/
def pad4 (n : ℕ) : List Char := List.replicate (4 - (decRepr n).length) '0' ++ decRepr n

/-- `f"{n:04d}"` as a `String`. -/
def pad4S (n : ℕ) : String := ⟨pad4 n⟩

/-- Reads a digit list back into a number (left fold, base 10). -/
def digitsVal (a : ℕ) (l : List Char) : ℕ :=
  l.foldl (fun acc c => 10 * acc + (c.toNat - 48)) a

/-- Python's `int()` applied to an exact rational: truncation toward zero. -/
def pyInt (q : ℚ) : ℤ :=
  if q.num < 0 then -((((-q.num).toNat / q.den : ℕ) : ℤ)) else (((q.num.toNat / q.den : ℕ) : ℤ))

/-- A usable device-id prefix: dash-free and distinct from the reserved
word `Server` that heads derived server-group ids. -/
def GoodPfx (p : String) : Prop := '-' ∉ p.data ∧ p ≠ "Server"

/-- The canonical shape of every id occurring in a run: `b` tells whether it
is a derived `Server_Group` id, `p` is the allocation prefix, `c` the
allocator counter value, `t` the run-constant location tag. -/
def render (b : Bool) (p : String) (c : ℕ) (t : String) : String :=
  (if b then "Server-" else "") ++ (p ++ "-" ++ pad4S c ++ t)

/-- All ids of a device-list slice are rendered with counters in the
half-open interval `(c₀, c₁]` and are pairwise distinct. -/
def IdsSpec (t : String) (c₀ c₁ : ℕ) (ids : List String) : Prop :=
  c₀ ≤ c₁ ∧
  (∀ id ∈ ids, ∃ b p c, GoodPfx p ∧ c₀ < c ∧ c ≤ c₁ ∧ id = render b p c t) ∧ ids.Nodup

/-! ## Data model

`Device` and `Connection` mirror the dict records of `testdata.py`
(`{"id": …, "type": …, "layer": …}` with the optional `"count"` key, and
`{"from": …, "to": …, "link_type": …}`; `from`/`to` are spelled
`cfrom`/`cto` because `from` is reserved in Lean). -/

structure Device where
  id : String
  type : String
  layer : String
  count : Option ℕ
deriving DecidableEq, Repr

structure Connection where
  cfrom : String
  cto : String
  link_type : String
deriving DecidableEq, Repr

/-- The run-scoped mutable state of the script: the global
`device_id_counter` plus the `random` module, modelled as an oracle stream
`rng` consumed at position `rpos` (one draw per `random.randint` /
`random.choice` call). -/
structure GenState where
  counter : ℕ
  rng : ℕ → ℕ
  rpos : ℕ

/-- The global location configuration (`global_dc_location_suffix`,
`global_dc_location_delimiter`), set once per run before any allocation. -/
structure LocCfg where
  loc_suffix : String
  loc_delim : String

/-- The run-constant tail appended to every id:
`f"{delimiter}{suffix}"` when a suffix is configured, otherwise empty. -/
def locTag (cfg : LocCfg) : String :=
  if cfg.loc_suffix ≠ "" then cfg.loc_delim ++ cfg.loc_suffix else ""

/-- `generate_device_id` (testdata.py:12-20): increments the global counter
and renders `f"{prefix}-{counter:04d}"`, appending delimiter and suffix
when a location suffix is configured. -/
def generate_device_id (cfg : LocCfg) (p : String) (s : GenState) : String × GenState :=
  let c := s.counter + 1
  (if cfg.loc_suffix ≠ "" then p ++ "-" ++ pad4S c ++ cfg.loc_delim ++ cfg.loc_suffix
   else p ++ "-" ++ pad4S c,
   { s with counter := c })

/-- `random.randint(lo, hi)`: some value in `[lo, hi]`, taken from the
oracle stream. -/
def randint (lo hi : ℕ) (s : GenState) : ℕ × GenState :=
  (lo + s.rng s.rpos % (hi + 1 - lo), { s with rpos := s.rpos + 1 })

/-- `random.choice(l)`: an oracle-chosen element of `l` (callers guard
against the empty list, where CPython would raise). -/
def choice (l : List String) (s : GenState) : String × GenState :=
  (l.getD (s.rng s.rpos % l.length) "", { s with rpos := s.rpos + 1 })

/-! ## Tier-builder loops

The three builders (`create_three_tier_topology`,
`create_spine_leaf_topology`, `create_fat_tree_topology`) share three loop
shapes, which are factored here with the per-style constants (prefix,
type, layer, link type, server-count range) as parameters; each builder
below instantiates them exactly as its Python loops do. -/

/-- A top-layer loop (`for _ in range(n)`): allocate an id, append a
device, collect the id (three-tier core / spine / fat-tree core-spine /
interconnect loops). -/
def allocLoop (cfg : LocCfg) (p ty ly : String) : ℕ → GenState → List Device × List String × GenState
  | 0, s => ([], [], s)
  | n + 1, s =>
    let r := generate_device_id cfg p s
    let rest := allocLoop cfg p ty ly n r.2
    (⟨r.1, ty, ly, none⟩ :: rest.1, r.1 :: rest.2.1, rest.2.2)

/-- Middle-layer inner loop: `for _ in range(k)` children of one parent,
each linked to the parent (aggregation / fat-tree agg-spine loops). -/
def childInner (cfg : LocCfg) (p ty ly lk : String) (parent : String) :
    ℕ → GenState → List Device × List Connection × List String × GenState
  | 0, s => ([], [], [], s)
  | k + 1, s =>
    let r := generate_device_id cfg p s
    let rest := childInner cfg p ty ly lk parent k r.2
    (⟨r.1, ty, ly, none⟩ :: rest.1, ⟨r.1, parent, lk⟩ :: rest.2.1,
     r.1 :: rest.2.2.1, rest.2.2.2)

/-- Middle-layer outer loop: `for parent in parents:` run the inner loop. -/
def childOuter (cfg : LocCfg) (p ty ly lk : String) (k : ℕ) :
    List String → GenState → List Device × List Connection × List String × GenState
  | [], s => ([], [], [], s)
  | parent :: rest, s =>
    let r₁ := childInner cfg p ty ly lk parent k s
    let r₂ := childOuter cfg p ty ly lk k rest r₁.2.2.2
    (r₁.1 ++ r₂.1, r₁.2.1 ++ r₂.2.1, r₁.2.2.1 ++ r₂.2.2.1, r₂.2.2.2)

/-- Bottom-layer inner loop with optional server groups: each child device
links to its parent, and when `add` is set it gets a derived
`Server-{id}` group with an oracle-drawn `count` in `[sLo, sHi]`
(access / fat-tree edge-leaf loops). -/
def srvInner (cfg : LocCfg) (p ty ly lk : String) (sLo sHi : ℕ) (sLk : String)
    (add : Bool) (parent : String) :
    ℕ → GenState → List Device × List Connection × GenState
  | 0, s => ([], [], s)
  | k + 1, s =>
    let r := generate_device_id cfg p s
    if add then
      let sid := "Server-" ++ r.1
      let rc := randint sLo sHi r.2
      let rest := srvInner cfg p ty ly lk sLo sHi sLk add parent k rc.2
      (⟨r.1, ty, ly, none⟩ :: ⟨sid, "Server_Group", "Endpoint", some rc.1⟩ :: rest.1,
       ⟨r.1, parent, lk⟩ :: ⟨r.1, sid, sLk⟩ :: rest.2.1, rest.2.2)
    else
      let rest := srvInner cfg p ty ly lk sLo sHi sLk add parent k r.2
      (⟨r.1, ty, ly, none⟩ :: rest.1, ⟨r.1, parent, lk⟩ :: rest.2.1, rest.2.2)

/-- Bottom-layer outer loop: `for parent in parents:` run `srvInner`. -/
def srvOuter (cfg : LocCfg) (p ty ly lk : String) (sLo sHi : ℕ) (sLk : String)
    (add : Bool) (k : ℕ) :
    List String → GenState → List Device × List Connection × GenState
  | [], s => ([], [], s)
  | parent :: rest, s =>
    let r₁ := srvInner cfg p ty ly lk sLo sHi sLk add parent k s
    let r₂ := srvOuter cfg p ty ly lk sLo sHi sLk add k rest r₁.2.2
    (r₁.1 ++ r₂.1, r₁.2.1 ++ r₂.2.1, r₂.2.2)

/-- Leaf loop of `create_spine_leaf_topology` (testdata.py:85-98): each leaf
connects to every spine (full bipartite ECMP fabric) and optionally gets a
server group with count in `[20, 48]`. -/
def slLeafLoop (cfg : LocCfg) (spines : List String) (add : Bool) :
    ℕ → GenState → List Device × List Connection × GenState
  | 0, s => ([], [], s)
  | k + 1, s =>
    let r := generate_device_id cfg "LF" s
    let spineConns := spines.map (fun sp => (⟨r.1, sp, "L3_routed_ECMP"⟩ : Connection))
    if add then
      let sid := "Server-" ++ r.1
      let rc := randint 20 48 r.2
      let rest := slLeafLoop cfg spines add k rc.2
      (⟨r.1, "Leaf_Switch", "Leaf_SL", none⟩ :: ⟨sid, "Server_Group", "Endpoint", some rc.1⟩ :: rest.1,
       spineConns ++ ⟨r.1, sid, "L2_access_VXLAN"⟩ :: rest.2.1, rest.2.2)
    else
      let rest := slLeafLoop cfg spines add k r.2
      (⟨r.1, "Leaf_Switch", "Leaf_SL", none⟩ :: rest.1, spineConns ++ rest.2.1, rest.2.2)

/-- The three fixed external placeholder endpoints wired from each border
leaf, suffixed like internal ids when a location is configured
(testdata.py:182-185). -/
def extNames (cfg : LocCfg) : List String :=
  ["External_ISP_Router" ++ locTag cfg,
   "WAN_Router_or_SDWAN_Hub" ++ locTag cfg,
   "Security_Appliance" ++ locTag cfg]

/-- Border-leaf loop (testdata.py:172-185): allocate a `BL` device, wire it
to one oracle-chosen interconnect switch when any exists, and to the three
external placeholders. -/
def blLoop (cfg : LocCfg) (pool : List String) :
    ℕ → GenState → List Device × List Connection × GenState
  | 0, s => ([], [], s)
  | n + 1, s =>
    let r := generate_device_id cfg "BL" s
    let rup := if pool.isEmpty then (([] : List Connection), r.2)
               else
                 let rch := choice pool r.2
                 ([(⟨r.1, rch.1, "L3_routed"⟩ : Connection)], rch.2)
    let extConns : List Connection :=
      [⟨r.1, "External_ISP_Router" ++ locTag cfg, "BGP_peering"⟩,
       ⟨r.1, "WAN_Router_or_SDWAN_Hub" ++ locTag cfg, "WAN_connection"⟩,
       ⟨r.1, "Security_Appliance" ++ locTag cfg, "Service_Chain"⟩]
    let rest := blLoop cfg pool n rup.2
    (⟨r.1, "Border_Leaf_Switch", "Border", none⟩ :: rest.1,
     rup.1 ++ extConns ++ rest.2.1, rest.2.2)

/-- Uplink wiring of one pod's top-level ids to oracle-chosen interconnect
switches (testdata.py:199-201, 211-213, 224-226). -/
def uplinkLoop (pool : List String) (lt : String) :
    List String → GenState → List Connection × GenState
  | [], s => ([], s)
  | o :: rest, s =>
    let rch := choice pool s
    let rcs := uplinkLoop pool lt rest rch.2
    (⟨o, rch.1, lt⟩ :: rcs.1, rcs.2)

/-- Result record of `create_three_tier_topology`. -/
structure TTResult where
  devices : List Device
  connections : List Connection
  core_outputs : List String

/-- Result record of `create_spine_leaf_topology`. -/
structure SLResult where
  devices : List Device
  connections : List Connection
  spine_outputs : List String

/-- Result record of `create_fat_tree_topology`. -/
structure FTResult where
  devices : List Device
  connections : List Connection
  core_spine_outputs : List String

/-- `create_three_tier_topology` (testdata.py:22-62): cores, then per-core
aggregation switches, then per-aggregation access switches with optional
server groups (`randint(10, 20)`); the aggregation and access layers are
built only when the previous layer is non-empty. -/
def create_three_tier_topology (num_core num_agg_per_core num_access_per_agg : ℕ)
    (add_servers : Bool) (cfg : LocCfg) (s : GenState) : TTResult × GenState :=
  let rc := allocLoop cfg "C" "Core_Switch" "Core_3T" num_core s
  let ra := if rc.2.1.isEmpty then ([], [], [], rc.2.2)
            else childOuter cfg "A" "Aggregation_Switch" "Aggregation_3T" "L2_trunk_L3_routed"
              num_agg_per_core rc.2.1 rc.2.2
  let rs := if ra.2.2.1.isEmpty then ([], [], ra.2.2.2)
            else srvOuter cfg "AS" "Access_Switch" "Access_3T" "L2_trunk" 10 20 "L2_access"
              add_servers num_access_per_agg ra.2.2.1 ra.2.2.2
  (⟨rc.1 ++ ra.1 ++ rs.1, ra.2.1 ++ rs.2.1, rc.2.1⟩, rs.2.2)

/-- `create_spine_leaf_topology` (testdata.py:64-100): spines, then
`int(num_leaves_per_spine_base * num_spines)` leaves (with the `== 0`
floor to 1 when spines exist), each leaf wired to every spine, optional
server groups (`randint(20, 48)`). -/
def create_spine_leaf_topology (num_spines : ℕ) (num_leaves_per_spine_base : ℚ)
    (add_servers : Bool) (cfg : LocCfg) (s : GenState) : SLResult × GenState :=
  let rsp := allocLoop cfg "SP" "Spine_Switch" "Spine_SL" num_spines s
  let rl := if rsp.2.1.isEmpty then ([], [], rsp.2.2)
            else
              let n0 : ℤ := pyInt (num_leaves_per_spine_base * (num_spines : ℚ))
              let n1 : ℤ := if n0 = 0 ∧ 0 < num_spines then 1 else n0
              slLeafLoop cfg rsp.2.1 add_servers n1.toNat rsp.2.2
  (⟨rsp.1 ++ rl.1, rl.2.1, rsp.2.1⟩, rl.2.2)

/-- `create_fat_tree_topology` (testdata.py:102-142): core spines, per-core
aggregation spines, per-aggregation edge leaves with optional server
groups (`randint(30, 60)`). -/
def create_fat_tree_topology (core_spines agg_spines_per_core edge_leaves_per_agg : ℕ)
    (add_servers : Bool) (cfg : LocCfg) (s : GenState) : FTResult × GenState :=
  let rc := allocLoop cfg "FTCS" "FatTree_Core_Spine" "FT_Core" core_spines s
  let ra := if rc.2.1.isEmpty then ([], [], [], rc.2.2)
            else childOuter cfg "FTAS" "FatTree_Agg_Spine" "FT_Aggregation" "L3_routed_ECMP"
              agg_spines_per_core rc.2.1 rc.2.2
  let re := if ra.2.2.1.isEmpty then ([], [], ra.2.2.2)
            else srvOuter cfg "FTEL" "FatTree_Edge_Leaf" "FT_Edge" "L3_routed_ECMP_L2_VLAN_overlay"
              30 60 "L2_access_VXLAN" add_servers edge_leaves_per_agg ra.2.2.1 ra.2.2.2
  (⟨rc.1 ++ ra.1 ++ re.1, ra.2.1 ++ re.2.1, rc.2.1⟩, re.2.2)

/-! ## Topology Composer (`create_datacenter_topology`, testdata.py:144-294)

The composer's locals are factored into named definitions over an `Args`
record so that proofs can address each intermediate result; `composeRun`
assembles them exactly as the Python function body does. -/

/-- Python `str.upper()` (ASCII case mapping suffices for this program). -/
def pyUpper (x : String) : String := ⟨x.data.map Char.toUpper⟩

/-- Python `str.startswith(p)`, modelled on the character level. -/
def pyStartswith (x p : String) : Bool := p.data.isPrefixOf x.data

/-- Python `str.endswith(p)`, modelled on the character level. -/
def pyEndswith (x p : String) : Bool := p.data.isSuffixOf x.data

/-- Truthiness of the `dc_location` argument (`if dc_location:`): `None`
and the empty string are falsy. -/
def locTruthy : Option String → Bool
  | none => false
  | some l => !(l == "")

/-- The location configuration set at the start of a run
(testdata.py:151-156): uppercased suffix and the chosen delimiter when
`dc_location` is truthy, otherwise both empty. -/
def mkCfg : Option String → String → LocCfg
  | none, _ => ⟨"", ""⟩
  | some l, d => if l ≠ "" then ⟨pyUpper l, d⟩ else ⟨"", ""⟩

/-- Generation inputs of one composer run (the keyword arguments of
`create_datacenter_topology` after location normalization, plus the
random oracle). -/
structure Args where
  fat_tree_scale : ℚ
  spine_leaf_scale : ℚ
  three_tier_scale : ℚ
  total_target_devices : ℤ
  cfg : LocCfg
  truthy : Bool
  rng : ℕ → ℕ

/-- `num_core_interconnect = max(1, int(total_target_devices * 0.01))`. -/
def icCount (total : ℤ) : ℕ := (max 1 (pyInt ((total : ℚ) * (1 / 100)))).toNat

/-- `num_border_leaf = max(1, int(total_target_devices * 0.03))`. -/
def blCount (total : ℤ) : ℕ := (max 1 (pyInt ((total : ℚ) * (3 / 100)))).toNat

/-- `max(1, int(base * scale))` for the per-pod sizing parameters. -/
def scaledParam (base : ℕ) (scale : ℚ) : ℕ := (max 1 (pyInt ((base : ℚ) * scale))).toNat

/-- The interconnect-layer loop (testdata.py:162-167) from the freshly
reset state. -/
def icRun (a : Args) : List Device × List String × GenState :=
  allocLoop a.cfg "DCCore" "DC_Core_Interconnect_Switch" "DC_Interconnect"
    (icCount a.total_target_devices) ⟨0, a.rng, 0⟩

/-- `core_interconnect_switches`. -/
def icSwitches (a : Args) : List String := (icRun a).2.1

/-- The border-leaf loop (testdata.py:170-185). -/
def blRun (a : Args) : List Device × List Connection × GenState :=
  blLoop a.cfg (icSwitches a) (blCount a.total_target_devices) (icRun a).2.2

/-- The fat-tree pod (testdata.py:192-196). -/
def ftRun (a : Args) : FTResult × GenState :=
  create_fat_tree_topology (scaledParam 4 a.fat_tree_scale) (scaledParam 5 a.fat_tree_scale)
    (scaledParam 20 a.fat_tree_scale) true a.cfg (blRun a).2.2

/-- Fat-tree uplinks (testdata.py:199-201). -/
def ftUplinks (a : Args) : List Connection × GenState :=
  if (ftRun a).1.core_spine_outputs.isEmpty || (icSwitches a).isEmpty then ([], (ftRun a).2)
  else uplinkLoop (icSwitches a) "L3_routed" (ftRun a).1.core_spine_outputs (ftRun a).2

/-- The spine-leaf pod (testdata.py:205-208); note the base leaf parameter
is itself floored to an integer before the pod call. -/
def slRun (a : Args) : SLResult × GenState :=
  create_spine_leaf_topology (scaledParam 8 a.spine_leaf_scale)
    ((max 1 (pyInt ((40 : ℚ) * a.spine_leaf_scale)) : ℤ) : ℚ) true a.cfg (ftUplinks a).2

/-- Spine-leaf uplinks (testdata.py:211-213). -/
def slUplinks (a : Args) : List Connection × GenState :=
  if (slRun a).1.spine_outputs.isEmpty || (icSwitches a).isEmpty then ([], (slRun a).2)
  else uplinkLoop (icSwitches a) "L3_routed" (slRun a).1.spine_outputs (slRun a).2

/-- The three-tier pod (testdata.py:217-221). -/
def ttRun (a : Args) : TTResult × GenState :=
  create_three_tier_topology (scaledParam 2 a.three_tier_scale)
    (scaledParam 10 a.three_tier_scale) (scaledParam 5 a.three_tier_scale) true a.cfg
    (slUplinks a).2

/-- Three-tier uplinks (testdata.py:224-226, link type `L3_routed_legacy`). -/
def ttUplinks (a : Args) : List Connection × GenState :=
  if (ttRun a).1.core_outputs.isEmpty || (icSwitches a).isEmpty then ([], (ttRun a).2)
  else uplinkLoop (icSwitches a) "L3_routed_legacy" (ttRun a).1.core_outputs (ttRun a).2

/-- `all_devices` in composer order. -/
def allDevices (a : Args) : List Device :=
  (icRun a).1 ++ (blRun a).1 ++ (ftRun a).1.devices ++ (slRun a).1.devices ++ (ttRun a).1.devices

/-- `all_connections` in composer order. -/
def allConnections (a : Args) : List Connection :=
  (blRun a).2.1 ++ (ftRun a).1.connections ++ (ftUplinks a).1 ++ (slRun a).1.connections
    ++ (slUplinks a).1 ++ (ttRun a).1.connections ++ (ttUplinks a).1

/-- `network_devices` (testdata.py:230). -/
def networkDevices (a : Args) : List Device :=
  (allDevices a).filter (fun d => !(d.type == "Server" || d.type == "Server_Group"))

/-- `server_devices` (testdata.py:231). -/
def serverDevices (a : Args) : List Device :=
  (allDevices a).filter (fun d => d.type == "Server" || d.type == "Server_Group")

/-- The echoed `parameters` record of the output document. -/
structure Params where
  total_target_network_devices : ℤ
  fat_tree_scale : ℚ
  spine_leaf_scale : ℚ
  three_tier_scale : ℚ
  datacenter_location_suffix : String
  location_id_delimiter : String
deriving DecidableEq

/-- The derived `summary` record of the output document. -/
structure Summary where
  total_network_devices_generated : ℕ
  total_server_groups_generated : ℕ
  estimated_total_individual_servers : ℕ
deriving DecidableEq

/-- The in-memory Topology artifact returned by one composer run: the
ordered device and connection sequences, the parameters echo, the summary,
and the six `layers_and_pods` buckets (their `description` strings are
static text and are not repeated here). -/
structure Topology where
  datacenter_name : String
  parameters : Params
  summary : Summary
  dc_interconnect_layer : List Device
  border_layer : List Device
  fat_tree_pod : List Device
  spine_leaf_pod : List Device
  three_tier_pod : List Device
  endpoint_layer : List Device
  connections : List Connection
  devices : List Device
  notes : List String

/-- The body of `create_datacenter_topology` (testdata.py:144-294) over
normalized inputs. -/
def composeRun (a : Args) : Topology :=
  { datacenter_name :=
      if a.cfg.loc_suffix ≠ "" then "Mixed_Topology_DC" ++ a.cfg.loc_delim ++ a.cfg.loc_suffix
      else "Mixed_Topology_DC_Default",
    parameters :=
      { total_target_network_devices := a.total_target_devices,
        fat_tree_scale := a.fat_tree_scale,
        spine_leaf_scale := a.spine_leaf_scale,
        three_tier_scale := a.three_tier_scale,
        datacenter_location_suffix := if a.truthy then a.cfg.loc_suffix else "N/A",
        location_id_delimiter := if a.truthy then a.cfg.loc_delim else "N/A" },
    summary :=
      { total_network_devices_generated := (networkDevices a).length,
        total_server_groups_generated := (serverDevices a).length,
        estimated_total_individual_servers :=
          ((serverDevices a).map (fun d => d.count.getD 1)).sum },
    dc_interconnect_layer := (networkDevices a).filter (fun d => d.layer == "DC_Interconnect"),
    border_layer := (networkDevices a).filter (fun d => d.layer == "Border"),
    fat_tree_pod := (networkDevices a).filter (fun d => pyStartswith d.layer "FT_"),
    spine_leaf_pod := (networkDevices a).filter (fun d => pyEndswith d.layer "_SL"),
    three_tier_pod := (networkDevices a).filter (fun d => pyEndswith d.layer "_3T"),
    endpoint_layer := serverDevices a,
    connections := allConnections a,
    devices := allDevices a,
    notes :=
      ["Device IDs are unique per generation and include a location suffix if specified, separated by the chosen delimiter.",
       "Connection types indicate typical link usage (e.g., L3_routed, L2_trunk, VXLAN overlay).",
       "Specific port numbers, VLANs, IP addresses, and routing protocols are abstracted for simplicity.",
       "Random elements introduce variation in connected server group counts and specific inter-layer connections, and overall scaling of components.",
       "Scales of 0 for a topology will still generate a minimal set of devices (e.g., 1 per core/spine/aggregation layer) to ensure valid connections and avoid errors."] }

/-- `create_datacenter_topology` with the signature of the source function:
location normalization (testdata.py:151-156) followed by the composer
body. -/
def create_datacenter_topology (fat_tree_scale spine_leaf_scale three_tier_scale : ℚ)
    (total_target_devices : ℤ) (dc_location : Option String)
    (dc_location_delimiter : String) (rng : ℕ → ℕ) : Topology :=
  composeRun
    { fat_tree_scale := fat_tree_scale,
      spine_leaf_scale := spine_leaf_scale,
      three_tier_scale := three_tier_scale,
      total_target_devices := total_target_devices,
      cfg := mkCfg dc_location dc_location_delimiter,
      truthy := locTruthy dc_location,
      rng := rng }

/-- The leaf-count computation of `create_spine_leaf_topology`
(testdata.py:81-83) as an integer: `int(base * spines)`, replaced by 1 when
it is exactly 0 while spines exist. -/
def slLeafCountZ (num_spines : ℕ) (base : ℚ) : ℤ :=
  if pyInt (base * (num_spines : ℚ)) = 0 ∧ 0 < num_spines then 1
  else pyInt (base * (num_spines : ℚ))

/-- The number of leaf devices `create_spine_leaf_topology` generates:
none when there are no spines (the leaf layer is skipped), otherwise
`slLeafCountZ` clamped to ℕ by `range` semantics. -/
def slLeafCount (num_spines : ℕ) (base : ℚ) : ℕ :=
  if num_spines = 0 then 0 else (slLeafCountZ num_spines base).toNat

/-- The sizing parameters the Composer passes to the three Tier Builders
(testdata.py:192-221). -/
def ftN1 (a : Args) : ℕ := scaledParam 4 a.fat_tree_scale

def ftN2 (a : Args) : ℕ := scaledParam 5 a.fat_tree_scale

def ftN3 (a : Args) : ℕ := scaledParam 20 a.fat_tree_scale

def slN1 (a : Args) : ℕ := scaledParam 8 a.spine_leaf_scale

def slBase (a : Args) : ℚ := ((max 1 (pyInt ((40 : ℚ) * a.spine_leaf_scale)) : ℤ) : ℚ)

def ttN1 (a : Args) : ℕ := scaledParam 2 a.three_tier_scale

def ttN2 (a : Args) : ℕ := scaledParam 10 a.three_tier_scale

def ttN3 (a : Args) : ℕ := scaledParam 5 a.three_tier_scale

/-- The closed catalogue of (type, layer, count) shapes a device produced by
one composer run can have. -/
def DevShape (d : Device) : Prop :=
  (d.type = "DC_Core_Interconnect_Switch" ∧ d.layer = "DC_Interconnect" ∧ d.count = none) ∨
  (d.type = "Border_Leaf_Switch" ∧ d.layer = "Border" ∧ d.count = none) ∨
  (d.type = "FatTree_Core_Spine" ∧ d.layer = "FT_Core" ∧ d.count = none) ∨
  (d.type = "FatTree_Agg_Spine" ∧ d.layer = "FT_Aggregation" ∧ d.count = none) ∨
  (d.type = "FatTree_Edge_Leaf" ∧ d.layer = "FT_Edge" ∧ d.count = none) ∨
  (d.type = "Spine_Switch" ∧ d.layer = "Spine_SL" ∧ d.count = none) ∨
  (d.type = "Leaf_Switch" ∧ d.layer = "Leaf_SL" ∧ d.count = none) ∨
  (d.type = "Core_Switch" ∧ d.layer = "Core_3T" ∧ d.count = none) ∨
  (d.type = "Aggregation_Switch" ∧ d.layer = "Aggregation_3T" ∧ d.count = none) ∨
  (d.type = "Access_Switch" ∧ d.layer = "Access_3T" ∧ d.count = none) ∨
  (d.type = "Server_Group" ∧ d.layer = "Endpoint" ∧ ∃ m, d.count = some m)

/-! ## Basic facts about `pyInt` and the loop building blocks -/

theorem digitChar_toNat {d : ℕ} (h : d < 10) : (digitChar d).toNat = 48 + d := by
  interval_cases d <;> decide

theorem digitChar_ne_dash {d : ℕ} (h : d < 10) : digitChar d ≠ '-' := by
  interval_cases d <;> decide

theorem digitsAux_mem {fuel n : ℕ} {c : Char} (h : c ∈ digitsAux fuel n) :
    ∃ d, d < 10 ∧ c = digitChar d := by
  induction fuel generalizing n with
  | zero => simp [digitsAux] at h
  | succ fuel ih =>
    by_cases h0 : n = 0
    · simp [digitsAux, h0] at h
    · rw [digitsAux, if_neg h0] at h
      rcases List.mem_append.mp h with h1 | h1
      · exact ih h1
      · exact ⟨n % 10, Nat.mod_lt _ (by norm_num), by simpa using h1⟩

theorem decRepr_ne_dash {n : ℕ} {c : Char} (h : c ∈ decRepr n) : c ≠ '-' := by
  unfold decRepr at h
  by_cases h0 : n = 0
  · rw [if_pos h0] at h; simp at h; subst h; decide
  · rw [if_neg h0] at h
    obtain ⟨d, hd, rfl⟩ := digitsAux_mem h
    exact digitChar_ne_dash hd

theorem pad4_ne_dash {n : ℕ} {c : Char} (h : c ∈ pad4 n) : c ≠ '-' := by
  rcases List.mem_append.mp h with h1 | h1
  · intro hc; subst hc; have := List.eq_of_mem_replicate h1; exact absurd this (by decide)
  · exact decRepr_ne_dash h1

theorem digitsVal_append (a : ℕ) (l : List Char) (c : Char) :
    digitsVal a (l ++ [c]) = 10 * digitsVal a l + (c.toNat - 48) := by
  simp [digitsVal, List.foldl_append]

theorem digitsVal_digitsAux {fuel : ℕ} : ∀ {n : ℕ}, n ≤ fuel →
    digitsVal 0 (digitsAux fuel n) = n := by
  induction fuel with
  | zero => intro n hn; interval_cases n; simp [digitsAux, digitsVal]
  | succ fuel ih =>
    intro n hn
    by_cases h0 : n = 0
    · simp [digitsAux, h0, digitsVal]
    · rw [digitsAux, if_neg h0, digitsVal_append,
        ih (by
          have h1 : 1 ≤ n := Nat.one_le_iff_ne_zero.mpr h0
          have := Nat.div_lt_self (Nat.lt_of_lt_of_le Nat.zero_lt_one h1) (by norm_num : 1 < 10)
          omega),
        digitChar_toNat (Nat.mod_lt _ (by norm_num))]
      omega

theorem digitsVal_decRepr (n : ℕ) : digitsVal 0 (decRepr n) = n := by
  unfold decRepr
  by_cases h0 : n = 0
  · rw [if_pos h0]; subst h0; decide
  · rw [if_neg h0]; exact digitsVal_digitsAux le_rfl

theorem digitsVal_replicate_zero (k : ℕ) (l : List Char) :
    digitsVal 0 (List.replicate k '0' ++ l) = digitsVal 0 l := by
  induction k with
  | zero => simp
  | succ k ih =>
    have : List.replicate (k + 1) '0' ++ l = '0' :: (List.replicate k '0' ++ l) := by
      simp [List.replicate_succ]
    rw [this]
    simpa [digitsVal] using ih

theorem digitsVal_pad4 (n : ℕ) : digitsVal 0 (pad4 n) = n := by
  rw [pad4, digitsVal_replicate_zero, digitsVal_decRepr]

theorem pad4_inj {a b : ℕ} (h : pad4 a = pad4 b) : a = b := by
  have := congrArg (digitsVal 0) h
  rwa [digitsVal_pad4, digitsVal_pad4] at this

/-- Splitting a character list at the first `'-'`: when the left parts are
dash-free, equality of the concatenations forces componentwise equality. -/
theorem dash_split {l₁ l₂ r₁ r₂ : List Char}
    (h₁ : '-' ∉ l₁) (h₂ : '-' ∉ l₂)
    (h : l₁ ++ '-' :: r₁ = l₂ ++ '-' :: r₂) : l₁ = l₂ ∧ r₁ = r₂ := by
  induction l₁ generalizing l₂ with
  | nil =>
    cases l₂ with
    | nil => simpa using h
    | cons b t =>
      simp only [List.nil_append, List.cons_append, List.cons.injEq] at h
      exact absurd h.1.symm (by intro hb; exact h₂ (hb ▸ List.mem_cons_self b t))
  | cons a t ih =>
    cases l₂ with
    | nil =>
      simp only [List.nil_append, List.cons_append, List.cons.injEq] at h
      exact absurd h.1 (by intro hb; exact h₁ (hb ▸ List.mem_cons_self a t))
    | cons b t₂ =>
      simp only [List.cons_append, List.cons.injEq] at h
      obtain ⟨rfl, h'⟩ := h
      have := ih (fun hm => h₁ (List.mem_cons_of_mem _ hm))
        (fun hm => h₂ (List.mem_cons_of_mem _ hm)) h'
      exact ⟨by rw [this.1], this.2⟩

theorem render_data (b : Bool) (p : String) (c : ℕ) (t : String) :
    (render b p c t).data
      = (if b then "Server".data ++ ['-'] else []) ++ p.data ++ '-' :: (pad4 c ++ t.data) := by
  cases b <;> simp [render, pad4S, String.data_append]

theorem pad4_tail_inj {c₁ c₂ : ℕ} {t : List Char}
    (h : pad4 c₁ ++ t = pad4 c₂ ++ t) : c₁ = c₂ :=
  pad4_inj (List.append_cancel_right h)

/-- Two rendered ids sharing one location tag agree on the server flag and
the counter as soon as they are equal as strings. -/
theorem render_inj {b₁ b₂ : Bool} {p₁ p₂ t : String} {c₁ c₂ : ℕ}
    (g₁ : GoodPfx p₁) (g₂ : GoodPfx p₂)
    (h : render b₁ p₁ c₁ t = render b₂ p₂ c₂ t) : b₁ = b₂ ∧ c₁ = c₂ := by
  have hd := congrArg String.data h
  rw [render_data, render_data] at hd
  have hserver : ('-' : Char) ∉ ("Server" : String).data := by decide
  cases b₁ <;> cases b₂
  · simp only [if_neg Bool.false_ne_true, List.nil_append] at hd
    exact ⟨rfl, pad4_tail_inj (dash_split g₁.1 g₂.1 hd).2⟩
  · have hd' : p₁.data ++ '-' :: (pad4 c₁ ++ t.data)
        = ("Server" : String).data ++ '-' :: (p₂.data ++ '-' :: (pad4 c₂ ++ t.data)) := by
      simpa [List.append_assoc] using hd
    have hsplit := dash_split g₁.1 hserver hd'
    exact absurd (congrArg String.mk hsplit.1) g₁.2
  · have hd' : ("Server" : String).data ++ '-' :: (p₁.data ++ '-' :: (pad4 c₁ ++ t.data))
        = p₂.data ++ '-' :: (pad4 c₂ ++ t.data) := by
      simpa [List.append_assoc] using hd
    have hsplit := dash_split g₂.1 hserver hd'.symm
    exact absurd (congrArg String.mk hsplit.1) g₂.2
  · have hd' : ("Server" : String).data ++ '-' :: (p₁.data ++ '-' :: (pad4 c₁ ++ t.data))
        = ("Server" : String).data ++ '-' :: (p₂.data ++ '-' :: (pad4 c₂ ++ t.data)) := by
      simpa [List.append_assoc] using hd
    have hsplit := dash_split hserver hserver hd'
    have hsplit2 := dash_split g₁.1 g₂.1 hsplit.2
    exact ⟨rfl, pad4_tail_inj hsplit2.2⟩

theorem IdsSpec.nil (t : String) {c₀ c₁ : ℕ} (h : c₀ ≤ c₁) : IdsSpec t c₀ c₁ [] :=
  ⟨h, by simp, List.nodup_nil⟩

theorem IdsSpec.mono {t : String} {c₀ c₁ c₀' c₁' : ℕ} {ids : List String}
    (h : IdsSpec t c₀ c₁ ids) (h₀ : c₀' ≤ c₀) (h₁ : c₁ ≤ c₁') : IdsSpec t c₀' c₁' ids := by
  refine ⟨le_trans h₀ (le_trans h.1 h₁), fun id hid => ?_, h.2.2⟩
  obtain ⟨b, p, c, hg, hlt, hle, he⟩ := h.2.1 id hid
  exact ⟨b, p, c, hg, lt_of_le_of_lt h₀ hlt, le_trans hle h₁, he⟩

theorem IdsSpec.append {t : String} {c₀ c₁ c₂ : ℕ} {l₁ l₂ : List String}
    (h₁ : IdsSpec t c₀ c₁ l₁) (h₂ : IdsSpec t c₁ c₂ l₂) : IdsSpec t c₀ c₂ (l₁ ++ l₂) := by
  refine ⟨le_trans h₁.1 h₂.1, fun id hid => ?_, ?_⟩
  · rcases List.mem_append.mp hid with hm | hm
    · obtain ⟨b, p, c, hg, hlt, hle, he⟩ := h₁.2.1 id hm
      exact ⟨b, p, c, hg, hlt, le_trans hle h₂.1, he⟩
    · obtain ⟨b, p, c, hg, hlt, hle, he⟩ := h₂.2.1 id hm
      exact ⟨b, p, c, hg, lt_of_le_of_lt h₁.1 hlt, hle, he⟩
  · refine List.Nodup.append h₁.2.2 h₂.2.2 (fun id hm₁ hm₂ => ?_)
    obtain ⟨b, p, c, hg, hlt, hle, he⟩ := h₁.2.1 id hm₁
    obtain ⟨b', p', c', hg', hlt', hle', he'⟩ := h₂.2.1 id hm₂
    have := (render_inj hg hg' (he.symm.trans he')).2
    omega

theorem IdsSpec.cons {t : String} {c₀ c₁ : ℕ} {b : Bool} {p : String} {c : ℕ} {ids : List String}
    (hg : GoodPfx p) (hlt : c₀ < c) (hle : c ≤ c₁) (h : IdsSpec t c c₁ ids) :
    IdsSpec t c₀ c₁ (render b p c t :: ids) := by
  refine ⟨le_trans hlt.le hle, fun id hid => ?_, ?_⟩
  · rcases List.mem_cons.mp hid with rfl | hm
    · exact ⟨b, p, c, hg, hlt, hle, rfl⟩
    · obtain ⟨b', p', c', hg', hlt', hle', he'⟩ := h.2.1 id hm
      exact ⟨b', p', c', hg', lt_trans hlt hlt', hle', he'⟩
  · refine List.nodup_cons.mpr ⟨fun hm => ?_, h.2.2⟩
    obtain ⟨b', p', c', hg', hlt', hle', he'⟩ := h.2.1 _ hm
    have := (render_inj hg hg' he').2
    omega

/-- Variant of `IdsSpec.cons` for an allocated switch id immediately
followed by its derived server-group id (same counter, flipped flag). -/
theorem IdsSpec.cons2 {t : String} {c₀ c₁ : ℕ} {p : String} {c : ℕ} {ids : List String}
    (hg : GoodPfx p) (hlt : c₀ < c) (hle : c ≤ c₁) (h : IdsSpec t c c₁ ids) :
    IdsSpec t c₀ c₁ (render false p c t :: render true p c t :: ids) := by
  have htail : IdsSpec t c₀ c₁ (render true p c t :: ids) := IdsSpec.cons hg hlt hle h
  refine ⟨htail.1, fun id hid => ?_, ?_⟩
  · rcases List.mem_cons.mp hid with rfl | hm
    · exact ⟨false, p, c, hg, hlt, hle, rfl⟩
    · exact htail.2.1 id hm
  · refine List.nodup_cons.mpr ⟨fun hm => ?_, htail.2.2⟩
    rcases List.mem_cons.mp hm with he | hm'
    · exact absurd (render_inj hg hg he).1 (by decide)
    · obtain ⟨b', p', c', hg', hlt', hle', he'⟩ := h.2.1 _ hm'
      have := (render_inj hg hg' he').2
      omega

theorem generate_device_id_fst (cfg : LocCfg) (p : String) (s : GenState) :
    (generate_device_id cfg p s).1 = render false p (s.counter + 1) (locTag cfg) := by
  unfold generate_device_id render locTag
  by_cases h : cfg.loc_suffix ≠ "" <;> simp [h, String.append_assoc]

theorem generate_device_id_snd (cfg : LocCfg) (p : String) (s : GenState) :
    (generate_device_id cfg p s).2 = { s with counter := s.counter + 1 } := rfl

theorem choice_mem {l : List String} (h : l ≠ []) (s : GenState) : (choice l s).1 ∈ l := by
  unfold choice
  have hlen : 0 < l.length := List.length_pos.mpr h
  have hlt : s.rng s.rpos % l.length < l.length := Nat.mod_lt _ hlen
  rw [List.getD_eq_getElem l _ hlt]
  exact List.getElem_mem hlt

theorem pyInt_eq_floor {q : ℚ} (h : 0 ≤ q) : pyInt q = ⌊q⌋ := by
  have hn : 0 ≤ q.num := Rat.num_nonneg.mpr h
  unfold pyInt
  rw [if_neg (by omega), Rat.floor_def, ← Int.tdiv_eq_ediv hn (by positivity), Int.ofNat_tdiv,
    Int.toNat_of_nonneg hn]

theorem pyInt_eval {q : ℚ} {z : ℤ} (h0 : 0 ≤ q) (h1 : (z : ℚ) ≤ q) (h2 : q < z + 1) :
    pyInt q = z := by
  rw [pyInt_eq_floor h0]
  exact Int.floor_eq_iff.mpr ⟨h1, by exact_mod_cast h2⟩

theorem one_le_max_toNat (x : ℤ) : 1 ≤ (max 1 x).toNat := by
  have h : (1 : ℤ) ≤ max 1 x := le_max_left 1 x
  omega

theorem icCount_pos (total : ℤ) : 1 ≤ icCount total := one_le_max_toNat _

theorem blCount_pos (total : ℤ) : 1 ≤ blCount total := one_le_max_toNat _

theorem scaledParam_pos (base : ℕ) (scale : ℚ) : 1 ≤ scaledParam base scale :=
  one_le_max_toNat _

/-- A run of ids `render false p (c₀+1) t, …, render false p (c₀+n) t`
satisfies `IdsSpec`. -/
theorem idsSpec_of_range {p : String} (hg : GoodPfx p) (t : String) (c₀ n : ℕ) :
    IdsSpec t c₀ (c₀ + n) ((List.range n).map (fun i => render false p (c₀ + 1 + i) t)) := by
  refine ⟨Nat.le_add_right _ _, fun id hid => ?_, ?_⟩
  · obtain ⟨i, hi, rfl⟩ := List.mem_map.mp hid
    have hi' := List.mem_range.mp hi
    exact ⟨false, p, c₀ + 1 + i, hg, by omega, by omega, rfl⟩
  · refine List.Nodup.map_on (fun i hi j hj hij => ?_) (List.nodup_range n)
    have := (render_inj hg hg hij).2
    omega

theorem allocLoop_spec (cfg : LocCfg) (p ty ly : String) :
    ∀ (n : ℕ) (s : GenState),
      (allocLoop cfg p ty ly n s).2.2.counter = s.counter + n ∧
      (allocLoop cfg p ty ly n s).2.2.rng = s.rng ∧
      (allocLoop cfg p ty ly n s).2.2.rpos = s.rpos ∧
      (allocLoop cfg p ty ly n s).2.1 = (allocLoop cfg p ty ly n s).1.map Device.id ∧
      (allocLoop cfg p ty ly n s).1.map Device.id
        = (List.range n).map (fun i => render false p (s.counter + 1 + i) (locTag cfg)) ∧
      ∀ d ∈ (allocLoop cfg p ty ly n s).1, d.type = ty ∧ d.layer = ly ∧ d.count = none := by
  intro n
  induction n with
  | zero => intro s; simp [allocLoop]
  | succ n ih =>
    intro s
    obtain ⟨ih1, ih2, ih3, ih4, ih5, ih6⟩ := ih { s with counter := s.counter + 1 }
    refine ⟨?_, ?_, ?_, ?_, ?_, ?_⟩
    · simp only [allocLoop, generate_device_id_snd]
      rw [ih1]
      show s.counter + 1 + n = s.counter + (n + 1)
      omega
    · simp only [allocLoop, generate_device_id_snd]; rw [ih2]
    · simp only [allocLoop, generate_device_id_snd]; rw [ih3]
    · simp only [allocLoop, generate_device_id_snd, List.map_cons]
      rw [ih4]
    · simp only [allocLoop, generate_device_id_snd, List.map_cons, generate_device_id_fst]
      rw [ih5, List.range_succ_eq_map, List.map_cons, List.map_map]
      refine congrArg₂ _ (by norm_num) (List.map_congr_left fun i _ => ?_)
      simp only [Function.comp]
      congr 1
      omega
    · intro d hd
      simp only [allocLoop, List.mem_cons] at hd
      rcases hd with rfl | hd
      · exact ⟨rfl, rfl, rfl⟩
      · exact ih6 d hd

theorem allocLoop_idsSpec (cfg : LocCfg) {p : String} (hg : GoodPfx p) (ty ly : String)
    (n : ℕ) (s : GenState) :
    IdsSpec (locTag cfg) s.counter (s.counter + n)
      ((allocLoop cfg p ty ly n s).1.map Device.id) := by
  rw [(allocLoop_spec cfg p ty ly n s).2.2.2.2.1]
  exact idsSpec_of_range hg (locTag cfg) s.counter n

theorem allocLoop_length (cfg : LocCfg) (p ty ly : String) (n : ℕ) (s : GenState) :
    (allocLoop cfg p ty ly n s).1.length = n := by
  have := congrArg List.length (allocLoop_spec cfg p ty ly n s).2.2.2.2.1
  simpa using this

theorem childInner_spec (cfg : LocCfg) (p ty ly lk parent : String) :
    ∀ (k : ℕ) (s : GenState),
      (childInner cfg p ty ly lk parent k s).2.2.2.counter = s.counter + k ∧
      (childInner cfg p ty ly lk parent k s).2.2.2.rng = s.rng ∧
      (childInner cfg p ty ly lk parent k s).2.2.2.rpos = s.rpos ∧
      (childInner cfg p ty ly lk parent k s).2.2.1
        = (childInner cfg p ty ly lk parent k s).1.map Device.id ∧
      (childInner cfg p ty ly lk parent k s).1.map Device.id
        = (List.range k).map (fun i => render false p (s.counter + 1 + i) (locTag cfg)) ∧
      (childInner cfg p ty ly lk parent k s).2.1
        = (List.range k).map
            (fun i => (⟨render false p (s.counter + 1 + i) (locTag cfg), parent, lk⟩ : Connection)) ∧
      ∀ d ∈ (childInner cfg p ty ly lk parent k s).1, d.type = ty ∧ d.layer = ly ∧ d.count = none := by
  intro k
  induction k with
  | zero => intro s; simp [childInner]
  | succ k ih =>
    intro s
    obtain ⟨ih1, ih2, ih3, ih4, ih5, ih6, ih7⟩ := ih { s with counter := s.counter + 1 }
    refine ⟨?_, ?_, ?_, ?_, ?_, ?_, ?_⟩
    · simp only [childInner, generate_device_id_snd]
      rw [ih1]
      show s.counter + 1 + k = s.counter + (k + 1)
      omega
    · simp only [childInner, generate_device_id_snd]; rw [ih2]
    · simp only [childInner, generate_device_id_snd]; rw [ih3]
    · simp only [childInner, generate_device_id_snd, List.map_cons]
      rw [ih4]
    · simp only [childInner, generate_device_id_snd, List.map_cons, generate_device_id_fst]
      rw [ih5, List.range_succ_eq_map, List.map_cons, List.map_map]
      refine congrArg₂ _ (by norm_num) (List.map_congr_left fun i _ => ?_)
      simp only [Function.comp]
      congr 1
      omega
    · simp only [childInner, generate_device_id_snd, generate_device_id_fst]
      rw [ih6, List.range_succ_eq_map, List.map_cons, List.map_map]
      refine congrArg₂ _ (by norm_num) (List.map_congr_left fun i _ => ?_)
      simp only [Function.comp]
      congr 2
      omega
    · intro d hd
      simp only [childInner, List.mem_cons] at hd
      rcases hd with rfl | hd
      · exact ⟨rfl, rfl, rfl⟩
      · exact ih7 d hd

theorem childOuter_spec (cfg : LocCfg) {p : String} (hg : GoodPfx p) (ty ly lk : String) (k : ℕ) :
    ∀ (parents : List String) (s : GenState),
      (childOuter cfg p ty ly lk k parents s).2.2.2.counter = s.counter + parents.length * k ∧
      (childOuter cfg p ty ly lk k parents s).2.2.2.rng = s.rng ∧
      (childOuter cfg p ty ly lk k parents s).2.2.2.rpos = s.rpos ∧
      (childOuter cfg p ty ly lk k parents s).2.2.1
        = (childOuter cfg p ty ly lk k parents s).1.map Device.id ∧
      IdsSpec (locTag cfg) s.counter (s.counter + parents.length * k)
        ((childOuter cfg p ty ly lk k parents s).1.map Device.id) ∧
      (∀ d ∈ (childOuter cfg p ty ly lk k parents s).1,
        d.type = ty ∧ d.layer = ly ∧ d.count = none) ∧
      (∀ c ∈ (childOuter cfg p ty ly lk k parents s).2.1,
        c.cfrom ∈ (childOuter cfg p ty ly lk k parents s).1.map Device.id ∧
        c.cto ∈ parents ∧ c.link_type = lk) ∧
      (childOuter cfg p ty ly lk k parents s).1.length = parents.length * k ∧
      (childOuter cfg p ty ly lk k parents s).2.1.length = parents.length * k := by
  intro parents
  induction parents with
  | nil =>
    intro s
    refine ⟨by simp [childOuter], by simp [childOuter], by simp [childOuter],
      by simp [childOuter], ?_, by simp [childOuter], by simp [childOuter],
      by simp [childOuter], by simp [childOuter]⟩
    simpa [childOuter] using IdsSpec.nil (locTag cfg) le_rfl
  | cons parent rest ih =>
    intro s
    obtain ⟨in1, in2, in3, in4, in5, in6, in7⟩ := childInner_spec cfg p ty ly lk parent k s
    obtain ⟨ih1, ih2, ih3, ih4, ih5, ih6, ih7, ih8, ih9⟩ :=
      ih (childInner cfg p ty ly lk parent k s).2.2.2
    have hlen1 : (childInner cfg p ty ly lk parent k s).1.length = k := by
      have := congrArg List.length in5
      simpa using this
    refine ⟨?_, ?_, ?_, ?_, ?_, ?_, ?_, ?_, ?_⟩
    · simp only [childOuter]
      rw [ih1, in1]
      simp only [List.length_cons]
      ring
    · simp only [childOuter]; rw [ih2, in2]
    · simp only [childOuter]; rw [ih3, in3]
    · simp only [childOuter, List.map_append]
      rw [ih4, in4]
    · simp only [childOuter, List.map_append]
      have hspec1 : IdsSpec (locTag cfg) s.counter (s.counter + k)
          ((childInner cfg p ty ly lk parent k s).1.map Device.id) := by
        rw [in5]; exact idsSpec_of_range hg (locTag cfg) s.counter k
      have hspec2 := ih5
      rw [in1] at hspec2
      have := hspec1.append hspec2
      have harith : s.counter + k + rest.length * k = s.counter + (rest.length + 1) * k := by ring
      rw [harith] at this
      simpa using this
    · intro d hd
      simp only [childOuter, List.mem_append] at hd
      rcases hd with hd | hd
      · exact in7 d hd
      · exact ih6 d hd
    · intro c hc
      simp only [childOuter, List.mem_append] at hc
      simp only [childOuter, List.map_append]
      rcases hc with hc | hc
      · rw [in6] at hc
        obtain ⟨i, hi, rfl⟩ := List.mem_map.mp hc
        refine ⟨List.mem_append.mpr (Or.inl ?_), List.mem_cons_self _ _, rfl⟩
        rw [in5]
        exact List.mem_map.mpr ⟨i, hi, rfl⟩
      · obtain ⟨hc1, hc2, hc3⟩ := ih7 c hc
        exact ⟨List.mem_append.mpr (Or.inr hc1), List.mem_cons_of_mem _ hc2, hc3⟩
    · simp only [childOuter, List.length_append]
      rw [hlen1, ih8]
      simp only [List.length_cons]
      ring
    · simp only [childOuter, List.length_append]
      have hlen2 : (childInner cfg p ty ly lk parent k s).2.1.length = k := by
        have := congrArg List.length in6
        simpa using this
      rw [hlen2, ih9]
      simp only [List.length_cons]
      ring


theorem server_render (p : String) (c : ℕ) (t : String) :
    "Server-" ++ render false p c t = render true p c t := rfl

theorem srvInner_succ_true (cfg : LocCfg) (p ty ly lk : String) (sLo sHi : ℕ) (sLk : String)
    (parent : String) (k : ℕ) (s : GenState) :
    srvInner cfg p ty ly lk sLo sHi sLk true parent (k + 1) s
      = (⟨(generate_device_id cfg p s).1, ty, ly, none⟩ ::
          ⟨"Server-" ++ (generate_device_id cfg p s).1, "Server_Group", "Endpoint",
            some (sLo + s.rng s.rpos % (sHi + 1 - sLo))⟩ ::
          (srvInner cfg p ty ly lk sLo sHi sLk true parent k
            { counter := s.counter + 1, rng := s.rng, rpos := s.rpos + 1 }).1,
         ⟨(generate_device_id cfg p s).1, parent, lk⟩ ::
          ⟨(generate_device_id cfg p s).1, "Server-" ++ (generate_device_id cfg p s).1, sLk⟩ ::
          (srvInner cfg p ty ly lk sLo sHi sLk true parent k
            { counter := s.counter + 1, rng := s.rng, rpos := s.rpos + 1 }).2.1,
         (srvInner cfg p ty ly lk sLo sHi sLk true parent k
            { counter := s.counter + 1, rng := s.rng, rpos := s.rpos + 1 }).2.2) := rfl

theorem srvInner_succ_false (cfg : LocCfg) (p ty ly lk : String) (sLo sHi : ℕ) (sLk : String)
    (parent : String) (k : ℕ) (s : GenState) :
    srvInner cfg p ty ly lk sLo sHi sLk false parent (k + 1) s
      = (⟨(generate_device_id cfg p s).1, ty, ly, none⟩ ::
          (srvInner cfg p ty ly lk sLo sHi sLk false parent k
            { counter := s.counter + 1, rng := s.rng, rpos := s.rpos }).1,
         ⟨(generate_device_id cfg p s).1, parent, lk⟩ ::
          (srvInner cfg p ty ly lk sLo sHi sLk false parent k
            { counter := s.counter + 1, rng := s.rng, rpos := s.rpos }).2.1,
         (srvInner cfg p ty ly lk sLo sHi sLk false parent k
            { counter := s.counter + 1, rng := s.rng, rpos := s.rpos }).2.2) := rfl

theorem srvInner_spec (cfg : LocCfg) {p : String} (hg : GoodPfx p) (ty ly lk : String)
    (sLo sHi : ℕ) (sLk : String) (add : Bool) (parent : String)
    (hty : ty ≠ "Server_Group") (hlk : lk ≠ sLk) :
    ∀ (k : ℕ) (s : GenState),
      (srvInner cfg p ty ly lk sLo sHi sLk add parent k s).2.2.counter = s.counter + k ∧
      (srvInner cfg p ty ly lk sLo sHi sLk add parent k s).2.2.rng = s.rng ∧
      IdsSpec (locTag cfg) s.counter (s.counter + k)
        ((srvInner cfg p ty ly lk sLo sHi sLk add parent k s).1.map Device.id) ∧
      (∀ d ∈ (srvInner cfg p ty ly lk sLo sHi sLk add parent k s).1,
        (d.type = ty ∧ d.layer = ly ∧ d.count = none) ∨
        (d.type = "Server_Group" ∧ d.layer = "Endpoint" ∧ ∃ m, d.count = some m)) ∧
      (∀ c ∈ (srvInner cfg p ty ly lk sLo sHi sLk add parent k s).2.1,
        c.cfrom ∈ (srvInner cfg p ty ly lk sLo sHi sLk add parent k s).1.map Device.id ∧
        (c.cto = parent ∨
          c.cto ∈ (srvInner cfg p ty ly lk sLo sHi sLk add parent k s).1.map Device.id) ∧
        (c.link_type = lk ∨ c.link_type = sLk)) ∧
      ((srvInner cfg p ty ly lk sLo sHi sLk add parent k s).1.filter
        (fun d => d.type == ty)).length = k ∧
      ((srvInner cfg p ty ly lk sLo sHi sLk add parent k s).1.filter
        (fun d => d.type == "Server_Group")).length = (if add then k else 0) ∧
      ((srvInner cfg p ty ly lk sLo sHi sLk add parent k s).2.1.filter
        (fun c => c.link_type == lk)).length = k ∧
      ((srvInner cfg p ty ly lk sLo sHi sLk add parent k s).2.1.filter
        (fun c => c.link_type == sLk)).length = (if add then k else 0) := by
  intro k
  induction k with
  | zero =>
    intro s
    refine ⟨by simp [srvInner], by simp [srvInner], ?_, by simp [srvInner], by simp [srvInner],
      by simp [srvInner], by simp [srvInner], by simp [srvInner], by simp [srvInner]⟩
    cases add <;> simpa [srvInner] using IdsSpec.nil (locTag cfg) le_rfl
  | succ k ih =>
    intro s
    cases add with
    | false =>
      obtain ⟨ih1, ih2, ih3, ih4, ih5, ih6, ih7, ih8, ih9⟩ :=
        ih { counter := s.counter + 1, rng := s.rng, rpos := s.rpos }
      refine ⟨?_, ?_, ?_, ?_, ?_, ?_, ?_, ?_, ?_⟩
      · rw [srvInner_succ_false]
        show (srvInner cfg p ty ly lk sLo sHi sLk false parent k
          { counter := s.counter + 1, rng := s.rng, rpos := s.rpos }).2.2.counter
          = s.counter + (k + 1)
        rw [ih1]
        show s.counter + 1 + k = s.counter + (k + 1)
        omega
      · rw [srvInner_succ_false]
        exact ih2
      · rw [srvInner_succ_false, List.map_cons, generate_device_id_fst]
        have hbase : IdsSpec (locTag cfg) (s.counter + 1) (s.counter + (k + 1))
            ((srvInner cfg p ty ly lk sLo sHi sLk false parent k
              { counter := s.counter + 1, rng := s.rng, rpos := s.rpos }).1.map Device.id) := by
          have := ih3
          simp only [] at this
          exact this.mono le_rfl (by omega)
        exact IdsSpec.cons hg (Nat.lt_succ_self s.counter) (by omega) hbase
      · intro d hd
        rw [srvInner_succ_false] at hd
        rcases List.mem_cons.mp hd with rfl | hd
        · exact Or.inl ⟨rfl, rfl, rfl⟩
        · exact ih4 d hd
      · intro c hc
        rw [srvInner_succ_false] at hc
        rw [srvInner_succ_false, List.map_cons]
        rcases List.mem_cons.mp hc with rfl | hc
        · exact ⟨List.mem_cons_self _ _, Or.inl rfl, Or.inl rfl⟩
        · obtain ⟨hc1, hc2, hc3⟩ := ih5 c hc
          refine ⟨List.mem_cons_of_mem _ hc1, ?_, hc3⟩
          rcases hc2 with hc2 | hc2
          · exact Or.inl hc2
          · exact Or.inr (List.mem_cons_of_mem _ hc2)
      · rw [srvInner_succ_false]
        simp only [List.filter_cons, beq_self_eq_true, eq_self_iff_true, if_true, List.length_cons]
        rw [ih6]
      · rw [srvInner_succ_false]
        have hne : ((⟨(generate_device_id cfg p s).1, ty, ly, none⟩ : Device).type
            == "Server_Group") = false := beq_eq_false_iff_ne.mpr hty
        simp only [List.filter_cons, hne, Bool.false_eq_true, if_false]
        simpa using ih7
      · rw [srvInner_succ_false]
        simp only [List.filter_cons, beq_self_eq_true, eq_self_iff_true, if_true, List.length_cons]
        rw [ih8]
      · rw [srvInner_succ_false]
        have hne : ((⟨(generate_device_id cfg p s).1, parent, lk⟩ : Connection).link_type
            == sLk) = false := beq_eq_false_iff_ne.mpr hlk
        simp only [List.filter_cons, hne, Bool.false_eq_true, if_false]
        simpa using ih9
    | true =>
      obtain ⟨ih1, ih2, ih3, ih4, ih5, ih6, ih7, ih8, ih9⟩ :=
        ih { counter := s.counter + 1, rng := s.rng, rpos := s.rpos + 1 }
      refine ⟨?_, ?_, ?_, ?_, ?_, ?_, ?_, ?_, ?_⟩
      · rw [srvInner_succ_true]
        show (srvInner cfg p ty ly lk sLo sHi sLk true parent k
          { counter := s.counter + 1, rng := s.rng, rpos := s.rpos + 1 }).2.2.counter
          = s.counter + (k + 1)
        rw [ih1]
        show s.counter + 1 + k = s.counter + (k + 1)
        omega
      · rw [srvInner_succ_true]
        exact ih2
      · rw [srvInner_succ_true, List.map_cons, List.map_cons, generate_device_id_fst]
        have hsrv : ("Server-" ++ render false p (s.counter + 1) (locTag cfg) : String)
            = render true p (s.counter + 1) (locTag cfg) := server_render p _ _
        rw [hsrv]
        have hbase : IdsSpec (locTag cfg) (s.counter + 1) (s.counter + (k + 1))
            ((srvInner cfg p ty ly lk sLo sHi sLk true parent k
              { counter := s.counter + 1, rng := s.rng, rpos := s.rpos + 1 }).1.map Device.id) := by
          have := ih3
          simp only [] at this
          exact this.mono le_rfl (by omega)
        exact IdsSpec.cons2 hg (Nat.lt_succ_self s.counter) (by omega) hbase
      · intro d hd
        rw [srvInner_succ_true] at hd
        rcases List.mem_cons.mp hd with rfl | hd
        · exact Or.inl ⟨rfl, rfl, rfl⟩
        rcases List.mem_cons.mp hd with rfl | hd
        · exact Or.inr ⟨rfl, rfl, _, rfl⟩
        · exact ih4 d hd
      · intro c hc
        rw [srvInner_succ_true] at hc
        rw [srvInner_succ_true, List.map_cons, List.map_cons]
        rcases List.mem_cons.mp hc with rfl | hc
        · exact ⟨List.mem_cons_self _ _, Or.inl rfl, Or.inl rfl⟩
        rcases List.mem_cons.mp hc with rfl | hc
        · exact ⟨List.mem_cons_self _ _,
            Or.inr (List.mem_cons_of_mem _ (List.mem_cons_self _ _)), Or.inr rfl⟩
        · obtain ⟨hc1, hc2, hc3⟩ := ih5 c hc
          refine ⟨List.mem_cons_of_mem _ (List.mem_cons_of_mem _ hc1), ?_, hc3⟩
          rcases hc2 with hc2 | hc2
          · exact Or.inl hc2
          · exact Or.inr (List.mem_cons_of_mem _ (List.mem_cons_of_mem _ hc2))
      · rw [srvInner_succ_true]
        have hne : ((⟨"Server-" ++ (generate_device_id cfg p s).1, "Server_Group", "Endpoint",
            some (sLo + s.rng s.rpos % (sHi + 1 - sLo))⟩ : Device).type == ty) = false :=
          beq_eq_false_iff_ne.mpr (Ne.symm hty)
        simp only [List.filter_cons, beq_self_eq_true, eq_self_iff_true, if_true, hne, Bool.false_eq_true,
          if_false, List.length_cons]
        rw [ih6]
      · rw [srvInner_succ_true]
        have hne : ((⟨(generate_device_id cfg p s).1, ty, ly, none⟩ : Device).type
            == "Server_Group") = false := beq_eq_false_iff_ne.mpr hty
        simp only [List.filter_cons, hne, Bool.false_eq_true, if_false, beq_self_eq_true,
          eq_self_iff_true, if_true, List.length_cons]
        simp only [eq_self_iff_true, if_true] at ih7
        rw [ih7]
      · rw [srvInner_succ_true]
        have hne : ((⟨(generate_device_id cfg p s).1,
            "Server-" ++ (generate_device_id cfg p s).1, sLk⟩ : Connection).link_type
            == lk) = false := beq_eq_false_iff_ne.mpr (Ne.symm hlk)
        simp only [List.filter_cons, beq_self_eq_true, eq_self_iff_true, if_true, hne, Bool.false_eq_true,
          if_false, List.length_cons]
        rw [ih8]
      · rw [srvInner_succ_true]
        have hne : ((⟨(generate_device_id cfg p s).1, parent, lk⟩ : Connection).link_type
            == sLk) = false := beq_eq_false_iff_ne.mpr hlk
        simp only [List.filter_cons, hne, Bool.false_eq_true, if_false, beq_self_eq_true,
          eq_self_iff_true, if_true, List.length_cons]
        simp only [eq_self_iff_true, if_true] at ih9
        rw [ih9]

theorem srvOuter_spec (cfg : LocCfg) {p : String} (hg : GoodPfx p) (ty ly lk : String)
    (sLo sHi : ℕ) (sLk : String) (add : Bool) (k : ℕ)
    (hty : ty ≠ "Server_Group") (hlk : lk ≠ sLk) :
    ∀ (parents : List String) (s : GenState),
      (srvOuter cfg p ty ly lk sLo sHi sLk add k parents s).2.2.counter
        = s.counter + parents.length * k ∧
      (srvOuter cfg p ty ly lk sLo sHi sLk add k parents s).2.2.rng = s.rng ∧
      IdsSpec (locTag cfg) s.counter (s.counter + parents.length * k)
        ((srvOuter cfg p ty ly lk sLo sHi sLk add k parents s).1.map Device.id) ∧
      (∀ d ∈ (srvOuter cfg p ty ly lk sLo sHi sLk add k parents s).1,
        (d.type = ty ∧ d.layer = ly ∧ d.count = none) ∨
        (d.type = "Server_Group" ∧ d.layer = "Endpoint" ∧ ∃ m, d.count = some m)) ∧
      (∀ c ∈ (srvOuter cfg p ty ly lk sLo sHi sLk add k parents s).2.1,
        c.cfrom ∈ (srvOuter cfg p ty ly lk sLo sHi sLk add k parents s).1.map Device.id ∧
        (c.cto ∈ parents ∨
          c.cto ∈ (srvOuter cfg p ty ly lk sLo sHi sLk add k parents s).1.map Device.id) ∧
        (c.link_type = lk ∨ c.link_type = sLk)) ∧
      ((srvOuter cfg p ty ly lk sLo sHi sLk add k parents s).1.filter
        (fun d => d.type == ty)).length = parents.length * k ∧
      ((srvOuter cfg p ty ly lk sLo sHi sLk add k parents s).1.filter
        (fun d => d.type == "Server_Group")).length
        = (if add then parents.length * k else 0) ∧
      ((srvOuter cfg p ty ly lk sLo sHi sLk add k parents s).2.1.filter
        (fun c => c.link_type == lk)).length = parents.length * k ∧
      ((srvOuter cfg p ty ly lk sLo sHi sLk add k parents s).2.1.filter
        (fun c => c.link_type == sLk)).length = (if add then parents.length * k else 0) := by
  intro parents
  induction parents with
  | nil =>
    intro s
    refine ⟨by simp [srvOuter], by simp [srvOuter], ?_, by simp [srvOuter], by simp [srvOuter],
      by simp [srvOuter], by simp [srvOuter], by simp [srvOuter], by simp [srvOuter]⟩
    cases add <;> simpa [srvOuter] using IdsSpec.nil (locTag cfg) le_rfl
  | cons parent rest ih =>
    intro s
    obtain ⟨in1, in2, in3, in4, in5, in6, in7, in8, in9⟩ :=
      srvInner_spec cfg hg ty ly lk sLo sHi sLk add parent hty hlk k s
    obtain ⟨ih1, ih2, ih3, ih4, ih5, ih6, ih7, ih8, ih9⟩ :=
      ih (srvInner cfg p ty ly lk sLo sHi sLk add parent k s).2.2
    refine ⟨?_, ?_, ?_, ?_, ?_, ?_, ?_, ?_, ?_⟩
    · simp only [srvOuter]
      rw [ih1, in1]
      simp only [List.length_cons]
      ring
    · simp only [srvOuter]; rw [ih2, in2]
    · simp only [srvOuter, List.map_append]
      have h2 := ih3
      rw [in1] at h2
      have := in3.append h2
      have harith : s.counter + k + rest.length * k = s.counter + (rest.length + 1) * k := by
        ring
      rw [harith] at this
      simpa using this
    · intro d hd
      simp only [srvOuter, List.mem_append] at hd
      rcases hd with hd | hd
      · exact in4 d hd
      · exact ih4 d hd
    · intro c hc
      simp only [srvOuter, List.mem_append] at hc
      simp only [srvOuter, List.map_append]
      rcases hc with hc | hc
      · obtain ⟨hc1, hc2, hc3⟩ := in5 c hc
        refine ⟨List.mem_append.mpr (Or.inl hc1), ?_, hc3⟩
        rcases hc2 with hc2 | hc2
        · exact Or.inl (hc2 ▸ List.mem_cons_self _ _)
        · exact Or.inr (List.mem_append.mpr (Or.inl hc2))
      · obtain ⟨hc1, hc2, hc3⟩ := ih5 c hc
        refine ⟨List.mem_append.mpr (Or.inr hc1), ?_, hc3⟩
        rcases hc2 with hc2 | hc2
        · exact Or.inl (List.mem_cons_of_mem _ hc2)
        · exact Or.inr (List.mem_append.mpr (Or.inr hc2))
    · simp only [srvOuter, List.filter_append, List.length_append]
      rw [in6, ih6]
      simp only [List.length_cons]
      ring
    · simp only [srvOuter, List.filter_append, List.length_append]
      rw [in7, ih7]
      cases add <;> simp <;> ring
    · simp only [srvOuter, List.filter_append, List.length_append]
      rw [in8, ih8]
      simp only [List.length_cons]
      ring
    · simp only [srvOuter, List.filter_append, List.length_append]
      rw [in9, ih9]
      cases add <;> simp <;> ring

theorem slLeafLoop_succ_true (cfg : LocCfg) (spines : List String) (k : ℕ) (s : GenState) :
    slLeafLoop cfg spines true (k + 1) s
      = (⟨(generate_device_id cfg "LF" s).1, "Leaf_Switch", "Leaf_SL", none⟩ ::
          ⟨"Server-" ++ (generate_device_id cfg "LF" s).1, "Server_Group", "Endpoint",
            some (20 + s.rng s.rpos % 29)⟩ ::
          (slLeafLoop cfg spines true k
            { counter := s.counter + 1, rng := s.rng, rpos := s.rpos + 1 }).1,
         spines.map (fun sp => (⟨(generate_device_id cfg "LF" s).1, sp, "L3_routed_ECMP"⟩ :
             Connection)) ++
          ⟨(generate_device_id cfg "LF" s).1, "Server-" ++ (generate_device_id cfg "LF" s).1,
            "L2_access_VXLAN"⟩ ::
          (slLeafLoop cfg spines true k
            { counter := s.counter + 1, rng := s.rng, rpos := s.rpos + 1 }).2.1,
         (slLeafLoop cfg spines true k
            { counter := s.counter + 1, rng := s.rng, rpos := s.rpos + 1 }).2.2) := rfl

theorem slLeafLoop_succ_false (cfg : LocCfg) (spines : List String) (k : ℕ) (s : GenState) :
    slLeafLoop cfg spines false (k + 1) s
      = (⟨(generate_device_id cfg "LF" s).1, "Leaf_Switch", "Leaf_SL", none⟩ ::
          (slLeafLoop cfg spines false k
            { counter := s.counter + 1, rng := s.rng, rpos := s.rpos }).1,
         spines.map (fun sp => (⟨(generate_device_id cfg "LF" s).1, sp, "L3_routed_ECMP"⟩ :
             Connection)) ++
          (slLeafLoop cfg spines false k
            { counter := s.counter + 1, rng := s.rng, rpos := s.rpos }).2.1,
         (slLeafLoop cfg spines false k
            { counter := s.counter + 1, rng := s.rng, rpos := s.rpos }).2.2) := rfl

theorem slLeafLoop_spec (cfg : LocCfg) (spines : List String) (add : Bool) :
    ∀ (k : ℕ) (s : GenState),
      (slLeafLoop cfg spines add k s).2.2.counter = s.counter + k ∧
      (slLeafLoop cfg spines add k s).2.2.rng = s.rng ∧
      IdsSpec (locTag cfg) s.counter (s.counter + k)
        ((slLeafLoop cfg spines add k s).1.map Device.id) ∧
      (∀ d ∈ (slLeafLoop cfg spines add k s).1,
        (d.type = "Leaf_Switch" ∧ d.layer = "Leaf_SL" ∧ d.count = none) ∨
        (d.type = "Server_Group" ∧ d.layer = "Endpoint" ∧ ∃ m, d.count = some m)) ∧
      (∀ c ∈ (slLeafLoop cfg spines add k s).2.1,
        c.cfrom ∈ (slLeafLoop cfg spines add k s).1.map Device.id ∧
        (c.cto ∈ spines ∨ c.cto ∈ (slLeafLoop cfg spines add k s).1.map Device.id) ∧
        (c.link_type = "L3_routed_ECMP" ∨ c.link_type = "L2_access_VXLAN")) ∧
      ((slLeafLoop cfg spines add k s).1.filter
        (fun d => d.type == "Leaf_Switch")).length = k ∧
      ((slLeafLoop cfg spines add k s).1.filter
        (fun d => d.type == "Server_Group")).length = (if add then k else 0) := by
  have hgood : GoodPfx "LF" := by constructor <;> decide
  intro k
  induction k with
  | zero =>
    intro s
    refine ⟨by simp [slLeafLoop], by simp [slLeafLoop], ?_, by simp [slLeafLoop],
      by simp [slLeafLoop], by simp [slLeafLoop], by simp [slLeafLoop]⟩
    cases add <;> simpa [slLeafLoop] using IdsSpec.nil (locTag cfg) le_rfl
  | succ k ih =>
    intro s
    cases add with
    | false =>
      obtain ⟨ih1, ih2, ih3, ih4, ih5, ih6, ih7⟩ :=
        ih { counter := s.counter + 1, rng := s.rng, rpos := s.rpos }
      refine ⟨?_, ?_, ?_, ?_, ?_, ?_, ?_⟩
      · rw [slLeafLoop_succ_false]
        show (slLeafLoop cfg spines false k
          { counter := s.counter + 1, rng := s.rng, rpos := s.rpos }).2.2.counter
          = s.counter + (k + 1)
        rw [ih1]
        show s.counter + 1 + k = s.counter + (k + 1)
        omega
      · rw [slLeafLoop_succ_false]
        exact ih2
      · rw [slLeafLoop_succ_false, List.map_cons, generate_device_id_fst]
        have hbase : IdsSpec (locTag cfg) (s.counter + 1) (s.counter + (k + 1))
            ((slLeafLoop cfg spines false k
              { counter := s.counter + 1, rng := s.rng, rpos := s.rpos }).1.map Device.id) := by
          have := ih3
          simp only [] at this
          exact this.mono le_rfl (by omega)
        exact IdsSpec.cons hgood (Nat.lt_succ_self s.counter) (by omega) hbase
      · intro d hd
        rw [slLeafLoop_succ_false] at hd
        rcases List.mem_cons.mp hd with rfl | hd
        · exact Or.inl ⟨rfl, rfl, rfl⟩
        · exact ih4 d hd
      · intro c hc
        rw [slLeafLoop_succ_false] at hc
        rw [slLeafLoop_succ_false, List.map_cons]
        rcases List.mem_append.mp hc with hc | hc
        · obtain ⟨sp, hsp, rfl⟩ := List.mem_map.mp hc
          exact ⟨List.mem_cons_self _ _, Or.inl hsp, Or.inl rfl⟩
        · obtain ⟨hc1, hc2, hc3⟩ := ih5 c hc
          refine ⟨List.mem_cons_of_mem _ hc1, ?_, hc3⟩
          rcases hc2 with hc2 | hc2
          · exact Or.inl hc2
          · exact Or.inr (List.mem_cons_of_mem _ hc2)
      · rw [slLeafLoop_succ_false]
        simp only [List.filter_cons, beq_self_eq_true, eq_self_iff_true, if_true,
          List.length_cons]
        rw [ih6]
      · rw [slLeafLoop_succ_false]
        simp [List.filter_cons, ih7]
    | true =>
      obtain ⟨ih1, ih2, ih3, ih4, ih5, ih6, ih7⟩ :=
        ih { counter := s.counter + 1, rng := s.rng, rpos := s.rpos + 1 }
      refine ⟨?_, ?_, ?_, ?_, ?_, ?_, ?_⟩
      · rw [slLeafLoop_succ_true]
        show (slLeafLoop cfg spines true k
          { counter := s.counter + 1, rng := s.rng, rpos := s.rpos + 1 }).2.2.counter
          = s.counter + (k + 1)
        rw [ih1]
        show s.counter + 1 + k = s.counter + (k + 1)
        omega
      · rw [slLeafLoop_succ_true]
        exact ih2
      · rw [slLeafLoop_succ_true, List.map_cons, List.map_cons, generate_device_id_fst]
        have hsrv : ("Server-" ++ render false "LF" (s.counter + 1) (locTag cfg) : String)
            = render true "LF" (s.counter + 1) (locTag cfg) := server_render "LF" _ _
        rw [hsrv]
        have hbase : IdsSpec (locTag cfg) (s.counter + 1) (s.counter + (k + 1))
            ((slLeafLoop cfg spines true k
              { counter := s.counter + 1, rng := s.rng, rpos := s.rpos + 1 }).1.map Device.id) := by
          have := ih3
          simp only [] at this
          exact this.mono le_rfl (by omega)
        exact IdsSpec.cons2 hgood (Nat.lt_succ_self s.counter) (by omega) hbase
      · intro d hd
        rw [slLeafLoop_succ_true] at hd
        rcases List.mem_cons.mp hd with rfl | hd
        · exact Or.inl ⟨rfl, rfl, rfl⟩
        rcases List.mem_cons.mp hd with rfl | hd
        · exact Or.inr ⟨rfl, rfl, _, rfl⟩
        · exact ih4 d hd
      · intro c hc
        rw [slLeafLoop_succ_true] at hc
        rw [slLeafLoop_succ_true, List.map_cons, List.map_cons]
        rcases List.mem_append.mp hc with hc | hc
        · obtain ⟨sp, hsp, rfl⟩ := List.mem_map.mp hc
          exact ⟨List.mem_cons_self _ _, Or.inl hsp, Or.inl rfl⟩
        rcases List.mem_cons.mp hc with rfl | hc
        · exact ⟨List.mem_cons_self _ _,
            Or.inr (List.mem_cons_of_mem _ (List.mem_cons_self _ _)), Or.inr rfl⟩
        · obtain ⟨hc1, hc2, hc3⟩ := ih5 c hc
          refine ⟨List.mem_cons_of_mem _ (List.mem_cons_of_mem _ hc1), ?_, hc3⟩
          rcases hc2 with hc2 | hc2
          · exact Or.inl hc2
          · exact Or.inr (List.mem_cons_of_mem _ (List.mem_cons_of_mem _ hc2))
      · rw [slLeafLoop_succ_true]
        simp [List.filter_cons, ih6]
      · rw [slLeafLoop_succ_true]
        simp [List.filter_cons, ih7]

theorem blLoop_succ (cfg : LocCfg) (pool : List String) (n : ℕ) (s : GenState) :
    blLoop cfg pool (n + 1) s
      = (let r := generate_device_id cfg "BL" s
         let rup := if pool.isEmpty then (([] : List Connection), r.2)
                    else
                      let rch := choice pool r.2
                      ([(⟨r.1, rch.1, "L3_routed"⟩ : Connection)], rch.2)
         let rest := blLoop cfg pool n rup.2
         (⟨r.1, "Border_Leaf_Switch", "Border", none⟩ :: rest.1,
          rup.1 ++ [⟨r.1, "External_ISP_Router" ++ locTag cfg, "BGP_peering"⟩,
            ⟨r.1, "WAN_Router_or_SDWAN_Hub" ++ locTag cfg, "WAN_connection"⟩,
            ⟨r.1, "Security_Appliance" ++ locTag cfg, "Service_Chain"⟩] ++ rest.2.1,
          rest.2.2)) := rfl

theorem blLoop_spec (cfg : LocCfg) (pool : List String) :
    ∀ (n : ℕ) (s : GenState),
      (blLoop cfg pool n s).2.2.counter = s.counter + n ∧
      (blLoop cfg pool n s).2.2.rng = s.rng ∧
      IdsSpec (locTag cfg) s.counter (s.counter + n) ((blLoop cfg pool n s).1.map Device.id) ∧
      (∀ d ∈ (blLoop cfg pool n s).1,
        d.type = "Border_Leaf_Switch" ∧ d.layer = "Border" ∧ d.count = none) ∧
      (blLoop cfg pool n s).1.length = n ∧
      (∀ c ∈ (blLoop cfg pool n s).2.1,
        c.cfrom ∈ (blLoop cfg pool n s).1.map Device.id ∧
        (c.cto ∈ pool ∨ c.cto ∈ extNames cfg)) ∧
      (pool ≠ [] → ∀ d ∈ (blLoop cfg pool n s).1,
        ∃ c ∈ (blLoop cfg pool n s).2.1,
          c.cfrom = d.id ∧ c.cto ∈ pool ∧ c.link_type = "L3_routed") := by
  have hgood : GoodPfx "BL" := by constructor <;> decide
  intro n
  induction n with
  | zero =>
    intro s
    refine ⟨by simp [blLoop], by simp [blLoop], ?_, by simp [blLoop], by simp [blLoop],
      by simp [blLoop], by simp [blLoop]⟩
    simpa [blLoop] using IdsSpec.nil (locTag cfg) le_rfl
  | succ n ih =>
    intro s
    rw [blLoop_succ]
    simp only []
    by_cases hpool : pool.isEmpty
    · rw [if_pos hpool]
      simp only [generate_device_id_snd]
      obtain ⟨ih1, ih2, ih3, ih4, ih5, ih6, ih7⟩ :=
        ih { counter := s.counter + 1, rng := s.rng, rpos := s.rpos }
      have hpnil : pool = [] := List.isEmpty_iff.mp hpool
      refine ⟨?_, ?_, ?_, ?_, ?_, ?_, ?_⟩
      · show (blLoop cfg pool n _).2.2.counter = s.counter + (n + 1)
        rw [ih1]
        show s.counter + 1 + n = s.counter + (n + 1)
        omega
      · exact ih2
      · rw [List.map_cons, generate_device_id_fst]
        have hbase : IdsSpec (locTag cfg) (s.counter + 1) (s.counter + (n + 1))
            ((blLoop cfg pool n
              { counter := s.counter + 1, rng := s.rng, rpos := s.rpos }).1.map Device.id) := by
          have := ih3
          simp only [] at this
          exact this.mono le_rfl (by omega)
        exact IdsSpec.cons hgood (Nat.lt_succ_self s.counter) (by omega) hbase
      · intro d hd
        rcases List.mem_cons.mp hd with rfl | hd
        · exact ⟨rfl, rfl, rfl⟩
        · exact ih4 d hd
      · simp only [List.length_cons]
        rw [ih5]
      · intro c hc
        simp only [List.nil_append] at hc
        rcases List.mem_cons.mp hc with rfl | hc
        · exact ⟨by simp, Or.inr (by simp [extNames])⟩
        rcases List.mem_cons.mp hc with rfl | hc
        · exact ⟨by simp, Or.inr (by simp [extNames])⟩
        rcases List.mem_cons.mp hc with rfl | hc
        · exact ⟨by simp, Or.inr (by simp [extNames])⟩
        · obtain ⟨hc1, hc2⟩ := ih6 c hc
          exact ⟨List.mem_cons_of_mem _ hc1, hc2⟩
      · intro hne
        exact absurd hpnil hne
    · rw [if_neg hpool]
      simp only [generate_device_id_snd, choice]
      obtain ⟨ih1, ih2, ih3, ih4, ih5, ih6, ih7⟩ :=
        ih { counter := s.counter + 1, rng := s.rng, rpos := s.rpos + 1 }
      have hpne : pool ≠ [] := by
        intro hx
        rw [hx] at hpool
        exact hpool rfl
      refine ⟨?_, ?_, ?_, ?_, ?_, ?_, ?_⟩
      · show (blLoop cfg pool n _).2.2.counter = s.counter + (n + 1)
        rw [ih1]
        show s.counter + 1 + n = s.counter + (n + 1)
        omega
      · exact ih2
      · rw [List.map_cons, generate_device_id_fst]
        have hbase : IdsSpec (locTag cfg) (s.counter + 1) (s.counter + (n + 1))
            ((blLoop cfg pool n
              { counter := s.counter + 1, rng := s.rng, rpos := s.rpos + 1 }).1.map
                Device.id) := by
          have := ih3
          simp only [] at this
          exact this.mono le_rfl (by omega)
        exact IdsSpec.cons hgood (Nat.lt_succ_self s.counter) (by omega) hbase
      · intro d hd
        rcases List.mem_cons.mp hd with rfl | hd
        · exact ⟨rfl, rfl, rfl⟩
        · exact ih4 d hd
      · simp only [List.length_cons]
        rw [ih5]
      · intro c hc
        have hchm : pool.getD (s.rng s.rpos % pool.length) "" ∈ pool := by
          have := choice_mem hpne { counter := s.counter + 1, rng := s.rng, rpos := s.rpos }
          simpa [choice] using this
        rcases List.mem_cons.mp hc with rfl | hc
        · exact ⟨by simp, Or.inl hchm⟩
        rcases List.mem_cons.mp hc with rfl | hc
        · exact ⟨by simp, Or.inr (by simp [extNames])⟩
        rcases List.mem_cons.mp hc with rfl | hc
        · exact ⟨by simp, Or.inr (by simp [extNames])⟩
        rcases List.mem_cons.mp hc with rfl | hc
        · exact ⟨by simp, Or.inr (by simp [extNames])⟩
        · obtain ⟨hc1, hc2⟩ := ih6 c hc
          exact ⟨List.mem_cons_of_mem _ hc1, hc2⟩
      · intro _ d hd
        have hchm : pool.getD (s.rng s.rpos % pool.length) "" ∈ pool := by
          have := choice_mem hpne { counter := s.counter + 1, rng := s.rng, rpos := s.rpos }
          simpa [choice] using this
        rcases List.mem_cons.mp hd with rfl | hd
        · exact ⟨_, List.mem_cons_self _ _, rfl, hchm, rfl⟩
        · obtain ⟨c, hcm, hc1, hc2, hc3⟩ := ih7 hpne d hd
          exact ⟨c, by
            refine List.mem_cons_of_mem _ ?_
            refine List.mem_cons_of_mem _ ?_
            refine List.mem_cons_of_mem _ ?_
            exact List.mem_cons_of_mem _ hcm, hc1, hc2, hc3⟩

theorem uplinkLoop_spec (pool : List String) (lt : String) :
    ∀ (outs : List String) (s : GenState),
      (uplinkLoop pool lt outs s).2.counter = s.counter ∧
      (uplinkLoop pool lt outs s).2.rng = s.rng ∧
      (∀ c ∈ (uplinkLoop pool lt outs s).1,
        c.cfrom ∈ outs ∧ c.link_type = lt ∧ (pool ≠ [] → c.cto ∈ pool)) ∧
      (∀ o ∈ outs, ∃ c ∈ (uplinkLoop pool lt outs s).1,
        c.cfrom = o ∧ c.link_type = lt ∧ (pool ≠ [] → c.cto ∈ pool)) := by
  intro outs
  induction outs with
  | nil => intro s; simp [uplinkLoop]
  | cons o rest ih =>
    intro s
    obtain ⟨ih1, ih2, ih3, ih4⟩ := ih { s with rpos := s.rpos + 1 }
    refine ⟨?_, ?_, ?_, ?_⟩
    · simp only [uplinkLoop, choice]
      rw [ih1]
    · simp only [uplinkLoop, choice]
      rw [ih2]
    · intro c hc
      simp only [uplinkLoop, choice, List.mem_cons] at hc
      rcases hc with rfl | hc
      · refine ⟨List.mem_cons_self _ _, rfl, fun hne => ?_⟩
        have := choice_mem hne s
        simpa [choice] using this
      · obtain ⟨hc1, hc2, hc3⟩ := ih3 c hc
        exact ⟨List.mem_cons_of_mem _ hc1, hc2, hc3⟩
    · intro o' ho'
      simp only [uplinkLoop, choice]
      rcases List.mem_cons.mp ho' with rfl | ho'
      · refine ⟨_, List.mem_cons_self _ _, rfl, rfl, fun hne => ?_⟩
        have := choice_mem hne s
        simpa [choice] using this
      · obtain ⟨c, hcm, hc1, hc2, hc3⟩ := ih4 o' ho'
        exact ⟨c, List.mem_cons_of_mem _ hcm, hc1, hc2, hc3⟩

theorem guard_childOuter (cfg : LocCfg) (p ty ly lk : String) (k : ℕ) (parents : List String)
    (s : GenState) :
    (if parents.isEmpty then (([] : List Device), ([] : List Connection), ([] : List String), s)
     else childOuter cfg p ty ly lk k parents s) = childOuter cfg p ty ly lk k parents s := by
  by_cases h : parents.isEmpty = true
  · rw [if_pos h]
    obtain rfl : parents = [] := List.isEmpty_iff.mp h
    rfl
  · rw [if_neg h]

theorem guard_srvOuter (cfg : LocCfg) (p ty ly lk : String) (sLo sHi : ℕ) (sLk : String)
    (add : Bool) (k : ℕ) (parents : List String) (s : GenState) :
    (if parents.isEmpty then (([] : List Device), ([] : List Connection), s)
     else srvOuter cfg p ty ly lk sLo sHi sLk add k parents s)
      = srvOuter cfg p ty ly lk sLo sHi sLk add k parents s := by
  by_cases h : parents.isEmpty = true
  · rw [if_pos h]
    obtain rfl : parents = [] := List.isEmpty_iff.mp h
    rfl
  · rw [if_neg h]

theorem create_three_tier_eq (n₁ n₂ n₃ : ℕ) (add : Bool) (cfg : LocCfg) (s : GenState) :
    create_three_tier_topology n₁ n₂ n₃ add cfg s
      = (let A := allocLoop cfg "C" "Core_Switch" "Core_3T" n₁ s
         let B := childOuter cfg "A" "Aggregation_Switch" "Aggregation_3T" "L2_trunk_L3_routed"
           n₂ A.2.1 A.2.2
         let C := srvOuter cfg "AS" "Access_Switch" "Access_3T" "L2_trunk" 10 20 "L2_access"
           add n₃ B.2.2.1 B.2.2.2
         (⟨A.1 ++ B.1 ++ C.1, B.2.1 ++ C.2.1, A.2.1⟩, C.2.2)) := by
  simp only [create_three_tier_topology, guard_childOuter, guard_srvOuter]

theorem create_fat_tree_eq (n₁ n₂ n₃ : ℕ) (add : Bool) (cfg : LocCfg) (s : GenState) :
    create_fat_tree_topology n₁ n₂ n₃ add cfg s
      = (let A := allocLoop cfg "FTCS" "FatTree_Core_Spine" "FT_Core" n₁ s
         let B := childOuter cfg "FTAS" "FatTree_Agg_Spine" "FT_Aggregation" "L3_routed_ECMP"
           n₂ A.2.1 A.2.2
         let C := srvOuter cfg "FTEL" "FatTree_Edge_Leaf" "FT_Edge"
           "L3_routed_ECMP_L2_VLAN_overlay" 30 60 "L2_access_VXLAN" add n₃ B.2.2.1 B.2.2.2
         (⟨A.1 ++ B.1 ++ C.1, B.2.1 ++ C.2.1, A.2.1⟩, C.2.2)) := by
  simp only [create_fat_tree_topology, guard_childOuter, guard_srvOuter]

theorem filter_proj_self {α : Type} (f : α → String) (ty : String) (l : List α)
    (h : ∀ a ∈ l, f a = ty) : l.filter (fun a => f a == ty) = l :=
  List.filter_eq_self.mpr (fun a ha => by rw [h a ha]; exact beq_self_eq_true ty)

theorem filter_proj_nil {α : Type} (f : α → String) (ty tq : String) (l : List α)
    (h : ∀ a ∈ l, f a = ty) (hne : ty ≠ tq) : l.filter (fun a => f a == tq) = [] := by
  rw [List.filter_eq_nil_iff]
  intro a ha
  rw [h a ha]
  simp [hne]

theorem filter_proj_nil2 {α : Type} (f : α → String) (t1 t2 tq : String) (l : List α)
    (h : ∀ a ∈ l, f a = t1 ∨ f a = t2) (h1 : t1 ≠ tq) (h2 : t2 ≠ tq) :
    l.filter (fun a => f a == tq) = [] := by
  rw [List.filter_eq_nil_iff]
  intro a ha
  rcases h a ha with ha' | ha' <;> rw [ha'] <;> simp [h1, h2]

theorem length_eq_two_filters {α : Type} (f : α → String) (t1 t2 : String) (l : List α)
    (hne : t1 ≠ t2) (h : ∀ a ∈ l, f a = t1 ∨ f a = t2) :
    l.length = (l.filter (fun a => f a == t1)).length
      + (l.filter (fun a => f a == t2)).length := by
  have hperm := (List.filter_append_perm (fun a => f a == t1) l).length_eq
  rw [List.length_append] at hperm
  have hcongr : l.filter (fun a => !(f a == t1)) = l.filter (fun a => f a == t2) := by
    apply List.filter_congr
    intro a ha
    rcases h a ha with ha' | ha' <;> rw [ha'] <;> simp [hne, Ne.symm hne]
  rw [hcongr] at hperm
  omega

theorem tt_devices_eq (n₁ n₂ n₃ : ℕ) (add : Bool) (cfg : LocCfg) (s : GenState) :
    (create_three_tier_topology n₁ n₂ n₃ add cfg s).1.devices
      = (allocLoop cfg "C" "Core_Switch" "Core_3T" n₁ s).1 ++ (childOuter cfg "A" "Aggregation_Switch" "Aggregation_3T" "L2_trunk_L3_routed" n₂
      (allocLoop cfg "C" "Core_Switch" "Core_3T" n₁ s).2.1
      (allocLoop cfg "C" "Core_Switch" "Core_3T" n₁ s).2.2).1 ++ (srvOuter cfg "AS" "Access_Switch" "Access_3T" "L2_trunk" 10 20 "L2_access" add n₃
      (childOuter cfg "A" "Aggregation_Switch" "Aggregation_3T" "L2_trunk_L3_routed" n₂
      (allocLoop cfg "C" "Core_Switch" "Core_3T" n₁ s).2.1
      (allocLoop cfg "C" "Core_Switch" "Core_3T" n₁ s).2.2).2.2.1
      (childOuter cfg "A" "Aggregation_Switch" "Aggregation_3T" "L2_trunk_L3_routed" n₂
      (allocLoop cfg "C" "Core_Switch" "Core_3T" n₁ s).2.1
      (allocLoop cfg "C" "Core_Switch" "Core_3T" n₁ s).2.2).2.2.2).1 := by
  rw [create_three_tier_eq]

theorem tt_connections_eq (n₁ n₂ n₃ : ℕ) (add : Bool) (cfg : LocCfg) (s : GenState) :
    (create_three_tier_topology n₁ n₂ n₃ add cfg s).1.connections
      = (childOuter cfg "A" "Aggregation_Switch" "Aggregation_3T" "L2_trunk_L3_routed" n₂
      (allocLoop cfg "C" "Core_Switch" "Core_3T" n₁ s).2.1
      (allocLoop cfg "C" "Core_Switch" "Core_3T" n₁ s).2.2).2.1 ++ (srvOuter cfg "AS" "Access_Switch" "Access_3T" "L2_trunk" 10 20 "L2_access" add n₃
      (childOuter cfg "A" "Aggregation_Switch" "Aggregation_3T" "L2_trunk_L3_routed" n₂
      (allocLoop cfg "C" "Core_Switch" "Core_3T" n₁ s).2.1
      (allocLoop cfg "C" "Core_Switch" "Core_3T" n₁ s).2.2).2.2.1
      (childOuter cfg "A" "Aggregation_Switch" "Aggregation_3T" "L2_trunk_L3_routed" n₂
      (allocLoop cfg "C" "Core_Switch" "Core_3T" n₁ s).2.1
      (allocLoop cfg "C" "Core_Switch" "Core_3T" n₁ s).2.2).2.2.2).2.1 := by
  rw [create_three_tier_eq]

theorem tt_outputs_eq (n₁ n₂ n₃ : ℕ) (add : Bool) (cfg : LocCfg) (s : GenState) :
    (create_three_tier_topology n₁ n₂ n₃ add cfg s).1.core_outputs = (allocLoop cfg "C" "Core_Switch" "Core_3T" n₁ s).2.1 := by
  rw [create_three_tier_eq]

theorem tt_state_eq (n₁ n₂ n₃ : ℕ) (add : Bool) (cfg : LocCfg) (s : GenState) :
    (create_three_tier_topology n₁ n₂ n₃ add cfg s).2 = (srvOuter cfg "AS" "Access_Switch" "Access_3T" "L2_trunk" 10 20 "L2_access" add n₃
      (childOuter cfg "A" "Aggregation_Switch" "Aggregation_3T" "L2_trunk_L3_routed" n₂
      (allocLoop cfg "C" "Core_Switch" "Core_3T" n₁ s).2.1
      (allocLoop cfg "C" "Core_Switch" "Core_3T" n₁ s).2.2).2.2.1
      (childOuter cfg "A" "Aggregation_Switch" "Aggregation_3T" "L2_trunk_L3_routed" n₂
      (allocLoop cfg "C" "Core_Switch" "Core_3T" n₁ s).2.1
      (allocLoop cfg "C" "Core_Switch" "Core_3T" n₁ s).2.2).2.2.2).2.2 := by
  rw [create_three_tier_eq]


theorem layered_spec (cfg : LocCfg) {p1 p2 p3 : String}
    (g1 : GoodPfx p1) (g2 : GoodPfx p2) (g3 : GoodPfx p3)
    (ty1 ly1 ty2 ly2 lk2 ty3 ly3 lk3 : String) (sLo sHi : ℕ) (sLk : String)
    (add : Bool) (n₁ n₂ n₃ : ℕ) (s : GenState)
    (A : List Device × List String × GenState)
    (B : List Device × List Connection × List String × GenState)
    (C : List Device × List Connection × GenState)
    (hA : A = allocLoop cfg p1 ty1 ly1 n₁ s)
    (hB : B = childOuter cfg p2 ty2 ly2 lk2 n₂ A.2.1 A.2.2)
    (hC : C = srvOuter cfg p3 ty3 ly3 lk3 sLo sHi sLk add n₃ B.2.2.1 B.2.2.2)
    (h12 : ty1 ≠ ty2) (h13 : ty1 ≠ ty3) (h23 : ty2 ≠ ty3)
    (h1S : ty1 ≠ "Server_Group") (h2S : ty2 ≠ "Server_Group") (h3S : ty3 ≠ "Server_Group")
    (hl21 : ly2 ≠ ly1) (hl31 : ly3 ≠ ly1) (hlE1 : ("Endpoint" : String) ≠ ly1)
    (hk23 : lk2 ≠ lk3) (hk2s : lk2 ≠ sLk) (hk3s : lk3 ≠ sLk) :
    C.2.2.counter = s.counter + (n₁ + n₁ * n₂ + n₁ * n₂ * n₃) ∧
    C.2.2.rng = s.rng ∧
    IdsSpec (locTag cfg) s.counter (s.counter + (n₁ + n₁ * n₂ + n₁ * n₂ * n₃))
      ((A.1 ++ B.1 ++ C.1).map Device.id) ∧
    (∀ d ∈ A.1 ++ B.1 ++ C.1,
      (d.type = ty1 ∧ d.layer = ly1 ∧ d.count = none) ∨
      (d.type = ty2 ∧ d.layer = ly2 ∧ d.count = none) ∨
      (d.type = ty3 ∧ d.layer = ly3 ∧ d.count = none) ∨
      (d.type = "Server_Group" ∧ d.layer = "Endpoint" ∧ ∃ m, d.count = some m)) ∧
    (∀ c ∈ B.2.1 ++ C.2.1,
      c.cfrom ∈ (A.1 ++ B.1 ++ C.1).map Device.id ∧
      c.cto ∈ (A.1 ++ B.1 ++ C.1).map Device.id) ∧
    A.2.1 = ((A.1 ++ B.1 ++ C.1).filter (fun d => d.layer == ly1)).map Device.id ∧
    ((A.1 ++ B.1 ++ C.1).filter (fun d => d.type == ty1)).length = n₁ ∧
    ((A.1 ++ B.1 ++ C.1).filter (fun d => d.type == ty2)).length = n₁ * n₂ ∧
    ((A.1 ++ B.1 ++ C.1).filter (fun d => d.type == ty3)).length = n₁ * n₂ * n₃ ∧
    ((A.1 ++ B.1 ++ C.1).filter (fun d => d.type == "Server_Group")).length
      = (if add then n₁ * n₂ * n₃ else 0) ∧
    (B.2.1 ++ C.2.1).length = n₁ * n₂ + n₁ * n₂ * n₃ + (if add then n₁ * n₂ * n₃ else 0) ∧
    ((B.2.1 ++ C.2.1).filter (fun c => c.link_type == lk2)).length = n₁ * n₂ ∧
    ((B.2.1 ++ C.2.1).filter (fun c => c.link_type == lk3)).length = n₁ * n₂ * n₃ ∧
    ((B.2.1 ++ C.2.1).filter (fun c => c.link_type == sLk)).length
      = (if add then n₁ * n₂ * n₃ else 0) := by
  obtain ⟨a1, a2, a3, a4, a5, a6⟩ := allocLoop_spec cfg p1 ty1 ly1 n₁ s
  rw [← hA] at a1 a2 a3 a4 a5 a6
  obtain ⟨b1, b2, b3, b4, b5, b6, b7, b8, b9⟩ :=
    childOuter_spec cfg g2 ty2 ly2 lk2 n₂ A.2.1 A.2.2
  rw [← hB] at b1 b2 b3 b4 b5 b6 b7 b8 b9
  obtain ⟨c1, c2, c3, c4, c5, c6, c7, c8, c9⟩ :=
    srvOuter_spec cfg g3 ty3 ly3 lk3 sLo sHi sLk add n₃ h3S hk3s B.2.2.1 B.2.2.2
  rw [← hC] at c1 c2 c3 c4 c5 c6 c7 c8 c9
  have hAoutlen : A.2.1.length = n₁ := by
    rw [a4]
    have := congrArg List.length a5
    simpa using this
  have hAlen : A.1.length = n₁ := by
    have := congrArg List.length a5
    simpa using this
  have hBoutlen : B.2.2.1.length = n₁ * n₂ := by
    rw [b4, List.length_map, b8, hAoutlen]
  have hctr3 : C.2.2.counter = s.counter + (n₁ + n₁ * n₂ + n₁ * n₂ * n₃) := by
    rw [c1, hBoutlen, b1, hAoutlen, a1]
    ring
  refine ⟨hctr3, ?_, ?_, ?_, ?_, ?_, ?_, ?_, ?_, ?_, ?_, ?_, ?_, ?_⟩
  · rw [c2, b2, a2]
  · simp only [List.map_append]
    have hb3 := b5
    rw [a1, hAoutlen] at hb3
    have hc3 := c3
    rw [b1, hAoutlen, a1, hBoutlen] at hc3
    have hAspec : IdsSpec (locTag cfg) s.counter (s.counter + n₁) (A.1.map Device.id) := by
      have := allocLoop_idsSpec cfg g1 ty1 ly1 n₁ s
      rwa [← hA] at this
    have hh12 := hAspec.append hb3
    have hh123 := hh12.append hc3
    have harith : s.counter + n₁ + n₁ * n₂ + n₁ * n₂ * n₃
        = s.counter + (n₁ + n₁ * n₂ + n₁ * n₂ * n₃) := by ring
    rw [harith] at hh123
    exact hh123
  · intro d hd
    rcases List.mem_append.mp hd with hd | hd
    rcases List.mem_append.mp hd with hd | hd
    · exact Or.inl (a6 d hd)
    · exact Or.inr (Or.inl (b6 d hd))
    · rcases c4 d hd with h | h
      · exact Or.inr (Or.inr (Or.inl h))
      · exact Or.inr (Or.inr (Or.inr h))
  · intro c hc
    simp only [List.map_append]
    rcases List.mem_append.mp hc with hc | hc
    · obtain ⟨h1, h2, _⟩ := b7 c hc
      refine ⟨List.mem_append_left _ (List.mem_append_right _ h1), ?_⟩
      rw [a4] at h2
      exact List.mem_append_left _ (List.mem_append_left _ h2)
    · obtain ⟨h1, h2, _⟩ := c5 c hc
      refine ⟨List.mem_append_right _ h1, ?_⟩
      rcases h2 with h2 | h2
      · rw [b4] at h2
        exact List.mem_append_left _ (List.mem_append_right _ h2)
      · exact List.mem_append_right _ h2
  · rw [List.filter_append, List.filter_append]
    rw [filter_proj_self (fun d => d.layer) ly1 A.1 (fun d hd => (a6 d hd).2.1)]
    rw [filter_proj_nil (fun d => d.layer) ly2 ly1 B.1 (fun d hd => (b6 d hd).2.1) hl21]
    rw [filter_proj_nil2 (fun d => d.layer) ly3 "Endpoint" ly1 C.1
      (fun d hd => by rcases c4 d hd with h | h; exacts [Or.inl h.2.1, Or.inr h.2.1])
      hl31 hlE1]
    rw [List.append_nil, List.append_nil]
    exact a4
  · rw [List.filter_append, List.filter_append]
    rw [filter_proj_self (fun d => d.type) ty1 A.1 (fun d hd => (a6 d hd).1)]
    rw [filter_proj_nil (fun d => d.type) ty2 ty1 B.1 (fun d hd => (b6 d hd).1) (Ne.symm h12)]
    rw [filter_proj_nil2 (fun d => d.type) ty3 "Server_Group" ty1 C.1
      (fun d hd => by rcases c4 d hd with h | h; exacts [Or.inl h.1, Or.inr h.1])
      (Ne.symm h13) (Ne.symm h1S)]
    simp [hAlen]
  · rw [List.filter_append, List.filter_append]
    rw [filter_proj_nil (fun d => d.type) ty1 ty2 A.1 (fun d hd => (a6 d hd).1) h12]
    rw [filter_proj_self (fun d => d.type) ty2 B.1 (fun d hd => (b6 d hd).1)]
    rw [filter_proj_nil2 (fun d => d.type) ty3 "Server_Group" ty2 C.1
      (fun d hd => by rcases c4 d hd with h | h; exacts [Or.inl h.1, Or.inr h.1])
      (Ne.symm h23) (Ne.symm h2S)]
    simp only [List.nil_append, List.append_nil, List.length_nil]
    rw [b8, hAoutlen]
  · rw [List.filter_append, List.filter_append]
    rw [filter_proj_nil (fun d => d.type) ty1 ty3 A.1 (fun d hd => (a6 d hd).1) h13]
    rw [filter_proj_nil (fun d => d.type) ty2 ty3 B.1 (fun d hd => (b6 d hd).1) h23]
    simp only [List.nil_append, List.length_append, List.length_nil]
    rw [c6, hBoutlen]
  · rw [List.filter_append, List.filter_append]
    rw [filter_proj_nil (fun d => d.type) ty1 "Server_Group" A.1 (fun d hd => (a6 d hd).1) h1S]
    rw [filter_proj_nil (fun d => d.type) ty2 "Server_Group" B.1 (fun d hd => (b6 d hd).1) h2S]
    simp only [List.nil_append, List.length_append, List.length_nil]
    rw [c7, hBoutlen]
  · rw [List.length_append, b9, hAoutlen]
    have hsplit := length_eq_two_filters (fun c => c.link_type) lk3 sLk C.2.1
      hk3s (fun c hc => (c5 c hc).2.2)
    rw [hsplit, c8, c9, hBoutlen]
    cases add <;> simp <;> ring
  · rw [List.filter_append]
    rw [filter_proj_self (fun c => c.link_type) lk2 B.2.1 (fun c hc => (b7 c hc).2.2)]
    rw [filter_proj_nil2 (fun c => c.link_type) lk3 sLk lk2 C.2.1
      (fun c hc => (c5 c hc).2.2) (Ne.symm hk23) (Ne.symm hk2s)]
    simp only [List.append_nil]
    rw [b9, hAoutlen]
  · rw [List.filter_append]
    rw [filter_proj_nil (fun c => c.link_type) lk2 lk3 B.2.1
      (fun c hc => (b7 c hc).2.2) hk23]
    simp only [List.nil_append]
    rw [c8, hBoutlen]
  · rw [List.filter_append]
    rw [filter_proj_nil (fun c => c.link_type) lk2 sLk B.2.1
      (fun c hc => (b7 c hc).2.2) hk2s]
    simp only [List.nil_append]
    rw [c9, hBoutlen]

theorem ft_devices_eq (n₁ n₂ n₃ : ℕ) (add : Bool) (cfg : LocCfg) (s : GenState) :
    (create_fat_tree_topology n₁ n₂ n₃ add cfg s).1.devices
      = (allocLoop cfg "FTCS" "FatTree_Core_Spine" "FT_Core" n₁ s).1 ++ (childOuter cfg "FTAS" "FatTree_Agg_Spine" "FT_Aggregation" "L3_routed_ECMP" n₂
      (allocLoop cfg "FTCS" "FatTree_Core_Spine" "FT_Core" n₁ s).2.1
      (allocLoop cfg "FTCS" "FatTree_Core_Spine" "FT_Core" n₁ s).2.2).1 ++ (srvOuter cfg "FTEL" "FatTree_Edge_Leaf" "FT_Edge" "L3_routed_ECMP_L2_VLAN_overlay" 30 60 "L2_access_VXLAN" add n₃
      (childOuter cfg "FTAS" "FatTree_Agg_Spine" "FT_Aggregation" "L3_routed_ECMP" n₂
      (allocLoop cfg "FTCS" "FatTree_Core_Spine" "FT_Core" n₁ s).2.1
      (allocLoop cfg "FTCS" "FatTree_Core_Spine" "FT_Core" n₁ s).2.2).2.2.1
      (childOuter cfg "FTAS" "FatTree_Agg_Spine" "FT_Aggregation" "L3_routed_ECMP" n₂
      (allocLoop cfg "FTCS" "FatTree_Core_Spine" "FT_Core" n₁ s).2.1
      (allocLoop cfg "FTCS" "FatTree_Core_Spine" "FT_Core" n₁ s).2.2).2.2.2).1 := by
  rw [create_fat_tree_eq]

theorem ft_connections_eq (n₁ n₂ n₃ : ℕ) (add : Bool) (cfg : LocCfg) (s : GenState) :
    (create_fat_tree_topology n₁ n₂ n₃ add cfg s).1.connections
      = (childOuter cfg "FTAS" "FatTree_Agg_Spine" "FT_Aggregation" "L3_routed_ECMP" n₂
      (allocLoop cfg "FTCS" "FatTree_Core_Spine" "FT_Core" n₁ s).2.1
      (allocLoop cfg "FTCS" "FatTree_Core_Spine" "FT_Core" n₁ s).2.2).2.1 ++ (srvOuter cfg "FTEL" "FatTree_Edge_Leaf" "FT_Edge" "L3_routed_ECMP_L2_VLAN_overlay" 30 60 "L2_access_VXLAN" add n₃
      (childOuter cfg "FTAS" "FatTree_Agg_Spine" "FT_Aggregation" "L3_routed_ECMP" n₂
      (allocLoop cfg "FTCS" "FatTree_Core_Spine" "FT_Core" n₁ s).2.1
      (allocLoop cfg "FTCS" "FatTree_Core_Spine" "FT_Core" n₁ s).2.2).2.2.1
      (childOuter cfg "FTAS" "FatTree_Agg_Spine" "FT_Aggregation" "L3_routed_ECMP" n₂
      (allocLoop cfg "FTCS" "FatTree_Core_Spine" "FT_Core" n₁ s).2.1
      (allocLoop cfg "FTCS" "FatTree_Core_Spine" "FT_Core" n₁ s).2.2).2.2.2).2.1 := by
  rw [create_fat_tree_eq]

theorem ft_outputs_eq (n₁ n₂ n₃ : ℕ) (add : Bool) (cfg : LocCfg) (s : GenState) :
    (create_fat_tree_topology n₁ n₂ n₃ add cfg s).1.core_spine_outputs = (allocLoop cfg "FTCS" "FatTree_Core_Spine" "FT_Core" n₁ s).2.1 := by
  rw [create_fat_tree_eq]

theorem ft_state_eq (n₁ n₂ n₃ : ℕ) (add : Bool) (cfg : LocCfg) (s : GenState) :
    (create_fat_tree_topology n₁ n₂ n₃ add cfg s).2 = (srvOuter cfg "FTEL" "FatTree_Edge_Leaf" "FT_Edge" "L3_routed_ECMP_L2_VLAN_overlay" 30 60 "L2_access_VXLAN" add n₃
      (childOuter cfg "FTAS" "FatTree_Agg_Spine" "FT_Aggregation" "L3_routed_ECMP" n₂
      (allocLoop cfg "FTCS" "FatTree_Core_Spine" "FT_Core" n₁ s).2.1
      (allocLoop cfg "FTCS" "FatTree_Core_Spine" "FT_Core" n₁ s).2.2).2.2.1
      (childOuter cfg "FTAS" "FatTree_Agg_Spine" "FT_Aggregation" "L3_routed_ECMP" n₂
      (allocLoop cfg "FTCS" "FatTree_Core_Spine" "FT_Core" n₁ s).2.1
      (allocLoop cfg "FTCS" "FatTree_Core_Spine" "FT_Core" n₁ s).2.2).2.2.2).2.2 := by
  rw [create_fat_tree_eq]

theorem create_three_tier_spec (n₁ n₂ n₃ : ℕ) (add : Bool) (cfg : LocCfg) (s : GenState) :
    (create_three_tier_topology n₁ n₂ n₃ add cfg s).2.counter
      = s.counter + (n₁ + n₁ * n₂ + n₁ * n₂ * n₃) ∧
    (create_three_tier_topology n₁ n₂ n₃ add cfg s).2.rng = s.rng ∧
    IdsSpec (locTag cfg) s.counter (s.counter + (n₁ + n₁ * n₂ + n₁ * n₂ * n₃))
      ((create_three_tier_topology n₁ n₂ n₃ add cfg s).1.devices.map Device.id) ∧
    (∀ d ∈ (create_three_tier_topology n₁ n₂ n₃ add cfg s).1.devices,
      (d.type = "Core_Switch" ∧ d.layer = "Core_3T" ∧ d.count = none) ∨
      (d.type = "Aggregation_Switch" ∧ d.layer = "Aggregation_3T" ∧ d.count = none) ∨
      (d.type = "Access_Switch" ∧ d.layer = "Access_3T" ∧ d.count = none) ∨
      (d.type = "Server_Group" ∧ d.layer = "Endpoint" ∧ ∃ m, d.count = some m)) ∧
    (∀ c ∈ (create_three_tier_topology n₁ n₂ n₃ add cfg s).1.connections,
      c.cfrom ∈ (create_three_tier_topology n₁ n₂ n₃ add cfg s).1.devices.map Device.id ∧
      c.cto ∈ (create_three_tier_topology n₁ n₂ n₃ add cfg s).1.devices.map Device.id) ∧
    (create_three_tier_topology n₁ n₂ n₃ add cfg s).1.core_outputs
      = ((create_three_tier_topology n₁ n₂ n₃ add cfg s).1.devices.filter
          (fun d => d.layer == "Core_3T")).map Device.id ∧
    ((create_three_tier_topology n₁ n₂ n₃ add cfg s).1.devices.filter
      (fun d => d.type == "Core_Switch")).length = n₁ ∧
    ((create_three_tier_topology n₁ n₂ n₃ add cfg s).1.devices.filter
      (fun d => d.type == "Aggregation_Switch")).length = n₁ * n₂ ∧
    ((create_three_tier_topology n₁ n₂ n₃ add cfg s).1.devices.filter
      (fun d => d.type == "Access_Switch")).length = n₁ * n₂ * n₃ ∧
    ((create_three_tier_topology n₁ n₂ n₃ add cfg s).1.devices.filter
      (fun d => d.type == "Server_Group")).length = (if add then n₁ * n₂ * n₃ else 0) ∧
    (create_three_tier_topology n₁ n₂ n₃ add cfg s).1.connections.length
      = n₁ * n₂ + n₁ * n₂ * n₃ + (if add then n₁ * n₂ * n₃ else 0) ∧
    ((create_three_tier_topology n₁ n₂ n₃ add cfg s).1.connections.filter
      (fun c => c.link_type == "L2_trunk_L3_routed")).length = n₁ * n₂ ∧
    ((create_three_tier_topology n₁ n₂ n₃ add cfg s).1.connections.filter
      (fun c => c.link_type == "L2_trunk")).length = n₁ * n₂ * n₃ ∧
    ((create_three_tier_topology n₁ n₂ n₃ add cfg s).1.connections.filter
      (fun c => c.link_type == "L2_access")).length = (if add then n₁ * n₂ * n₃ else 0) := by
  simp only [tt_devices_eq, tt_connections_eq, tt_outputs_eq, tt_state_eq]
  exact layered_spec cfg (by constructor <;> decide) (by constructor <;> decide)
    (by constructor <;> decide)
    "Core_Switch" "Core_3T" "Aggregation_Switch" "Aggregation_3T" "L2_trunk_L3_routed"
    "Access_Switch" "Access_3T" "L2_trunk" 10 20 "L2_access" add n₁ n₂ n₃ s
    _ _ _ rfl rfl rfl
    (by decide) (by decide) (by decide) (by decide) (by decide) (by decide) (by decide) (by decide) (by decide) (by decide) (by decide) (by decide)

theorem create_fat_tree_spec (n₁ n₂ n₃ : ℕ) (add : Bool) (cfg : LocCfg) (s : GenState) :
    (create_fat_tree_topology n₁ n₂ n₃ add cfg s).2.counter
      = s.counter + (n₁ + n₁ * n₂ + n₁ * n₂ * n₃) ∧
    (create_fat_tree_topology n₁ n₂ n₃ add cfg s).2.rng = s.rng ∧
    IdsSpec (locTag cfg) s.counter (s.counter + (n₁ + n₁ * n₂ + n₁ * n₂ * n₃))
      ((create_fat_tree_topology n₁ n₂ n₃ add cfg s).1.devices.map Device.id) ∧
    (∀ d ∈ (create_fat_tree_topology n₁ n₂ n₃ add cfg s).1.devices,
      (d.type = "FatTree_Core_Spine" ∧ d.layer = "FT_Core" ∧ d.count = none) ∨
      (d.type = "FatTree_Agg_Spine" ∧ d.layer = "FT_Aggregation" ∧ d.count = none) ∨
      (d.type = "FatTree_Edge_Leaf" ∧ d.layer = "FT_Edge" ∧ d.count = none) ∨
      (d.type = "Server_Group" ∧ d.layer = "Endpoint" ∧ ∃ m, d.count = some m)) ∧
    (∀ c ∈ (create_fat_tree_topology n₁ n₂ n₃ add cfg s).1.connections,
      c.cfrom ∈ (create_fat_tree_topology n₁ n₂ n₃ add cfg s).1.devices.map Device.id ∧
      c.cto ∈ (create_fat_tree_topology n₁ n₂ n₃ add cfg s).1.devices.map Device.id) ∧
    (create_fat_tree_topology n₁ n₂ n₃ add cfg s).1.core_spine_outputs
      = ((create_fat_tree_topology n₁ n₂ n₃ add cfg s).1.devices.filter
          (fun d => d.layer == "FT_Core")).map Device.id ∧
    ((create_fat_tree_topology n₁ n₂ n₃ add cfg s).1.devices.filter
      (fun d => d.type == "FatTree_Core_Spine")).length = n₁ ∧
    ((create_fat_tree_topology n₁ n₂ n₃ add cfg s).1.devices.filter
      (fun d => d.type == "FatTree_Agg_Spine")).length = n₁ * n₂ ∧
    ((create_fat_tree_topology n₁ n₂ n₃ add cfg s).1.devices.filter
      (fun d => d.type == "FatTree_Edge_Leaf")).length = n₁ * n₂ * n₃ ∧
    ((create_fat_tree_topology n₁ n₂ n₃ add cfg s).1.devices.filter
      (fun d => d.type == "Server_Group")).length = (if add then n₁ * n₂ * n₃ else 0) ∧
    (create_fat_tree_topology n₁ n₂ n₃ add cfg s).1.connections.length
      = n₁ * n₂ + n₁ * n₂ * n₃ + (if add then n₁ * n₂ * n₃ else 0) ∧
    ((create_fat_tree_topology n₁ n₂ n₃ add cfg s).1.connections.filter
      (fun c => c.link_type == "L3_routed_ECMP")).length = n₁ * n₂ ∧
    ((create_fat_tree_topology n₁ n₂ n₃ add cfg s).1.connections.filter
      (fun c => c.link_type == "L3_routed_ECMP_L2_VLAN_overlay")).length = n₁ * n₂ * n₃ ∧
    ((create_fat_tree_topology n₁ n₂ n₃ add cfg s).1.connections.filter
      (fun c => c.link_type == "L2_access_VXLAN")).length = (if add then n₁ * n₂ * n₃ else 0) := by
  simp only [ft_devices_eq, ft_connections_eq, ft_outputs_eq, ft_state_eq]
  exact layered_spec cfg (by constructor <;> decide) (by constructor <;> decide)
    (by constructor <;> decide)
    "FatTree_Core_Spine" "FT_Core" "FatTree_Agg_Spine" "FT_Aggregation" "L3_routed_ECMP"
    "FatTree_Edge_Leaf" "FT_Edge" "L3_routed_ECMP_L2_VLAN_overlay" 30 60 "L2_access_VXLAN"
    add n₁ n₂ n₃ s
    _ _ _ rfl rfl rfl
    (by decide) (by decide) (by decide) (by decide) (by decide) (by decide) (by decide) (by decide) (by decide) (by decide) (by decide) (by decide)

theorem create_spine_leaf_eq_zero (base : ℚ) (add : Bool) (cfg : LocCfg) (s : GenState) :
    create_spine_leaf_topology 0 base add cfg s = (⟨[], [], []⟩, s) := rfl

theorem create_spine_leaf_eq_pos (num_spines : ℕ) (base : ℚ) (add : Bool) (cfg : LocCfg)
    (s : GenState)
    (h : (allocLoop cfg "SP" "Spine_Switch" "Spine_SL" num_spines s).2.1.isEmpty = false) :
    create_spine_leaf_topology num_spines base add cfg s
      = (⟨(allocLoop cfg "SP" "Spine_Switch" "Spine_SL" num_spines s).1
            ++ (slLeafLoop cfg (allocLoop cfg "SP" "Spine_Switch" "Spine_SL" num_spines s).2.1
                add (slLeafCountZ num_spines base).toNat
                (allocLoop cfg "SP" "Spine_Switch" "Spine_SL" num_spines s).2.2).1,
          (slLeafLoop cfg (allocLoop cfg "SP" "Spine_Switch" "Spine_SL" num_spines s).2.1
            add (slLeafCountZ num_spines base).toNat
            (allocLoop cfg "SP" "Spine_Switch" "Spine_SL" num_spines s).2.2).2.1,
          (allocLoop cfg "SP" "Spine_Switch" "Spine_SL" num_spines s).2.1⟩,
         (slLeafLoop cfg (allocLoop cfg "SP" "Spine_Switch" "Spine_SL" num_spines s).2.1
            add (slLeafCountZ num_spines base).toNat
            (allocLoop cfg "SP" "Spine_Switch" "Spine_SL" num_spines s).2.2).2.2) := by
  simp only [create_spine_leaf_topology, h, Bool.false_eq_true, if_false, slLeafCountZ]

theorem create_spine_leaf_spec (num_spines : ℕ) (base : ℚ) (add : Bool) (cfg : LocCfg)
    (s : GenState) :
    (create_spine_leaf_topology num_spines base add cfg s).2.counter
      = s.counter + (num_spines + slLeafCount num_spines base) ∧
    (create_spine_leaf_topology num_spines base add cfg s).2.rng = s.rng ∧
    IdsSpec (locTag cfg) s.counter (s.counter + (num_spines + slLeafCount num_spines base))
      ((create_spine_leaf_topology num_spines base add cfg s).1.devices.map Device.id) ∧
    (∀ d ∈ (create_spine_leaf_topology num_spines base add cfg s).1.devices,
      (d.type = "Spine_Switch" ∧ d.layer = "Spine_SL" ∧ d.count = none) ∨
      (d.type = "Leaf_Switch" ∧ d.layer = "Leaf_SL" ∧ d.count = none) ∨
      (d.type = "Server_Group" ∧ d.layer = "Endpoint" ∧ ∃ m, d.count = some m)) ∧
    (∀ c ∈ (create_spine_leaf_topology num_spines base add cfg s).1.connections,
      c.cfrom ∈ (create_spine_leaf_topology num_spines base add cfg s).1.devices.map Device.id ∧
      c.cto ∈ (create_spine_leaf_topology num_spines base add cfg s).1.devices.map Device.id) ∧
    (create_spine_leaf_topology num_spines base add cfg s).1.spine_outputs
      = ((create_spine_leaf_topology num_spines base add cfg s).1.devices.filter
          (fun d => d.layer == "Spine_SL")).map Device.id ∧
    ((create_spine_leaf_topology num_spines base add cfg s).1.devices.filter
      (fun d => d.type == "Spine_Switch")).length = num_spines ∧
    ((create_spine_leaf_topology num_spines base add cfg s).1.devices.filter
      (fun d => d.type == "Leaf_Switch")).length = slLeafCount num_spines base ∧
    ((create_spine_leaf_topology num_spines base add cfg s).1.devices.filter
      (fun d => d.type == "Server_Group")).length
      = (if add then slLeafCount num_spines base else 0) := by
  have hgSP : GoodPfx "SP" := by constructor <;> decide
  rcases Nat.eq_zero_or_pos num_spines with rfl | hpos
  · rw [create_spine_leaf_eq_zero]
    have hcnt : slLeafCount 0 base = 0 := by simp [slLeafCount]
    refine ⟨by simp [hcnt], rfl, ?_, by simp, by simp, by simp, by simp [hcnt],
      by simp [hcnt], ?_⟩
    · simpa [hcnt] using IdsSpec.nil (locTag cfg) le_rfl
    · cases add <;> simp [hcnt]
  · obtain ⟨a1, a2, a3, a4, a5, a6⟩ :=
      allocLoop_spec cfg "SP" "Spine_Switch" "Spine_SL" num_spines s
    have hAoutlen : (allocLoop cfg "SP" "Spine_Switch" "Spine_SL" num_spines s).2.1.length
        = num_spines := by
      rw [a4]
      have := congrArg List.length a5
      simpa using this
    have hne : (allocLoop cfg "SP" "Spine_Switch" "Spine_SL" num_spines s).2.1.isEmpty
        = false := by
      rcases hx : (allocLoop cfg "SP" "Spine_Switch" "Spine_SL" num_spines s).2.1 with _ | ⟨y, l⟩
      · rw [hx] at hAoutlen
        simp at hAoutlen
        omega
      · rfl
    rw [create_spine_leaf_eq_pos num_spines base add cfg s hne]
    simp only []
    have hcnt : slLeafCount num_spines base = (slLeafCountZ num_spines base).toNat := by
      rw [slLeafCount, if_neg (by omega)]
    obtain ⟨l1, l2, l3, l4, l5, l6, l7⟩ :=
      slLeafLoop_spec cfg (allocLoop cfg "SP" "Spine_Switch" "Spine_SL" num_spines s).2.1 add
        (slLeafCountZ num_spines base).toNat
        (allocLoop cfg "SP" "Spine_Switch" "Spine_SL" num_spines s).2.2
    refine ⟨?_, ?_, ?_, ?_, ?_, ?_, ?_, ?_, ?_⟩
    · rw [l1, a1, hcnt]
      ring
    · rw [l2, a2]
    · simp only [List.map_append]
      have hl3 := l3
      rw [a1] at hl3
      have hAspec := allocLoop_idsSpec cfg hgSP "Spine_Switch" "Spine_SL" num_spines s
      have hh := hAspec.append hl3
      rw [hcnt]
      have harith : s.counter + num_spines + (slLeafCountZ num_spines base).toNat
          = s.counter + (num_spines + (slLeafCountZ num_spines base).toNat) := by ring
      rw [harith] at hh
      exact hh
    · intro d hd
      rcases List.mem_append.mp hd with hd | hd
      · exact Or.inl (a6 d hd)
      · rcases l4 d hd with h | h
        · exact Or.inr (Or.inl h)
        · exact Or.inr (Or.inr h)
    · intro c hc
      simp only [List.map_append]
      obtain ⟨h1, h2, _⟩ := l5 c hc
      refine ⟨List.mem_append_right _ h1, ?_⟩
      rcases h2 with h2 | h2
      · rw [a4] at h2
        exact List.mem_append_left _ h2
      · exact List.mem_append_right _ h2
    · rw [List.filter_append]
      rw [filter_proj_self (fun d => d.layer) "Spine_SL"
        (allocLoop cfg "SP" "Spine_Switch" "Spine_SL" num_spines s).1
        (fun d hd => (a6 d hd).2.1)]
      rw [filter_proj_nil2 (fun d => d.layer) "Leaf_SL" "Endpoint" "Spine_SL"
        (slLeafLoop cfg (allocLoop cfg "SP" "Spine_Switch" "Spine_SL" num_spines s).2.1 add
          (slLeafCountZ num_spines base).toNat
          (allocLoop cfg "SP" "Spine_Switch" "Spine_SL" num_spines s).2.2).1
        (fun d hd => by rcases l4 d hd with h | h; exacts [Or.inl h.2.1, Or.inr h.2.1])
        (by decide) (by decide)]
      rw [List.append_nil]
      exact a4
    · rw [List.filter_append]
      rw [filter_proj_self (fun d => d.type) "Spine_Switch"
        (allocLoop cfg "SP" "Spine_Switch" "Spine_SL" num_spines s).1
        (fun d hd => (a6 d hd).1)]
      rw [filter_proj_nil2 (fun d => d.type) "Leaf_Switch" "Server_Group" "Spine_Switch"
        (slLeafLoop cfg (allocLoop cfg "SP" "Spine_Switch" "Spine_SL" num_spines s).2.1 add
          (slLeafCountZ num_spines base).toNat
          (allocLoop cfg "SP" "Spine_Switch" "Spine_SL" num_spines s).2.2).1
        (fun d hd => by rcases l4 d hd with h | h; exacts [Or.inl h.1, Or.inr h.1])
        (by decide) (by decide)]
      simp only [List.append_nil, List.length_append, List.length_nil]
      have := congrArg List.length a5
      simpa using this
    · rw [List.filter_append]
      rw [filter_proj_nil (fun d => d.type) "Spine_Switch" "Leaf_Switch"
        (allocLoop cfg "SP" "Spine_Switch" "Spine_SL" num_spines s).1
        (fun d hd => (a6 d hd).1) (by decide)]
      simp only [List.nil_append]
      rw [l6, hcnt]
    · rw [List.filter_append]
      rw [filter_proj_nil (fun d => d.type) "Spine_Switch" "Server_Group"
        (allocLoop cfg "SP" "Spine_Switch" "Spine_SL" num_spines s).1
        (fun d hd => (a6 d hd).1) (by decide)]
      simp only [List.nil_append]
      rw [l7, hcnt]

/-! ## Composer-level lemmas -/

theorem uplinkIf_counter (pool : List String) (lt : String) (outs : List String) (s : GenState) :
    (if outs.isEmpty || pool.isEmpty then (([] : List Connection), s)
     else uplinkLoop pool lt outs s).2.counter = s.counter := by
  by_cases h : (outs.isEmpty || pool.isEmpty) = true
  · rw [if_pos h]
  · rw [if_neg h]
    exact (uplinkLoop_spec pool lt outs s).1

theorem uplinkIf_rng (pool : List String) (lt : String) (outs : List String) (s : GenState) :
    (if outs.isEmpty || pool.isEmpty then (([] : List Connection), s)
     else uplinkLoop pool lt outs s).2.rng = s.rng := by
  by_cases h : (outs.isEmpty || pool.isEmpty) = true
  · rw [if_pos h]
  · rw [if_neg h]
    exact (uplinkLoop_spec pool lt outs s).2.1

theorem uplinkIf_conns (pool : List String) (lt : String) (outs : List String) (s : GenState) :
    ∀ c ∈ (if outs.isEmpty || pool.isEmpty then (([] : List Connection), s)
      else uplinkLoop pool lt outs s).1,
      c.cfrom ∈ outs ∧ c.link_type = lt ∧ c.cto ∈ pool := by
  by_cases h : (outs.isEmpty || pool.isEmpty) = true
  · rw [if_pos h]
    intro c hc
    simp at hc
  · rw [if_neg h]
    intro c hc
    have hpool : pool ≠ [] := by
      intro hx
      rw [hx] at h
      simp at h
    obtain ⟨h1, h2, h3⟩ := (uplinkLoop_spec pool lt outs s).2.2.1 c hc
    exact ⟨h1, h2, h3 hpool⟩

theorem uplinkIf_covers (pool : List String) (lt : String) (outs : List String) (s : GenState)
    (hpool : pool ≠ []) :
    ∀ o ∈ outs, ∃ c ∈ (if outs.isEmpty || pool.isEmpty then (([] : List Connection), s)
      else uplinkLoop pool lt outs s).1, c.cfrom = o ∧ c.link_type = lt ∧ c.cto ∈ pool := by
  intro o ho
  have houts : outs.isEmpty = false := by
    rcases outs with _ | ⟨y, l⟩
    · simp at ho
    · rfl
  have hpe : pool.isEmpty = false := by
    rcases pool with _ | ⟨y, l⟩
    · exact absurd rfl hpool
    · rfl
  rw [houts, hpe]
  simp only [Bool.or_self, Bool.false_eq_true, if_false]
  obtain ⟨c, hcm, h1, h2, h3⟩ := (uplinkLoop_spec pool lt outs s).2.2.2 o ho
  exact ⟨c, hcm, h1, h2, h3 hpool⟩


theorem icRun_spec (a : Args) :
    (icRun a).2.2.counter = icCount a.total_target_devices ∧
    (icRun a).2.2.rng = a.rng ∧
    (icRun a).2.1 = (icRun a).1.map Device.id ∧
    IdsSpec (locTag a.cfg) 0 (icCount a.total_target_devices) ((icRun a).1.map Device.id) ∧
    (∀ d ∈ (icRun a).1,
      d.type = "DC_Core_Interconnect_Switch" ∧ d.layer = "DC_Interconnect" ∧ d.count = none) ∧
    (icRun a).1.length = icCount a.total_target_devices := by
  have hg : GoodPfx "DCCore" := by constructor <;> decide
  obtain ⟨a1, a2, a3, a4, a5, a6⟩ :=
    allocLoop_spec a.cfg "DCCore" "DC_Core_Interconnect_Switch" "DC_Interconnect"
      (icCount a.total_target_devices) ⟨0, a.rng, 0⟩
  have hids := allocLoop_idsSpec a.cfg hg "DC_Core_Interconnect_Switch" "DC_Interconnect"
    (icCount a.total_target_devices) ⟨0, a.rng, 0⟩
  refine ⟨?_, ?_, a4, ?_, a6, ?_⟩
  · simpa [icRun] using a1
  · simpa [icRun] using a2
  · simpa [icRun] using hids
  · exact allocLoop_length a.cfg "DCCore" "DC_Core_Interconnect_Switch" "DC_Interconnect"
      (icCount a.total_target_devices) ⟨0, a.rng, 0⟩

theorem icSwitches_ne_nil (a : Args) : icSwitches a ≠ [] := by
  have h3 := (icRun_spec a).2.2.1
  have h6 := (icRun_spec a).2.2.2.2.2
  have hpos := icCount_pos a.total_target_devices
  intro hx
  have : (icSwitches a).length = 0 := by rw [hx]; rfl
  rw [icSwitches, h3, List.length_map, h6] at this
  omega

theorem blRun_spec (a : Args) :
    (blRun a).2.2.counter
      = icCount a.total_target_devices + blCount a.total_target_devices ∧
    (blRun a).2.2.rng = a.rng ∧
    IdsSpec (locTag a.cfg) (icCount a.total_target_devices)
      (icCount a.total_target_devices + blCount a.total_target_devices)
      ((blRun a).1.map Device.id) ∧
    (∀ d ∈ (blRun a).1,
      d.type = "Border_Leaf_Switch" ∧ d.layer = "Border" ∧ d.count = none) ∧
    (blRun a).1.length = blCount a.total_target_devices ∧
    (∀ c ∈ (blRun a).2.1,
      c.cfrom ∈ (blRun a).1.map Device.id ∧
      (c.cto ∈ icSwitches a ∨ c.cto ∈ extNames a.cfg)) ∧
    (∀ d ∈ (blRun a).1, ∃ c ∈ (blRun a).2.1,
      c.cfrom = d.id ∧ c.cto ∈ icSwitches a ∧ c.link_type = "L3_routed") := by
  obtain ⟨b1, b2, b3, b4, b5, b6, b7⟩ :=
    blLoop_spec a.cfg (icSwitches a) (blCount a.total_target_devices) (icRun a).2.2
  have hic := (icRun_spec a).1
  have hicr := (icRun_spec a).2.1
  refine ⟨?_, ?_, ?_, b4, b5, b6, b7 (icSwitches_ne_nil a)⟩
  · show (blLoop a.cfg (icSwitches a) (blCount a.total_target_devices) (icRun a).2.2).2.2.counter
      = icCount a.total_target_devices + blCount a.total_target_devices
    rw [b1, hic]
  · show (blLoop a.cfg (icSwitches a) (blCount a.total_target_devices) (icRun a).2.2).2.2.rng
      = a.rng
    rw [b2, hicr]
  · show IdsSpec (locTag a.cfg) (icCount a.total_target_devices)
      (icCount a.total_target_devices + blCount a.total_target_devices)
      ((blLoop a.cfg (icSwitches a) (blCount a.total_target_devices) (icRun a).2.2).1.map
        Device.id)
    have := b3
    rw [hic] at this
    exact this

theorem ftRun_spec (a : Args) :
    (ftRun a).2.counter
      = (blRun a).2.2.counter + (ftN1 a + ftN1 a * ftN2 a + ftN1 a * ftN2 a * ftN3 a) ∧
    (ftRun a).2.rng = (blRun a).2.2.rng ∧
    IdsSpec (locTag a.cfg) (blRun a).2.2.counter
      ((blRun a).2.2.counter + (ftN1 a + ftN1 a * ftN2 a + ftN1 a * ftN2 a * ftN3 a))
      ((ftRun a).1.devices.map Device.id) ∧
    (∀ d ∈ (ftRun a).1.devices,
      (d.type = "FatTree_Core_Spine" ∧ d.layer = "FT_Core" ∧ d.count = none) ∨
      (d.type = "FatTree_Agg_Spine" ∧ d.layer = "FT_Aggregation" ∧ d.count = none) ∨
      (d.type = "FatTree_Edge_Leaf" ∧ d.layer = "FT_Edge" ∧ d.count = none) ∨
      (d.type = "Server_Group" ∧ d.layer = "Endpoint" ∧ ∃ m, d.count = some m)) ∧
    (∀ c ∈ (ftRun a).1.connections,
      c.cfrom ∈ (ftRun a).1.devices.map Device.id ∧
      c.cto ∈ (ftRun a).1.devices.map Device.id) ∧
    (ftRun a).1.core_spine_outputs
      = ((ftRun a).1.devices.filter (fun d => d.layer == "FT_Core")).map Device.id ∧
    ((ftRun a).1.devices.filter (fun d => d.type == "FatTree_Core_Spine")).length = ftN1 a ∧
    ((ftRun a).1.devices.filter (fun d => d.type == "FatTree_Agg_Spine")).length
      = ftN1 a * ftN2 a ∧
    ((ftRun a).1.devices.filter (fun d => d.type == "FatTree_Edge_Leaf")).length
      = ftN1 a * ftN2 a * ftN3 a := by
  have h := create_fat_tree_spec (ftN1 a) (ftN2 a) (ftN3 a) true a.cfg (blRun a).2.2
  exact ⟨h.1, h.2.1, h.2.2.1, h.2.2.2.1, h.2.2.2.2.1, h.2.2.2.2.2.1, h.2.2.2.2.2.2.1,
    h.2.2.2.2.2.2.2.1, h.2.2.2.2.2.2.2.2.1⟩

theorem ttRun_spec (a : Args) :
    (ttRun a).2.counter
      = (slUplinks a).2.counter + (ttN1 a + ttN1 a * ttN2 a + ttN1 a * ttN2 a * ttN3 a) ∧
    (ttRun a).2.rng = (slUplinks a).2.rng ∧
    IdsSpec (locTag a.cfg) (slUplinks a).2.counter
      ((slUplinks a).2.counter + (ttN1 a + ttN1 a * ttN2 a + ttN1 a * ttN2 a * ttN3 a))
      ((ttRun a).1.devices.map Device.id) ∧
    (∀ d ∈ (ttRun a).1.devices,
      (d.type = "Core_Switch" ∧ d.layer = "Core_3T" ∧ d.count = none) ∨
      (d.type = "Aggregation_Switch" ∧ d.layer = "Aggregation_3T" ∧ d.count = none) ∨
      (d.type = "Access_Switch" ∧ d.layer = "Access_3T" ∧ d.count = none) ∨
      (d.type = "Server_Group" ∧ d.layer = "Endpoint" ∧ ∃ m, d.count = some m)) ∧
    (∀ c ∈ (ttRun a).1.connections,
      c.cfrom ∈ (ttRun a).1.devices.map Device.id ∧
      c.cto ∈ (ttRun a).1.devices.map Device.id) ∧
    (ttRun a).1.core_outputs
      = ((ttRun a).1.devices.filter (fun d => d.layer == "Core_3T")).map Device.id ∧
    ((ttRun a).1.devices.filter (fun d => d.type == "Core_Switch")).length = ttN1 a ∧
    ((ttRun a).1.devices.filter (fun d => d.type == "Aggregation_Switch")).length
      = ttN1 a * ttN2 a ∧
    ((ttRun a).1.devices.filter (fun d => d.type == "Access_Switch")).length
      = ttN1 a * ttN2 a * ttN3 a := by
  have h := create_three_tier_spec (ttN1 a) (ttN2 a) (ttN3 a) true a.cfg (slUplinks a).2
  exact ⟨h.1, h.2.1, h.2.2.1, h.2.2.2.1, h.2.2.2.2.1, h.2.2.2.2.2.1, h.2.2.2.2.2.2.1,
    h.2.2.2.2.2.2.2.1, h.2.2.2.2.2.2.2.2.1⟩

theorem slRun_spec (a : Args) :
    (slRun a).2.counter
      = (ftUplinks a).2.counter + (slN1 a + slLeafCount (slN1 a) (slBase a)) ∧
    (slRun a).2.rng = (ftUplinks a).2.rng ∧
    IdsSpec (locTag a.cfg) (ftUplinks a).2.counter
      ((ftUplinks a).2.counter + (slN1 a + slLeafCount (slN1 a) (slBase a)))
      ((slRun a).1.devices.map Device.id) ∧
    (∀ d ∈ (slRun a).1.devices,
      (d.type = "Spine_Switch" ∧ d.layer = "Spine_SL" ∧ d.count = none) ∨
      (d.type = "Leaf_Switch" ∧ d.layer = "Leaf_SL" ∧ d.count = none) ∨
      (d.type = "Server_Group" ∧ d.layer = "Endpoint" ∧ ∃ m, d.count = some m)) ∧
    (∀ c ∈ (slRun a).1.connections,
      c.cfrom ∈ (slRun a).1.devices.map Device.id ∧
      c.cto ∈ (slRun a).1.devices.map Device.id) ∧
    (slRun a).1.spine_outputs
      = ((slRun a).1.devices.filter (fun d => d.layer == "Spine_SL")).map Device.id ∧
    ((slRun a).1.devices.filter (fun d => d.type == "Spine_Switch")).length = slN1 a ∧
    ((slRun a).1.devices.filter (fun d => d.type == "Leaf_Switch")).length
      = slLeafCount (slN1 a) (slBase a) := by
  have h := create_spine_leaf_spec (slN1 a) (slBase a) true a.cfg (ftUplinks a).2
  exact ⟨h.1, h.2.1, h.2.2.1, h.2.2.2.1, h.2.2.2.2.1, h.2.2.2.2.2.1, h.2.2.2.2.2.2.1,
    h.2.2.2.2.2.2.2.1⟩

theorem ftUplinks_counter (a : Args) : (ftUplinks a).2.counter = (ftRun a).2.counter :=
  uplinkIf_counter (icSwitches a) "L3_routed" (ftRun a).1.core_spine_outputs (ftRun a).2

theorem ftUplinks_rng (a : Args) : (ftUplinks a).2.rng = (ftRun a).2.rng :=
  uplinkIf_rng (icSwitches a) "L3_routed" (ftRun a).1.core_spine_outputs (ftRun a).2

theorem slUplinks_counter (a : Args) : (slUplinks a).2.counter = (slRun a).2.counter :=
  uplinkIf_counter (icSwitches a) "L3_routed" (slRun a).1.spine_outputs (slRun a).2

theorem slUplinks_rng (a : Args) : (slUplinks a).2.rng = (slRun a).2.rng :=
  uplinkIf_rng (icSwitches a) "L3_routed" (slRun a).1.spine_outputs (slRun a).2

theorem ttUplinks_counter (a : Args) : (ttUplinks a).2.counter = (ttRun a).2.counter :=
  uplinkIf_counter (icSwitches a) "L3_routed_legacy" (ttRun a).1.core_outputs (ttRun a).2

theorem ttUplinks_rng (a : Args) : (ttUplinks a).2.rng = (ttRun a).2.rng :=
  uplinkIf_rng (icSwitches a) "L3_routed_legacy" (ttRun a).1.core_outputs (ttRun a).2

theorem filter_proj_nil_of_ne {α : Type} (f : α → String) (tq : String) (l : List α)
    (h : ∀ x ∈ l, f x ≠ tq) : l.filter (fun x => f x == tq) = [] := by
  rw [List.filter_eq_nil_iff]
  intro x hx
  simp [h x hx]

theorem allDevices_shape (a : Args) : ∀ d ∈ allDevices a, DevShape d := by
  intro d hd
  rcases List.mem_append.mp hd with hd | hd₅
  rcases List.mem_append.mp hd with hd | hd₄
  rcases List.mem_append.mp hd with hd | hd₃
  rcases List.mem_append.mp hd with hd₁ | hd₂
  · exact Or.inl ((icRun_spec a).2.2.2.2.1 d hd₁)
  · exact Or.inr (Or.inl ((blRun_spec a).2.2.2.1 d hd₂))
  · rcases (ftRun_spec a).2.2.2.1 d hd₃ with h | h | h | h
    · unfold DevShape
      iterate 2 right
      left; exact h
    · unfold DevShape
      iterate 3 right
      left; exact h
    · unfold DevShape
      iterate 4 right
      left; exact h
    · unfold DevShape
      iterate 10 right
      exact h
  · rcases (slRun_spec a).2.2.2.1 d hd₄ with h | h | h
    · unfold DevShape
      iterate 5 right
      left; exact h
    · unfold DevShape
      iterate 6 right
      left; exact h
    · unfold DevShape
      iterate 10 right
      exact h
  · rcases (ttRun_spec a).2.2.2.1 d hd₅ with h | h | h | h
    · unfold DevShape
      iterate 7 right
      left; exact h
    · unfold DevShape
      iterate 8 right
      left; exact h
    · unfold DevShape
      iterate 9 right
      left; exact h
    · unfold DevShape
      iterate 10 right
      exact h

theorem allDevices_nodup (a : Args) : ((allDevices a).map Device.id).Nodup := by
  have hic := (icRun_spec a).2.2.2.1
  have hbl := (blRun_spec a).2.2.1
  have hft := (ftRun_spec a).2.2.1
  have hsl := (slRun_spec a).2.2.1
  have htt := (ttRun_spec a).2.2.1
  rw [(blRun_spec a).1] at hft
  rw [ftUplinks_counter, (ftRun_spec a).1, (blRun_spec a).1] at hsl
  rw [slUplinks_counter, (slRun_spec a).1, ftUplinks_counter, (ftRun_spec a).1,
    (blRun_spec a).1] at htt
  have h12 := hic.append hbl
  have h123 := h12.append hft
  have h1234 := h123.append hsl
  have h12345 := h1234.append htt
  have : (allDevices a).map Device.id
      = (icRun a).1.map Device.id ++ (blRun a).1.map Device.id
        ++ (ftRun a).1.devices.map Device.id ++ (slRun a).1.devices.map Device.id
        ++ (ttRun a).1.devices.map Device.id := by
    simp [allDevices, List.map_append]
  rw [this]
  have hfinal := (h12345.2.2 : _)
  simpa [List.append_assoc] using hfinal

theorem allDevices_map_eq (a : Args) :
    (allDevices a).map Device.id
      = (icRun a).1.map Device.id ++ (blRun a).1.map Device.id
        ++ (ftRun a).1.devices.map Device.id ++ (slRun a).1.devices.map Device.id
        ++ (ttRun a).1.devices.map Device.id := by
  simp [allDevices, List.map_append]

theorem mem_all_of_ic (a : Args) {x : String} (h : x ∈ (icRun a).1.map Device.id) :
    x ∈ (allDevices a).map Device.id := by
  rw [allDevices_map_eq]
  exact List.mem_append_left _ (List.mem_append_left _ (List.mem_append_left _
    (List.mem_append_left _ h)))

theorem mem_all_of_bl (a : Args) {x : String} (h : x ∈ (blRun a).1.map Device.id) :
    x ∈ (allDevices a).map Device.id := by
  rw [allDevices_map_eq]
  exact List.mem_append_left _ (List.mem_append_left _ (List.mem_append_left _
    (List.mem_append_right _ h)))

theorem mem_all_of_ft (a : Args) {x : String} (h : x ∈ (ftRun a).1.devices.map Device.id) :
    x ∈ (allDevices a).map Device.id := by
  rw [allDevices_map_eq]
  exact List.mem_append_left _ (List.mem_append_left _ (List.mem_append_right _ h))

theorem mem_all_of_sl (a : Args) {x : String} (h : x ∈ (slRun a).1.devices.map Device.id) :
    x ∈ (allDevices a).map Device.id := by
  rw [allDevices_map_eq]
  exact List.mem_append_left _ (List.mem_append_right _ h)

theorem mem_all_of_tt (a : Args) {x : String} (h : x ∈ (ttRun a).1.devices.map Device.id) :
    x ∈ (allDevices a).map Device.id := by
  rw [allDevices_map_eq]
  exact List.mem_append_right _ h

theorem icSwitches_mem_all (a : Args) {x : String} (h : x ∈ icSwitches a) :
    x ∈ (allDevices a).map Device.id := by
  apply mem_all_of_ic
  rw [icSwitches, (icRun_spec a).2.2.1] at h
  exact h

theorem map_filter_subset {α β : Type} (f : α → β) (p : α → Bool) (l : List α) :
    (l.filter p).map f ⊆ l.map f := by
  intro x hx
  obtain ⟨d, hd, rfl⟩ := List.mem_map.mp hx
  exact List.mem_map.mpr ⟨d, (List.mem_filter.mp hd).1, rfl⟩

theorem allConnections_closure (a : Args) :
    ∀ c ∈ allConnections a,
      c.cfrom ∈ (allDevices a).map Device.id ∧
      (c.cto ∈ (allDevices a).map Device.id ∨ c.cto ∈ extNames a.cfg) := by
  intro c hc
  rcases List.mem_append.mp hc with hc | hc₇
  rcases List.mem_append.mp hc with hc | hc₆
  rcases List.mem_append.mp hc with hc | hc₅
  rcases List.mem_append.mp hc with hc | hc₄
  rcases List.mem_append.mp hc with hc | hc₃
  rcases List.mem_append.mp hc with hc₁ | hc₂
  · obtain ⟨h1, h2⟩ := (blRun_spec a).2.2.2.2.2.1 c hc₁
    refine ⟨mem_all_of_bl a h1, ?_⟩
    rcases h2 with h2 | h2
    · exact Or.inl (icSwitches_mem_all a h2)
    · exact Or.inr h2
  · obtain ⟨h1, h2⟩ := (ftRun_spec a).2.2.2.2.1 c hc₂
    exact ⟨mem_all_of_ft a h1, Or.inl (mem_all_of_ft a h2)⟩
  · obtain ⟨h1, h2, h3⟩ := uplinkIf_conns (icSwitches a) "L3_routed"
      (ftRun a).1.core_spine_outputs (ftRun a).2 c hc₃
    refine ⟨mem_all_of_ft a ?_, Or.inl (icSwitches_mem_all a h3)⟩
    rw [(ftRun_spec a).2.2.2.2.2.1] at h1
    exact map_filter_subset Device.id _ _ h1
  · obtain ⟨h1, h2⟩ := (slRun_spec a).2.2.2.2.1 c hc₄
    exact ⟨mem_all_of_sl a h1, Or.inl (mem_all_of_sl a h2)⟩
  · obtain ⟨h1, h2, h3⟩ := uplinkIf_conns (icSwitches a) "L3_routed"
      (slRun a).1.spine_outputs (slRun a).2 c hc₅
    refine ⟨mem_all_of_sl a ?_, Or.inl (icSwitches_mem_all a h3)⟩
    rw [(slRun_spec a).2.2.2.2.2.1] at h1
    exact map_filter_subset Device.id _ _ h1
  · obtain ⟨h1, h2⟩ := (ttRun_spec a).2.2.2.2.1 c hc₆
    exact ⟨mem_all_of_tt a h1, Or.inl (mem_all_of_tt a h2)⟩
  · obtain ⟨h1, h2, h3⟩ := uplinkIf_conns (icSwitches a) "L3_routed_legacy"
      (ttRun a).1.core_outputs (ttRun a).2 c hc₇
    refine ⟨mem_all_of_tt a ?_, Or.inl (icSwitches_mem_all a h3)⟩
    rw [(ttRun_spec a).2.2.2.2.2.1] at h1
    exact map_filter_subset Device.id _ _ h1

theorem dev_all_of_ic (a : Args) {d : Device} (h : d ∈ (icRun a).1) : d ∈ allDevices a :=
  List.mem_append_left _ (List.mem_append_left _ (List.mem_append_left _
    (List.mem_append_left _ h)))

theorem dev_all_of_bl (a : Args) {d : Device} (h : d ∈ (blRun a).1) : d ∈ allDevices a :=
  List.mem_append_left _ (List.mem_append_left _ (List.mem_append_left _
    (List.mem_append_right _ h)))

theorem dev_all_of_ft (a : Args) {d : Device} (h : d ∈ (ftRun a).1.devices) :
    d ∈ allDevices a :=
  List.mem_append_left _ (List.mem_append_left _ (List.mem_append_right _ h))

theorem dev_all_of_sl (a : Args) {d : Device} (h : d ∈ (slRun a).1.devices) :
    d ∈ allDevices a :=
  List.mem_append_left _ (List.mem_append_right _ h)

theorem dev_all_of_tt (a : Args) {d : Device} (h : d ∈ (ttRun a).1.devices) :
    d ∈ allDevices a :=
  List.mem_append_right _ h

theorem exists_of_filter_len_pos {α : Type} (pb : α → Bool) (l : List α)
    (h : 0 < (l.filter pb).length) : ∃ x ∈ l, pb x = true := by
  rcases hx : l.filter pb with _ | ⟨y, t⟩
  · rw [hx] at h
    simp at h
  · have hy : y ∈ l.filter pb := by rw [hx]; exact List.mem_cons_self y t
    have := List.mem_filter.mp hy
    exact ⟨y, this.1, this.2⟩

theorem ic_filter_count (a : Args) :
    ((allDevices a).filter (fun d => d.type == "DC_Core_Interconnect_Switch")).length
      = icCount a.total_target_devices := by
  simp only [allDevices, List.filter_append, List.length_append]
  rw [filter_proj_self (fun d => d.type) "DC_Core_Interconnect_Switch" (icRun a).1
    (fun d hd => ((icRun_spec a).2.2.2.2.1 d hd).1)]
  rw [filter_proj_nil_of_ne (fun d => d.type) "DC_Core_Interconnect_Switch" (blRun a).1
    (fun d hd => by show d.type ≠ _; rw [((blRun_spec a).2.2.2.1 d hd).1]; decide)]
  rw [filter_proj_nil_of_ne (fun d => d.type) "DC_Core_Interconnect_Switch" (ftRun a).1.devices
    (fun d hd => by
      show d.type ≠ _
      rcases (ftRun_spec a).2.2.2.1 d hd with ⟨h, -, -⟩ | ⟨h, -, -⟩ | ⟨h, -, -⟩ | ⟨h, -, -⟩ <;>
        rw [h] <;> decide)]
  rw [filter_proj_nil_of_ne (fun d => d.type) "DC_Core_Interconnect_Switch" (slRun a).1.devices
    (fun d hd => by
      show d.type ≠ _
      rcases (slRun_spec a).2.2.2.1 d hd with ⟨h, -, -⟩ | ⟨h, -, -⟩ | ⟨h, -, -⟩ <;>
        rw [h] <;> decide)]
  rw [filter_proj_nil_of_ne (fun d => d.type) "DC_Core_Interconnect_Switch" (ttRun a).1.devices
    (fun d hd => by
      show d.type ≠ _
      rcases (ttRun_spec a).2.2.2.1 d hd with ⟨h, -, -⟩ | ⟨h, -, -⟩ | ⟨h, -, -⟩ | ⟨h, -, -⟩ <;>
        rw [h] <;> decide)]
  simp [(icRun_spec a).2.2.2.2.2]

theorem bl_filter_count (a : Args) :
    ((allDevices a).filter (fun d => d.type == "Border_Leaf_Switch")).length
      = blCount a.total_target_devices := by
  simp only [allDevices, List.filter_append, List.length_append]
  rw [filter_proj_nil_of_ne (fun d => d.type) "Border_Leaf_Switch" (icRun a).1
    (fun d hd => by show d.type ≠ _; rw [((icRun_spec a).2.2.2.2.1 d hd).1]; decide)]
  rw [filter_proj_self (fun d => d.type) "Border_Leaf_Switch" (blRun a).1
    (fun d hd => ((blRun_spec a).2.2.2.1 d hd).1)]
  rw [filter_proj_nil_of_ne (fun d => d.type) "Border_Leaf_Switch" (ftRun a).1.devices
    (fun d hd => by
      show d.type ≠ _
      rcases (ftRun_spec a).2.2.2.1 d hd with ⟨h, -, -⟩ | ⟨h, -, -⟩ | ⟨h, -, -⟩ | ⟨h, -, -⟩ <;>
        rw [h] <;> decide)]
  rw [filter_proj_nil_of_ne (fun d => d.type) "Border_Leaf_Switch" (slRun a).1.devices
    (fun d hd => by
      show d.type ≠ _
      rcases (slRun_spec a).2.2.2.1 d hd with ⟨h, -, -⟩ | ⟨h, -, -⟩ | ⟨h, -, -⟩ <;>
        rw [h] <;> decide)]
  rw [filter_proj_nil_of_ne (fun d => d.type) "Border_Leaf_Switch" (ttRun a).1.devices
    (fun d hd => by
      show d.type ≠ _
      rcases (ttRun_spec a).2.2.2.1 d hd with ⟨h, -, -⟩ | ⟨h, -, -⟩ | ⟨h, -, -⟩ | ⟨h, -, -⟩ <;>
        rw [h] <;> decide)]
  simp [(blRun_spec a).2.2.2.2.1]

theorem icSwitches_sub_filter (a : Args) {x : String} (hx : x ∈ icSwitches a) :
    x ∈ ((allDevices a).filter
      (fun d => d.type == "DC_Core_Interconnect_Switch")).map Device.id := by
  rw [icSwitches, (icRun_spec a).2.2.1] at hx
  obtain ⟨d, hd, rfl⟩ := List.mem_map.mp hx
  refine List.mem_map.mpr ⟨d, List.mem_filter.mpr ⟨dev_all_of_ic a hd, ?_⟩, rfl⟩
  rw [((icRun_spec a).2.2.2.2.1 d hd).1]
  exact beq_self_eq_true _

theorem conn_all_of_bl (a : Args) {c : Connection} (h : c ∈ (blRun a).2.1) :
    c ∈ allConnections a :=
  List.mem_append_left _ (List.mem_append_left _ (List.mem_append_left _
    (List.mem_append_left _ (List.mem_append_left _ (List.mem_append_left _ h)))))

theorem conn_all_of_ftUp (a : Args) {c : Connection} (h : c ∈ (ftUplinks a).1) :
    c ∈ allConnections a :=
  List.mem_append_left _ (List.mem_append_left _ (List.mem_append_left _
    (List.mem_append_left _ (List.mem_append_right _ h))))

theorem conn_all_of_slUp (a : Args) {c : Connection} (h : c ∈ (slUplinks a).1) :
    c ∈ allConnections a :=
  List.mem_append_left _ (List.mem_append_left _ (List.mem_append_right _ h))

theorem conn_all_of_ttUp (a : Args) {c : Connection} (h : c ∈ (ttUplinks a).1) :
    c ∈ allConnections a :=
  List.mem_append_right _ h

theorem topLevel_wired (a : Args) :
    ∀ d ∈ allDevices a,
      (d.layer = "FT_Core" ∨ d.layer = "Spine_SL" ∨ d.layer = "Core_3T"
        ∨ d.type = "Border_Leaf_Switch") →
      ∃ c ∈ allConnections a, c.cfrom = d.id ∧
        c.cto ∈ ((allDevices a).filter
          (fun x => x.type == "DC_Core_Interconnect_Switch")).map Device.id := by
  intro d hd htop
  rcases List.mem_append.mp hd with hd | hd₅
  rcases List.mem_append.mp hd with hd | hd₄
  rcases List.mem_append.mp hd with hd | hd₃
  rcases List.mem_append.mp hd with hd₁ | hd₂
  · obtain ⟨hty, hly, -⟩ := (icRun_spec a).2.2.2.2.1 d hd₁
    rw [hty, hly] at htop
    exact absurd htop (by decide)
  · obtain ⟨c, hcm, hc1, hc2, -⟩ := (blRun_spec a).2.2.2.2.2.2 d hd₂
    exact ⟨c, conn_all_of_bl a hcm, hc1, icSwitches_sub_filter a hc2⟩
  · rcases (ftRun_spec a).2.2.2.1 d hd₃ with ⟨hty, hly, -⟩ | ⟨hty, hly, -⟩ | ⟨hty, hly, -⟩
      | ⟨hty, hly, -⟩
    · have hout : d.id ∈ (ftRun a).1.core_spine_outputs := by
        rw [(ftRun_spec a).2.2.2.2.2.1]
        refine List.mem_map.mpr ⟨d, List.mem_filter.mpr ⟨hd₃, ?_⟩, rfl⟩
        rw [hly]
        exact beq_self_eq_true _
      obtain ⟨c, hcm, hc1, -, hc3⟩ := uplinkIf_covers (icSwitches a) "L3_routed"
        (ftRun a).1.core_spine_outputs (ftRun a).2 (icSwitches_ne_nil a) d.id hout
      exact ⟨c, conn_all_of_ftUp a hcm, hc1, icSwitches_sub_filter a hc3⟩
    · rw [hty, hly] at htop
      exact absurd htop (by decide)
    · rw [hty, hly] at htop
      exact absurd htop (by decide)
    · rw [hty, hly] at htop
      exact absurd htop (by decide)
  · rcases (slRun_spec a).2.2.2.1 d hd₄ with ⟨hty, hly, -⟩ | ⟨hty, hly, -⟩ | ⟨hty, hly, -⟩
    · have hout : d.id ∈ (slRun a).1.spine_outputs := by
        rw [(slRun_spec a).2.2.2.2.2.1]
        refine List.mem_map.mpr ⟨d, List.mem_filter.mpr ⟨hd₄, ?_⟩, rfl⟩
        rw [hly]
        exact beq_self_eq_true _
      obtain ⟨c, hcm, hc1, -, hc3⟩ := uplinkIf_covers (icSwitches a) "L3_routed"
        (slRun a).1.spine_outputs (slRun a).2 (icSwitches_ne_nil a) d.id hout
      exact ⟨c, conn_all_of_slUp a hcm, hc1, icSwitches_sub_filter a hc3⟩
    · rw [hty, hly] at htop
      exact absurd htop (by decide)
    · rw [hty, hly] at htop
      exact absurd htop (by decide)
  · rcases (ttRun_spec a).2.2.2.1 d hd₅ with ⟨hty, hly, -⟩ | ⟨hty, hly, -⟩ | ⟨hty, hly, -⟩
      | ⟨hty, hly, -⟩
    · have hout : d.id ∈ (ttRun a).1.core_outputs := by
        rw [(ttRun_spec a).2.2.2.2.2.1]
        refine List.mem_map.mpr ⟨d, List.mem_filter.mpr ⟨hd₅, ?_⟩, rfl⟩
        rw [hly]
        exact beq_self_eq_true _
      obtain ⟨c, hcm, hc1, -, hc3⟩ := uplinkIf_covers (icSwitches a) "L3_routed_legacy"
        (ttRun a).1.core_outputs (ttRun a).2 (icSwitches_ne_nil a) d.id hout
      exact ⟨c, conn_all_of_ttUp a hcm, hc1, icSwitches_sub_filter a hc3⟩
    · rw [hty, hly] at htop
      exact absurd htop (by decide)
    · rw [hty, hly] at htop
      exact absurd htop (by decide)
    · rw [hty, hly] at htop
      exact absurd htop (by decide)

theorem slLeafCount_pos (a : Args) : 1 ≤ slLeafCount (slN1 a) (slBase a) := by
  have h1 : (1 : ℕ) ≤ slN1 a := scaledParam_pos _ _
  have hb : (1 : ℚ) ≤ slBase a := by
    rw [slBase]
    exact_mod_cast le_max_left (1 : ℤ) (pyInt ((40 : ℚ) * a.spine_leaf_scale))
  have hn : (1 : ℚ) ≤ (slN1 a : ℚ) := by exact_mod_cast h1
  have hq : (1 : ℚ) ≤ slBase a * (slN1 a : ℚ) := by
    calc (1 : ℚ) = 1 * 1 := by ring
    _ ≤ slBase a * (slN1 a : ℚ) :=
      mul_le_mul hb hn (by norm_num) (le_trans (by norm_num) hb)
  have hflo : (1 : ℤ) ≤ pyInt (slBase a * (slN1 a : ℚ)) := by
    rw [pyInt_eq_floor (le_trans (by norm_num) hq)]
    exact Int.le_floor.mpr (by exact_mod_cast hq)
  rw [slLeafCount, if_neg (by omega), slLeafCountZ]
  by_cases h0 : pyInt (slBase a * (slN1 a : ℚ)) = 0 ∧ 0 < slN1 a
  · rw [if_pos h0]
    decide
  · rw [if_neg h0]
    omega

theorem exists_layer_of_type_count {l : List Device} {ty ly : String}
    (hcnt : 0 < (l.filter (fun d => d.type == ty)).length)
    (hshape : ∀ d ∈ l, d.type = ty → d.layer = ly) :
    ∃ d ∈ l, d.layer = ly := by
  obtain ⟨d, hd, hb⟩ := exists_of_filter_len_pos _ _ hcnt
  have hty : d.type = ty := by simpa using hb
  exact ⟨d, hd, hshape d hd hty⟩

theorem ic_bucket_ne_nil (a : Args) :
    (networkDevices a).filter (fun d => d.layer == "DC_Interconnect") ≠ [] := by
  have hpos := icCount_pos a.total_target_devices
  have hlen := (icRun_spec a).2.2.2.2.2
  obtain ⟨d, hd⟩ := List.exists_mem_of_length_pos (by omega : 0 < (icRun a).1.length)
  obtain ⟨hty, hly, -⟩ := (icRun_spec a).2.2.2.2.1 d hd
  have hmem : d ∈ (networkDevices a).filter (fun d => d.layer == "DC_Interconnect") := by
    refine List.mem_filter.mpr ⟨List.mem_filter.mpr ⟨dev_all_of_ic a hd, ?_⟩, ?_⟩
    · rw [hty]; decide
    · rw [hly]; exact beq_self_eq_true _
  intro hx
  rw [hx] at hmem
  simp at hmem

theorem exists_conn (a : Args) : ∃ c, c ∈ allConnections a := by
  have hpos := blCount_pos a.total_target_devices
  have hlen := (blRun_spec a).2.2.2.2.1
  obtain ⟨d, hd⟩ := List.exists_mem_of_length_pos (by omega : 0 < (blRun a).1.length)
  obtain ⟨c, hcm, -⟩ := (blRun_spec a).2.2.2.2.2.2 d hd
  exact ⟨c, conn_all_of_bl a hcm⟩

theorem allDevices_head (a : Args) :
    (allDevices a).head? = some ⟨render false "DCCore" 1 (locTag a.cfg),
      "DC_Core_Interconnect_Switch", "DC_Interconnect", none⟩ := by
  obtain ⟨m, hm⟩ : ∃ m, icCount a.total_target_devices = m + 1 := by
    have := icCount_pos a.total_target_devices
    exact ⟨icCount a.total_target_devices - 1, by omega⟩
  have hic : (icRun a).1 = (⟨render false "DCCore" 1 (locTag a.cfg),
      "DC_Core_Interconnect_Switch", "DC_Interconnect", none⟩ : Device)
      :: (allocLoop a.cfg "DCCore" "DC_Core_Interconnect_Switch" "DC_Interconnect" m
          ⟨1, a.rng, 0⟩).1 := by
    rw [icRun, hm]
    simp [allocLoop, generate_device_id_snd, generate_device_id_fst]
  show ((icRun a).1 ++ (blRun a).1 ++ (ftRun a).1.devices ++ (slRun a).1.devices
    ++ (ttRun a).1.devices).head? = _
  rw [hic]
  rfl


theorem layer_mem {d : Device} (h : DevShape d) :
    d.layer ∈ (["DC_Interconnect", "Border", "FT_Core", "FT_Aggregation", "FT_Edge",
      "Spine_SL", "Leaf_SL", "Core_3T", "Aggregation_3T", "Access_3T", "Endpoint"] :
      List String) := by
  rcases h with ⟨-, h, -⟩ | ⟨-, h, -⟩ | ⟨-, h, -⟩ | ⟨-, h, -⟩ | ⟨-, h, -⟩ | ⟨-, h, -⟩ |
    ⟨-, h, -⟩ | ⟨-, h, -⟩ | ⟨-, h, -⟩ | ⟨-, h, -⟩ | ⟨-, h, -⟩ <;> rw [h] <;> decide

theorem net_disjoint (a : Args) (p q : String → Bool)
    (h : ∀ ly ∈ (["DC_Interconnect", "Border", "FT_Core", "FT_Aggregation", "FT_Edge",
      "Spine_SL", "Leaf_SL", "Core_3T", "Aggregation_3T", "Access_3T", "Endpoint"] :
      List String), ¬(p ly = true ∧ q ly = true)) :
    List.Disjoint ((networkDevices a).filter (fun d => p d.layer))
      ((networkDevices a).filter (fun d => q d.layer)) := by
  intro d hdp hdq
  have h1 := List.mem_filter.mp hdp
  have h2 := List.mem_filter.mp hdq
  have hsh := allDevices_shape a d (List.mem_filter.mp h1.1).1
  exact h d.layer (layer_mem hsh) ⟨h1.2, h2.2⟩

theorem server_net_disjoint (a : Args) (p : Device → Bool) :
    List.Disjoint ((networkDevices a).filter p) (serverDevices a) := by
  intro d hdp hds
  have h1 : (!(d.type == "Server" || d.type == "Server_Group")) = true :=
    (List.mem_filter.mp (List.mem_filter.mp hdp).1).2
  have h2 : (d.type == "Server" || d.type == "Server_Group") = true :=
    (List.mem_filter.mp hds).2
  rw [h2] at h1
  exact absurd h1 (by decide)

theorem mem_net_bucket (a : Args) {d : Device} (hd : d ∈ allDevices a) (p : Device → Bool)
    (h1 : (!(d.type == "Server" || d.type == "Server_Group")) = true) (h2 : p d = true) :
    d ∈ (networkDevices a).filter p :=
  List.mem_filter.mpr ⟨List.mem_filter.mpr ⟨hd, h1⟩, h2⟩

theorem bucket_cover (a : Args) : ∀ d ∈ allDevices a,
    d ∈ (networkDevices a).filter (fun d => d.layer == "DC_Interconnect") ∨
    d ∈ (networkDevices a).filter (fun d => d.layer == "Border") ∨
    d ∈ (networkDevices a).filter (fun d => pyStartswith d.layer "FT_") ∨
    d ∈ (networkDevices a).filter (fun d => pyEndswith d.layer "_SL") ∨
    d ∈ (networkDevices a).filter (fun d => pyEndswith d.layer "_3T") ∨
    d ∈ serverDevices a := by
  intro d hd
  rcases allDevices_shape a d hd with ⟨hty, hly, -⟩ | ⟨hty, hly, -⟩ | ⟨hty, hly, -⟩ |
    ⟨hty, hly, -⟩ | ⟨hty, hly, -⟩ | ⟨hty, hly, -⟩ | ⟨hty, hly, -⟩ | ⟨hty, hly, -⟩ |
    ⟨hty, hly, -⟩ | ⟨hty, hly, -⟩ | ⟨hty, hly, -⟩
  · exact Or.inl (mem_net_bucket a hd _ (by rw [hty]; decide)
      (by show (d.layer == "DC_Interconnect") = true; rw [hly]; decide))
  · exact Or.inr (Or.inl (mem_net_bucket a hd _ (by rw [hty]; decide)
      (by show (d.layer == "Border") = true; rw [hly]; decide)))
  · exact Or.inr (Or.inr (Or.inl (mem_net_bucket a hd _ (by rw [hty]; decide)
      (by show pyStartswith d.layer "FT_" = true; rw [hly]; decide))))
  · exact Or.inr (Or.inr (Or.inl (mem_net_bucket a hd _ (by rw [hty]; decide)
      (by show pyStartswith d.layer "FT_" = true; rw [hly]; decide))))
  · exact Or.inr (Or.inr (Or.inl (mem_net_bucket a hd _ (by rw [hty]; decide)
      (by show pyStartswith d.layer "FT_" = true; rw [hly]; decide))))
  · exact Or.inr (Or.inr (Or.inr (Or.inl (mem_net_bucket a hd _ (by rw [hty]; decide)
      (by show pyEndswith d.layer "_SL" = true; rw [hly]; decide)))))
  · exact Or.inr (Or.inr (Or.inr (Or.inl (mem_net_bucket a hd _ (by rw [hty]; decide)
      (by show pyEndswith d.layer "_SL" = true; rw [hly]; decide)))))
  · exact Or.inr (Or.inr (Or.inr (Or.inr (Or.inl (mem_net_bucket a hd _
      (by rw [hty]; decide)
      (by show pyEndswith d.layer "_3T" = true; rw [hly]; decide))))))
  · exact Or.inr (Or.inr (Or.inr (Or.inr (Or.inl (mem_net_bucket a hd _
      (by rw [hty]; decide)
      (by show pyEndswith d.layer "_3T" = true; rw [hly]; decide))))))
  · exact Or.inr (Or.inr (Or.inr (Or.inr (Or.inl (mem_net_bucket a hd _
      (by rw [hty]; decide)
      (by show pyEndswith d.layer "_3T" = true; rw [hly]; decide))))))
  · exact Or.inr (Or.inr (Or.inr (Or.inr (Or.inr (List.mem_filter.mpr ⟨hd,
      by show (d.type == "Server" || d.type == "Server_Group") = true;
         rw [hty]; decide⟩)))))

theorem devices_nodup (a : Args) : (allDevices a).Nodup := (allDevices_nodup a).of_map

theorem bucket_pairwise (a : Args) : List.Pairwise List.Disjoint
    [(networkDevices a).filter (fun d => d.layer == "DC_Interconnect"),
     (networkDevices a).filter (fun d => d.layer == "Border"),
     (networkDevices a).filter (fun d => pyStartswith d.layer "FT_"),
     (networkDevices a).filter (fun d => pyEndswith d.layer "_SL"),
     (networkDevices a).filter (fun d => pyEndswith d.layer "_3T"),
     serverDevices a] := by
  refine List.Pairwise.cons ?_ (List.Pairwise.cons ?_ (List.Pairwise.cons ?_
    (List.Pairwise.cons ?_ (List.Pairwise.cons ?_ (List.pairwise_singleton _ _)))))
  · intro b hb
    simp only [List.mem_cons, List.not_mem_nil, or_false] at hb
    rcases hb with rfl | rfl | rfl | rfl | rfl
    · exact net_disjoint a (fun ly => ly == "DC_Interconnect") (fun ly => ly == "Border")
        (by decide)
    · exact net_disjoint a (fun ly => ly == "DC_Interconnect")
        (fun ly => pyStartswith ly "FT_") (by decide)
    · exact net_disjoint a (fun ly => ly == "DC_Interconnect")
        (fun ly => pyEndswith ly "_SL") (by decide)
    · exact net_disjoint a (fun ly => ly == "DC_Interconnect")
        (fun ly => pyEndswith ly "_3T") (by decide)
    · exact server_net_disjoint a _
  · intro b hb
    simp only [List.mem_cons, List.not_mem_nil, or_false] at hb
    rcases hb with rfl | rfl | rfl | rfl
    · exact net_disjoint a (fun ly => ly == "Border") (fun ly => pyStartswith ly "FT_")
        (by decide)
    · exact net_disjoint a (fun ly => ly == "Border") (fun ly => pyEndswith ly "_SL")
        (by decide)
    · exact net_disjoint a (fun ly => ly == "Border") (fun ly => pyEndswith ly "_3T")
        (by decide)
    · exact server_net_disjoint a _
  · intro b hb
    simp only [List.mem_cons, List.not_mem_nil, or_false] at hb
    rcases hb with rfl | rfl | rfl
    · exact net_disjoint a (fun ly => pyStartswith ly "FT_") (fun ly => pyEndswith ly "_SL")
        (by decide)
    · exact net_disjoint a (fun ly => pyStartswith ly "FT_") (fun ly => pyEndswith ly "_3T")
        (by decide)
    · exact server_net_disjoint a _
  · intro b hb
    simp only [List.mem_cons, List.not_mem_nil, or_false] at hb
    rcases hb with rfl | rfl
    · exact net_disjoint a (fun ly => pyEndswith ly "_SL") (fun ly => pyEndswith ly "_3T")
        (by decide)
    · exact server_net_disjoint a _
  · intro b hb
    simp only [List.mem_cons, List.not_mem_nil, or_false] at hb
    rcases hb with rfl
    exact server_net_disjoint a _

theorem bucket_perm (a : Args) :
    ((networkDevices a).filter (fun d => d.layer == "DC_Interconnect") ++
     (networkDevices a).filter (fun d => d.layer == "Border") ++
     (networkDevices a).filter (fun d => pyStartswith d.layer "FT_") ++
     (networkDevices a).filter (fun d => pyEndswith d.layer "_SL") ++
     (networkDevices a).filter (fun d => pyEndswith d.layer "_3T") ++
     serverDevices a).Perm (allDevices a) := by
  have n0 := devices_nodup a
  have nNet : (networkDevices a).Nodup := n0.filter _
  have n1 := nNet.filter (fun d => d.layer == "DC_Interconnect")
  have n2 := nNet.filter (fun d => d.layer == "Border")
  have n3 := nNet.filter (fun d => pyStartswith d.layer "FT_")
  have n4 := nNet.filter (fun d => pyEndswith d.layer "_SL")
  have n5 := nNet.filter (fun d => pyEndswith d.layer "_3T")
  have n6 : (serverDevices a).Nodup := n0.filter _
  have d12 := net_disjoint a (fun ly => ly == "DC_Interconnect") (fun ly => ly == "Border")
    (by decide)
  have d13 := net_disjoint a (fun ly => ly == "DC_Interconnect")
    (fun ly => pyStartswith ly "FT_") (by decide)
  have d14 := net_disjoint a (fun ly => ly == "DC_Interconnect")
    (fun ly => pyEndswith ly "_SL") (by decide)
  have d15 := net_disjoint a (fun ly => ly == "DC_Interconnect")
    (fun ly => pyEndswith ly "_3T") (by decide)
  have d23 := net_disjoint a (fun ly => ly == "Border") (fun ly => pyStartswith ly "FT_")
    (by decide)
  have d24 := net_disjoint a (fun ly => ly == "Border") (fun ly => pyEndswith ly "_SL")
    (by decide)
  have d25 := net_disjoint a (fun ly => ly == "Border") (fun ly => pyEndswith ly "_3T")
    (by decide)
  have d34 := net_disjoint a (fun ly => pyStartswith ly "FT_")
    (fun ly => pyEndswith ly "_SL") (by decide)
  have d35 := net_disjoint a (fun ly => pyStartswith ly "FT_")
    (fun ly => pyEndswith ly "_3T") (by decide)
  have d45 := net_disjoint a (fun ly => pyEndswith ly "_SL")
    (fun ly => pyEndswith ly "_3T") (by decide)
  have dS1 := server_net_disjoint a (fun d => d.layer == "DC_Interconnect")
  have dS2 := server_net_disjoint a (fun d => d.layer == "Border")
  have dS3 := server_net_disjoint a (fun d => pyStartswith d.layer "FT_")
  have dS4 := server_net_disjoint a (fun d => pyEndswith d.layer "_SL")
  have dS5 := server_net_disjoint a (fun d => pyEndswith d.layer "_3T")
  refine (List.perm_ext_iff_of_nodup ?_ n0).mpr ?_
  · exact ((((n1.append n2 d12).append n3
      (List.disjoint_append_left.mpr ⟨d13, d23⟩)).append n4
      (List.disjoint_append_left.mpr ⟨List.disjoint_append_left.mpr ⟨d14, d24⟩, d34⟩)).append
      n5 (List.disjoint_append_left.mpr ⟨List.disjoint_append_left.mpr
        ⟨List.disjoint_append_left.mpr ⟨d15, d25⟩, d35⟩, d45⟩)).append n6
      (List.disjoint_append_left.mpr ⟨List.disjoint_append_left.mpr
        ⟨List.disjoint_append_left.mpr ⟨List.disjoint_append_left.mpr ⟨dS1, dS2⟩, dS3⟩,
        dS4⟩, dS5⟩)
  · intro x
    simp only [List.mem_append]
    constructor
    · rintro (((((hx | hx) | hx) | hx) | hx) | hx)
      all_goals
        first
          | exact (List.mem_filter.mp (List.mem_filter.mp hx).1).1
          | exact (List.mem_filter.mp hx).1
    · intro hx
      rcases bucket_cover a x hx with h | h | h | h | h | h <;> simp [h]

theorem serverDevices_eq (a : Args) :
    serverDevices a = (allDevices a).filter (fun d => d.type == "Server_Group") := by
  unfold serverDevices
  refine List.filter_congr ?_
  intro d hd
  rcases allDevices_shape a d hd with ⟨hty, -, -⟩ | ⟨hty, -, -⟩ | ⟨hty, -, -⟩ |
    ⟨hty, -, -⟩ | ⟨hty, -, -⟩ | ⟨hty, -, -⟩ | ⟨hty, -, -⟩ | ⟨hty, -, -⟩ |
    ⟨hty, -, -⟩ | ⟨hty, -, -⟩ | ⟨hty, -, -⟩ <;> simp [hty]

theorem populated_layers (a : Args) :
    (∃ d ∈ allDevices a, d.layer = "FT_Core") ∧
    (∃ d ∈ allDevices a, d.layer = "FT_Aggregation") ∧
    (∃ d ∈ allDevices a, d.layer = "FT_Edge") ∧
    (∃ d ∈ allDevices a, d.layer = "Spine_SL") ∧
    (∃ d ∈ allDevices a, d.layer = "Leaf_SL") ∧
    (∃ d ∈ allDevices a, d.layer = "Core_3T") ∧
    (∃ d ∈ allDevices a, d.layer = "Aggregation_3T") ∧
    (∃ d ∈ allDevices a, d.layer = "Access_3T") := by
  refine ⟨?_, ?_, ?_, ?_, ?_, ?_, ?_, ?_⟩
  · have hcnt : 0 < ((ftRun a).1.devices.filter
        (fun d => d.type == "FatTree_Core_Spine")).length := by
      rw [(ftRun_spec a).2.2.2.2.2.2.1]
      exact scaledParam_pos 4 a.fat_tree_scale
    obtain ⟨d, hd, hly⟩ := @exists_layer_of_type_count ((ftRun a).1.devices)
      "FatTree_Core_Spine" "FT_Core" hcnt (fun d hd hty => by
        rcases (ftRun_spec a).2.2.2.1 d hd with ⟨h1, h2, -⟩ | ⟨h1, h2, -⟩ | ⟨h1, h2, -⟩ |
          ⟨h1, h2, -⟩ <;>
          first
            | exact h2
            | (rw [h1] at hty; exact absurd hty (by decide)))
    exact ⟨d, dev_all_of_ft a hd, hly⟩
  · have hcnt : 0 < ((ftRun a).1.devices.filter
        (fun d => d.type == "FatTree_Agg_Spine")).length := by
      rw [(ftRun_spec a).2.2.2.2.2.2.2.1]
      exact Nat.mul_pos (scaledParam_pos 4 a.fat_tree_scale)
        (scaledParam_pos 5 a.fat_tree_scale)
    obtain ⟨d, hd, hly⟩ := @exists_layer_of_type_count ((ftRun a).1.devices)
      "FatTree_Agg_Spine" "FT_Aggregation" hcnt (fun d hd hty => by
        rcases (ftRun_spec a).2.2.2.1 d hd with ⟨h1, h2, -⟩ | ⟨h1, h2, -⟩ | ⟨h1, h2, -⟩ |
          ⟨h1, h2, -⟩ <;>
          first
            | exact h2
            | (rw [h1] at hty; exact absurd hty (by decide)))
    exact ⟨d, dev_all_of_ft a hd, hly⟩
  · have hcnt : 0 < ((ftRun a).1.devices.filter
        (fun d => d.type == "FatTree_Edge_Leaf")).length := by
      rw [(ftRun_spec a).2.2.2.2.2.2.2.2]
      exact Nat.mul_pos (Nat.mul_pos (scaledParam_pos 4 a.fat_tree_scale)
        (scaledParam_pos 5 a.fat_tree_scale)) (scaledParam_pos 20 a.fat_tree_scale)
    obtain ⟨d, hd, hly⟩ := @exists_layer_of_type_count ((ftRun a).1.devices)
      "FatTree_Edge_Leaf" "FT_Edge" hcnt (fun d hd hty => by
        rcases (ftRun_spec a).2.2.2.1 d hd with ⟨h1, h2, -⟩ | ⟨h1, h2, -⟩ | ⟨h1, h2, -⟩ |
          ⟨h1, h2, -⟩ <;>
          first
            | exact h2
            | (rw [h1] at hty; exact absurd hty (by decide)))
    exact ⟨d, dev_all_of_ft a hd, hly⟩
  · have hcnt : 0 < ((slRun a).1.devices.filter
        (fun d => d.type == "Spine_Switch")).length := by
      rw [(slRun_spec a).2.2.2.2.2.2.1]
      exact scaledParam_pos 8 a.spine_leaf_scale
    obtain ⟨d, hd, hly⟩ := @exists_layer_of_type_count ((slRun a).1.devices)
      "Spine_Switch" "Spine_SL" hcnt (fun d hd hty => by
        rcases (slRun_spec a).2.2.2.1 d hd with ⟨h1, h2, -⟩ | ⟨h1, h2, -⟩ | ⟨h1, h2, -⟩ <;>
          first
            | exact h2
            | (rw [h1] at hty; exact absurd hty (by decide)))
    exact ⟨d, dev_all_of_sl a hd, hly⟩
  · have hcnt : 0 < ((slRun a).1.devices.filter
        (fun d => d.type == "Leaf_Switch")).length := by
      rw [(slRun_spec a).2.2.2.2.2.2.2]
      exact slLeafCount_pos a
    obtain ⟨d, hd, hly⟩ := @exists_layer_of_type_count ((slRun a).1.devices)
      "Leaf_Switch" "Leaf_SL" hcnt (fun d hd hty => by
        rcases (slRun_spec a).2.2.2.1 d hd with ⟨h1, h2, -⟩ | ⟨h1, h2, -⟩ | ⟨h1, h2, -⟩ <;>
          first
            | exact h2
            | (rw [h1] at hty; exact absurd hty (by decide)))
    exact ⟨d, dev_all_of_sl a hd, hly⟩
  · have hcnt : 0 < ((ttRun a).1.devices.filter
        (fun d => d.type == "Core_Switch")).length := by
      rw [(ttRun_spec a).2.2.2.2.2.2.1]
      exact scaledParam_pos 2 a.three_tier_scale
    obtain ⟨d, hd, hly⟩ := @exists_layer_of_type_count ((ttRun a).1.devices)
      "Core_Switch" "Core_3T" hcnt (fun d hd hty => by
        rcases (ttRun_spec a).2.2.2.1 d hd with ⟨h1, h2, -⟩ | ⟨h1, h2, -⟩ | ⟨h1, h2, -⟩ |
          ⟨h1, h2, -⟩ <;>
          first
            | exact h2
            | (rw [h1] at hty; exact absurd hty (by decide)))
    exact ⟨d, dev_all_of_tt a hd, hly⟩
  · have hcnt : 0 < ((ttRun a).1.devices.filter
        (fun d => d.type == "Aggregation_Switch")).length := by
      rw [(ttRun_spec a).2.2.2.2.2.2.2.1]
      exact Nat.mul_pos (scaledParam_pos 2 a.three_tier_scale)
        (scaledParam_pos 10 a.three_tier_scale)
    obtain ⟨d, hd, hly⟩ := @exists_layer_of_type_count ((ttRun a).1.devices)
      "Aggregation_Switch" "Aggregation_3T" hcnt (fun d hd hty => by
        rcases (ttRun_spec a).2.2.2.1 d hd with ⟨h1, h2, -⟩ | ⟨h1, h2, -⟩ | ⟨h1, h2, -⟩ |
          ⟨h1, h2, -⟩ <;>
          first
            | exact h2
            | (rw [h1] at hty; exact absurd hty (by decide)))
    exact ⟨d, dev_all_of_tt a hd, hly⟩
  · have hcnt : 0 < ((ttRun a).1.devices.filter
        (fun d => d.type == "Access_Switch")).length := by
      rw [(ttRun_spec a).2.2.2.2.2.2.2.2]
      exact Nat.mul_pos (Nat.mul_pos (scaledParam_pos 2 a.three_tier_scale)
        (scaledParam_pos 10 a.three_tier_scale)) (scaledParam_pos 5 a.three_tier_scale)
    obtain ⟨d, hd, hly⟩ := @exists_layer_of_type_count ((ttRun a).1.devices)
      "Access_Switch" "Access_3T" hcnt (fun d hd hty => by
        rcases (ttRun_spec a).2.2.2.1 d hd with ⟨h1, h2, -⟩ | ⟨h1, h2, -⟩ | ⟨h1, h2, -⟩ |
          ⟨h1, h2, -⟩ <;>
          first
            | exact h2
            | (rw [h1] at hty; exact absurd hty (by decide)))
    exact ⟨d, dev_all_of_tt a hd, hly⟩

/-- C1: for every combination of scale factors, total_target_devices and
location settings, all device ids in the topology produced by one call to
`create_datacenter_topology` are pairwise distinct — allocator-issued
switch ids and derived `Server_Group` ids alike. -/
theorem claim_C1_device_ids_unique (ftS slS ttS : ℚ) (total : ℤ) (loc : Option String)
    (delim : String) (rng : ℕ → ℕ) :
    ((create_datacenter_topology ftS slS ttS total loc delim rng).devices.map
      Device.id).Nodup :=
  allDevices_nodup ⟨ftS, slS, ttS, total, mkCfg loc delim, locTruthy loc, rng⟩

/-- C2: in every topology produced by `create_datacenter_topology`, each
connection's `from` and `to` field either equals the id of some device of
the device sequence or is one of the three external placeholder names
(External_ISP_Router, WAN_Router_or_SDWAN_Hub, Security_Appliance, with
the optional location suffix). -/
theorem claim_C2_connection_closure (ftS slS ttS : ℚ) (total : ℤ) (loc : Option String)
    (delim : String) (rng : ℕ → ℕ) :
    ∀ c ∈ (create_datacenter_topology ftS slS ttS total loc delim rng).connections,
      (c.cfrom ∈ (create_datacenter_topology ftS slS ttS total loc delim rng).devices.map
          Device.id ∨ c.cfrom ∈ extNames (mkCfg loc delim)) ∧
      (c.cto ∈ (create_datacenter_topology ftS slS ttS total loc delim rng).devices.map
          Device.id ∨ c.cto ∈ extNames (mkCfg loc delim)) := by
  intro c hc
  have h := allConnections_closure ⟨ftS, slS, ttS, total, mkCfg loc delim, locTruthy loc,
    rng⟩ c hc
  exact ⟨Or.inl h.1, h.2⟩

theorem claim_C2_connection_closure_witness :
    ∃ c ∈ (create_datacenter_topology 1 1 1 1000 none "." (fun _ => 0)).connections,
      (c.cfrom ∈ (create_datacenter_topology 1 1 1 1000 none "." (fun _ => 0)).devices.map
          Device.id ∨ c.cfrom ∈ extNames (mkCfg none ".")) ∧
      (c.cto ∈ (create_datacenter_topology 1 1 1 1000 none "." (fun _ => 0)).devices.map
          Device.id ∨ c.cto ∈ extNames (mkCfg none ".")) := by
  obtain ⟨c, hc⟩ := exists_conn ⟨1, 1, 1, 1000, mkCfg none ".", locTruthy none, fun _ => 0⟩
  exact ⟨c, hc, claim_C2_connection_closure 1 1 1 1000 none "." (fun _ => 0) c hc⟩

/-- C3 (amended): the composer builds exactly
max(1, int(totalTargetDevices * 0.01)) Interconnect devices of type
DC_Core_Interconnect_Switch and exactly max(1, int(totalTargetDevices * 0.03))
Border devices of type Border_Leaf_Switch, where int truncates toward zero
(the original claim's `round` does not match the code); at
totalTargetDevices = 100 this still yields 1 Interconnect and 3 Border
devices. -/
theorem claim_C3_layer_counts :
    (∀ (ftS slS ttS : ℚ) (total : ℤ) (loc : Option String) (delim : String)
      (rng : ℕ → ℕ),
      ((create_datacenter_topology ftS slS ttS total loc delim rng).devices.filter
        (fun d => d.type == "DC_Core_Interconnect_Switch")).length
        = (max 1 (pyInt ((total : ℚ) * (1 / 100)))).toNat ∧
      ((create_datacenter_topology ftS slS ttS total loc delim rng).devices.filter
        (fun d => d.type == "Border_Leaf_Switch")).length
        = (max 1 (pyInt ((total : ℚ) * (3 / 100)))).toNat) ∧
    icCount 100 = 1 ∧ blCount 100 = 3 := by
  refine ⟨fun ftS slS ttS total loc delim rng => ?_, ?_, ?_⟩
  · exact ⟨ic_filter_count ⟨ftS, slS, ttS, total, mkCfg loc delim, locTruthy loc, rng⟩,
      bl_filter_count ⟨ftS, slS, ttS, total, mkCfg loc delim, locTruthy loc, rng⟩⟩
  · unfold icCount
    rw [show pyInt (((100 : ℤ) : ℚ) * (1 / 100)) = 1 from
      pyInt_eval (by norm_num) (by norm_num) (by norm_num)]
    norm_num
  · unfold blCount
    rw [show pyInt (((100 : ℤ) : ℚ) * (3 / 100)) = 3 from
      pyInt_eval (by norm_num) (by norm_num) (by norm_num)]
    norm_num
    rfl

/-- C3 counterexample: at totalTargetDevices = 190 the code builds
max(1, int(5.7)) = 5 Border devices, not the max(1, round(5.7)) = 6 the
original claim asks for. -/
theorem claim_C3_counterexample :
    ¬ ((((create_datacenter_topology 0 0 0 190 none "." (fun _ => 0)).devices.filter
      (fun d => d.type == "Border_Leaf_Switch")).length : ℤ)
      = max 1 (round ((190 : ℚ) * (3 / 100)))) := by
  have hbl : blCount 190 = 5 := by
    unfold blCount
    rw [show pyInt (((190 : ℤ) : ℚ) * (3 / 100)) = 5 from
      pyInt_eval (by norm_num) (by norm_num) (by norm_num)]
    norm_num
    rfl
  have hround : max 1 (round ((190 : ℚ) * (3 / 100))) = 6 := by
    rw [show ((190 : ℚ) * (3 / 100)) = 57 / 10 from by norm_num,
      show round ((57 : ℚ) / 10) = 6 from by norm_num [round_eq]]
    exact max_eq_right (by norm_num)
  have hc2 : ((create_datacenter_topology 0 0 0 190 none "." (fun _ => 0)).devices.filter
      (fun d => d.type == "Border_Leaf_Switch")).length = 5 := by
    have h := bl_filter_count ⟨0, 0, 0, 190, mkCfg none ".", locTruthy none, fun _ => 0⟩
    rw [show (⟨0, 0, 0, 190, mkCfg none ".", locTruthy none,
      fun _ => 0⟩ : Args).total_target_devices = 190 from rfl, hbl] at h
    exact h
  rw [hc2, hround]
  decide

/-- C4 (amended): `create_spine_leaf_topology` generates
int(numLeavesPerSpineBase * numSpines) leaf devices — truncation toward
zero, not the original claim's `round` — except that a computed value of
exactly 0 with spines present yields 1 leaf, and no leaves (or other
devices) are generated when numSpines = 0; `slLeafCount` is that leaf
count. -/
theorem claim_C4_leaf_count (num_spines : ℕ) (base : ℚ) (add : Bool) (cfg : LocCfg)
    (s : GenState) :
    ((create_spine_leaf_topology num_spines base add cfg s).1.devices.filter
      (fun d => d.type == "Leaf_Switch")).length = slLeafCount num_spines base :=
  (create_spine_leaf_spec num_spines base add cfg s).2.2.2.2.2.2.2.1

/-- C4 counterexample: at numSpines = 1 and numLeavesPerSpineBase = 3/2
the builder generates int(1.5) = 1 leaf, not the round(1.5) = 2 the
original claim asks for. -/
theorem claim_C4_counterexample :
    ¬ ((((create_spine_leaf_topology 1 (3 / 2) true ⟨"", ""⟩
      ⟨0, fun _ => 0, 0⟩).1.devices.filter
      (fun d => d.type == "Leaf_Switch")).length : ℤ)
      = round ((3 / 2 : ℚ) * ((1 : ℕ) : ℚ))) := by
  have hval : slLeafCount 1 (3 / 2) = 1 := by
    unfold slLeafCount slLeafCountZ
    rw [show pyInt ((3 / 2 : ℚ) * ((1 : ℕ) : ℚ)) = 1 from
      pyInt_eval (by norm_num) (by norm_num) (by norm_num)]
    norm_num
  have hround : round ((3 / 2 : ℚ) * ((1 : ℕ) : ℚ)) = 2 := by
    rw [show ((3 / 2 : ℚ) * ((1 : ℕ) : ℚ)) = 3 / 2 from by norm_num]
    norm_num [round_eq]
  have hcnt : ((create_spine_leaf_topology 1 (3 / 2) true ⟨"", ""⟩
      ⟨0, fun _ => 0, 0⟩).1.devices.filter
      (fun d => d.type == "Leaf_Switch")).length = 1 := by
    have h := (create_spine_leaf_spec 1 (3 / 2) true ⟨"", ""⟩
      ⟨0, fun _ => 0, 0⟩).2.2.2.2.2.2.2.1
    rw [hval] at h
    exact h
  rw [hcnt, hround]
  decide

/-- C5: every sizing parameter the composer passes to a tier builder is of
the form max(1, int(base * scale)) and hence at least 1 — for every scale
factor, including values ≤ 0 and fractional values truncating to 0 — so
each populated layer of each pod contains at least one device. -/
theorem claim_C5_minimal_floor (ftS slS ttS : ℚ) (total : ℤ) (loc : Option String)
    (delim : String) (rng : ℕ → ℕ) :
    (1 ≤ scaledParam 4 ftS ∧ 1 ≤ scaledParam 5 ftS ∧ 1 ≤ scaledParam 20 ftS ∧
     1 ≤ scaledParam 8 slS ∧ (1 : ℤ) ≤ max 1 (pyInt ((40 : ℚ) * slS)) ∧
     1 ≤ scaledParam 2 ttS ∧ 1 ≤ scaledParam 10 ttS ∧ 1 ≤ scaledParam 5 ttS) ∧
    (∃ d ∈ (create_datacenter_topology ftS slS ttS total loc delim rng).devices,
      d.layer = "FT_Core") ∧
    (∃ d ∈ (create_datacenter_topology ftS slS ttS total loc delim rng).devices,
      d.layer = "FT_Aggregation") ∧
    (∃ d ∈ (create_datacenter_topology ftS slS ttS total loc delim rng).devices,
      d.layer = "FT_Edge") ∧
    (∃ d ∈ (create_datacenter_topology ftS slS ttS total loc delim rng).devices,
      d.layer = "Spine_SL") ∧
    (∃ d ∈ (create_datacenter_topology ftS slS ttS total loc delim rng).devices,
      d.layer = "Leaf_SL") ∧
    (∃ d ∈ (create_datacenter_topology ftS slS ttS total loc delim rng).devices,
      d.layer = "Core_3T") ∧
    (∃ d ∈ (create_datacenter_topology ftS slS ttS total loc delim rng).devices,
      d.layer = "Aggregation_3T") ∧
    (∃ d ∈ (create_datacenter_topology ftS slS ttS total loc delim rng).devices,
      d.layer = "Access_3T") := by
  obtain ⟨e1, e2, e3, e4, e5, e6, e7, e8⟩ :=
    populated_layers ⟨ftS, slS, ttS, total, mkCfg loc delim, locTruthy loc, rng⟩
  exact ⟨⟨scaledParam_pos 4 ftS, scaledParam_pos 5 ftS, scaledParam_pos 20 ftS,
    scaledParam_pos 8 slS, le_max_left 1 _, scaledParam_pos 2 ttS,
    scaledParam_pos 10 ttS, scaledParam_pos 5 ttS⟩, e1, e2, e3, e4, e5, e6, e7, e8⟩

/-- C6: in every produced topology, whenever the Interconnect bucket is
non-empty, each top-level pod device (layer FT_Core, Spine_SL or Core_3T)
and each Border_Leaf_Switch is the `from` endpoint of at least one
connection whose `to` endpoint is the id of an Interconnect device. -/
theorem claim_C6_top_level_wired (ftS slS ttS : ℚ) (total : ℤ) (loc : Option String)
    (delim : String) (rng : ℕ → ℕ)
    (hne : (create_datacenter_topology ftS slS ttS total loc delim
      rng).dc_interconnect_layer ≠ []) :
    ∀ d ∈ (create_datacenter_topology ftS slS ttS total loc delim rng).devices,
      (d.layer = "FT_Core" ∨ d.layer = "Spine_SL" ∨ d.layer = "Core_3T"
        ∨ d.type = "Border_Leaf_Switch") →
      ∃ c ∈ (create_datacenter_topology ftS slS ttS total loc delim rng).connections,
        c.cfrom = d.id ∧
        c.cto ∈ ((create_datacenter_topology ftS slS ttS total loc delim
          rng).devices.filter
          (fun x => x.type == "DC_Core_Interconnect_Switch")).map Device.id :=
  fun d hd htop =>
    topLevel_wired ⟨ftS, slS, ttS, total, mkCfg loc delim, locTruthy loc, rng⟩ d hd htop

theorem claim_C6_top_level_wired_witness :
    ((create_datacenter_topology 1 1 1 1000 none "." (fun _ => 0)).dc_interconnect_layer
      ≠ []) ∧
    (∀ d ∈ (create_datacenter_topology 1 1 1 1000 none "." (fun _ => 0)).devices,
      (d.layer = "FT_Core" ∨ d.layer = "Spine_SL" ∨ d.layer = "Core_3T"
        ∨ d.type = "Border_Leaf_Switch") →
      ∃ c ∈ (create_datacenter_topology 1 1 1 1000 none "." (fun _ => 0)).connections,
        c.cfrom = d.id ∧
        c.cto ∈ ((create_datacenter_topology 1 1 1 1000 none "."
          (fun _ => 0)).devices.filter
          (fun x => x.type == "DC_Core_Interconnect_Switch")).map Device.id) :=
  ⟨ic_bucket_ne_nil ⟨1, 1, 1, 1000, mkCfg none ".", locTruthy none, fun _ => 0⟩,
   claim_C6_top_level_wired 1 1 1 1000 none "." (fun _ => 0)
     (ic_bucket_ne_nil ⟨1, 1, 1, 1000, mkCfg none ".", locTruthy none, fun _ => 0⟩)⟩

/-- C7: the three-tier builder called with numCore = 2, numAggPerCore = 3,
numAccessPerAgg = 2 and addServers = true returns exactly 2 core, 6
aggregation, 12 access and 12 Server_Group devices, and exactly 30
connections: 6 aggregation-to-core, 12 access-to-aggregation, 12
access-to-server. -/
theorem claim_C7_three_tier_instance (cfg : LocCfg) (s : GenState) :
    ((create_three_tier_topology 2 3 2 true cfg s).1.devices.filter
      (fun d => d.type == "Core_Switch")).length = 2 ∧
    ((create_three_tier_topology 2 3 2 true cfg s).1.devices.filter
      (fun d => d.type == "Aggregation_Switch")).length = 6 ∧
    ((create_three_tier_topology 2 3 2 true cfg s).1.devices.filter
      (fun d => d.type == "Access_Switch")).length = 12 ∧
    ((create_three_tier_topology 2 3 2 true cfg s).1.devices.filter
      (fun d => d.type == "Server_Group")).length = 12 ∧
    (create_three_tier_topology 2 3 2 true cfg s).1.connections.length = 30 ∧
    ((create_three_tier_topology 2 3 2 true cfg s).1.connections.filter
      (fun c => c.link_type == "L2_trunk_L3_routed")).length = 6 ∧
    ((create_three_tier_topology 2 3 2 true cfg s).1.connections.filter
      (fun c => c.link_type == "L2_trunk")).length = 12 ∧
    ((create_three_tier_topology 2 3 2 true cfg s).1.connections.filter
      (fun c => c.link_type == "L2_access")).length = 12 := by
  have h := create_three_tier_spec 2 3 2 true cfg s
  refine ⟨h.2.2.2.2.2.2.1, ?_, ?_, ?_, ?_, ?_, ?_, ?_⟩
  · simpa using h.2.2.2.2.2.2.2.1
  · simpa using h.2.2.2.2.2.2.2.2.1
  · simpa using h.2.2.2.2.2.2.2.2.2.1
  · simpa using h.2.2.2.2.2.2.2.2.2.2.1
  · simpa using h.2.2.2.2.2.2.2.2.2.2.2.1
  · simpa using h.2.2.2.2.2.2.2.2.2.2.2.2.1
  · simpa using h.2.2.2.2.2.2.2.2.2.2.2.2.2

/-- C8: with dc_location = "a" and delimiter "-", the first device id
allocated in the run (the first Core Interconnect switch, at counter 1) is
the string "DCCore-0001-A": a prefixed dash-separated four-digit
zero-padded counter followed by the delimiter and the uppercased location
suffix. -/
theorem claim_C8_first_id (ftS slS ttS : ℚ) (total : ℤ) (rng : ℕ → ℕ) :
    ((create_datacenter_topology ftS slS ttS total (some "a") "-" rng).devices.map
      Device.id).head? = some "DCCore-0001-A" := by
  show ((allDevices ⟨ftS, slS, ttS, total, mkCfg (some "a") "-", locTruthy (some "a"),
    rng⟩).map Device.id).head? = some "DCCore-0001-A"
  rw [List.head?_map, allDevices_head]
  rfl

/-- C9: the six layers_and_pods buckets (DC Interconnect, Border, Fat-Tree
pod, Spine-Leaf pod, Three-Tier pod, Endpoint) are pairwise disjoint and
their concatenation is a permutation of the full device sequence; the
Endpoint bucket holds exactly the devices of type Server_Group. -/
theorem claim_C9_bucket_partition (ftS slS ttS : ℚ) (total : ℤ) (loc : Option String)
    (delim : String) (rng : ℕ → ℕ) :
    List.Pairwise List.Disjoint
      [(create_datacenter_topology ftS slS ttS total loc delim rng).dc_interconnect_layer,
       (create_datacenter_topology ftS slS ttS total loc delim rng).border_layer,
       (create_datacenter_topology ftS slS ttS total loc delim rng).fat_tree_pod,
       (create_datacenter_topology ftS slS ttS total loc delim rng).spine_leaf_pod,
       (create_datacenter_topology ftS slS ttS total loc delim rng).three_tier_pod,
       (create_datacenter_topology ftS slS ttS total loc delim rng).endpoint_layer] ∧
    ((create_datacenter_topology ftS slS ttS total loc delim rng).dc_interconnect_layer ++
     (create_datacenter_topology ftS slS ttS total loc delim rng).border_layer ++
     (create_datacenter_topology ftS slS ttS total loc delim rng).fat_tree_pod ++
     (create_datacenter_topology ftS slS ttS total loc delim rng).spine_leaf_pod ++
     (create_datacenter_topology ftS slS ttS total loc delim rng).three_tier_pod ++
     (create_datacenter_topology ftS slS ttS total loc delim rng).endpoint_layer).Perm
      (create_datacenter_topology ftS slS ttS total loc delim rng).devices ∧
    (create_datacenter_topology ftS slS ttS total loc delim rng).endpoint_layer
      = (create_datacenter_topology ftS slS ttS total loc delim rng).devices.filter
          (fun d => d.type == "Server_Group") :=
  ⟨bucket_pairwise ⟨ftS, slS, ttS, total, mkCfg loc delim, locTruthy loc, rng⟩,
   bucket_perm ⟨ftS, slS, ttS, total, mkCfg loc delim, locTruthy loc, rng⟩,
   serverDevices_eq ⟨ftS, slS, ttS, total, mkCfg loc delim, locTruthy loc, rng⟩⟩

/-- C10: calling `create_datacenter_topology` with dc_location = "" is
identical to calling it with no location: the whole output topology is
equal, no delimiter or suffix is appended (the location tag is empty),
datacenter_name falls back to "Mixed_Topology_DC_Default", and the
parameters echo reports "N/A" for suffix and delimiter. -/
theorem claim_C10_empty_location (ftS slS ttS : ℚ) (total : ℤ) (delim : String)
    (rng : ℕ → ℕ) :
    create_datacenter_topology ftS slS ttS total (some "") delim rng
      = create_datacenter_topology ftS slS ttS total none delim rng ∧
    locTag (mkCfg (some "") delim) = "" ∧
    (create_datacenter_topology ftS slS ttS total (some "") delim rng).datacenter_name
      = "Mixed_Topology_DC_Default" ∧
    (create_datacenter_topology ftS slS ttS total (some "") delim
      rng).parameters.datacenter_location_suffix = "N/A" ∧
    (create_datacenter_topology ftS slS ttS total (some "") delim
      rng).parameters.location_id_delimiter = "N/A" :=
  ⟨rfl, rfl, rfl, rfl, rfl⟩
